import Mathlib

/-!
# Columnar mesh data, the half-edge bridge and normal computation

A shallow embedding of `core/mesh_data.hpp`, `core/mesh_data.cpp` and
`io/mesh/openmesh_bridge.cpp`.

Conventions of the embedding:

* a `float` is the rational number it denotes and arithmetic on it is exact
  (binary32 rounding, infinities and NaN are not modelled);
* `int32_t`, `int64_t` and `size_t` values are integers or naturals; the one
  counter whose width matters, `generation_` (a `uint32_t`), wraps explicitly;
* an `assert` that fails, and a checked element access that is out of range,
  make the enclosing function return `none`;
* `for (i = 0; i < n; ++i)` is `forLoop body n`.
-/

namespace Lfs

/-! ## Control flow -/

/-- The loop `for (i = 0; i < n; ++i) body(i)` over a state, stopping at the
first failing iteration. -/
def forLoop {σ : Type} (body : Nat → σ → Option σ) : Nat → σ → Option σ
  | 0, s => some s
  | n + 1, s => (forLoop body n s).bind (body n)

/-- The largest value of `int`, `std::numeric_limits<int>::max()`. -/
def INT_MAX : Nat := 2147483647

/-! ## Small vectors -/

/-- Three float components: `TriMesh::Point`, `TriMesh::Normal`. -/
structure Vec3f where
  x : ℚ
  y : ℚ
  z : ℚ
deriving DecidableEq

/-- Two float components: `TriMesh::TexCoord2D`. -/
structure Vec2f where
  u : ℚ
  v : ℚ
deriving DecidableEq

/-- Three 8-bit components: `TriMesh::Color` of the default traits. -/
structure Vec3uc where
  r : Nat
  g : Nat
  b : Nat
deriving DecidableEq

/-! ## Typed buffers -/

/-- Memory residency of a buffer: `lfs::core::Device`. -/
inductive Device
  | CPU
  | CUDA
deriving DecidableEq

/-- Element type of a buffer: the two `lfs::core::DataType` values the mesh
model uses. -/
inductive DataType
  | Float32
  | Int32
deriving DecidableEq

/-- Modelled from the spec: the element storage of a typed buffer, addressed
by multi-index (`core/tensor.hpp` is not among the sources). -/
inductive Storage
  | f32 (a : List Nat → ℚ)
  | i32 (a : List Nat → Int)

/-- Modelled from the spec: the typed buffer `lfs::core::Tensor`
(`core/tensor.hpp` is not among the sources): either not validly allocated,
or an n-dimensional typed array with a shape, a residency and elements. -/
inductive Tensor
  | invalid
  | alloc (shape : List Nat) (device : Device) (storage : Storage)

/-- Element type held by a storage. -/
def Storage.dtype : Storage → DataType
  | Storage.f32 _ => DataType.Float32
  | Storage.i32 _ => DataType.Int32

/-- Fresh storage of the given element type (uninitialised in the source,
zero here). -/
def Storage.fresh : DataType → Storage
  | DataType.Float32 => Storage.f32 (fun _ => 0)
  | DataType.Int32 => Storage.i32 (fun _ => 0)

namespace Tensor

/-- Modelled from the spec: `is_valid()`. -/
def is_valid : Tensor → Bool
  | invalid => false
  | alloc _ _ _ => true

/-- Modelled from the spec: `shape()`; a tensor that is not allocated has no
dimensions. -/
def shape : Tensor → List Nat
  | invalid => []
  | alloc s _ _ => s

/-- Modelled from the spec: `ndim()`. -/
def ndim (t : Tensor) : Nat := t.shape.length

/-- Modelled from the spec: `shape()[k]`. -/
def dim (t : Tensor) (k : Nat) : Nat := t.shape.getD k 0

/-- Modelled from the spec: `numel()`, the product of the dimensions. -/
def numel : Tensor → Nat
  | invalid => 0
  | alloc s _ _ => s.prod

/-- Modelled from the spec: `dtype()`. -/
def dtype : Tensor → Option DataType
  | invalid => none
  | alloc _ _ st => some st.dtype

/-- Modelled from the spec: `device()`. -/
def device : Tensor → Option Device
  | invalid => none
  | alloc _ d _ => some d

/-- Modelled from the spec: `Tensor::empty(shape, device, dtype)`. -/
def empty (shape : List Nat) (device : Device) (dtype : DataType) : Tensor :=
  alloc shape device (Storage.fresh dtype)

/-- Modelled from the spec: `to(device)` (the word `to` is reserved here):
the same elements on the requested residency. -/
def to_device : Tensor → Device → Tensor
  | invalid, _ => invalid
  | alloc s _ st, d => alloc s d st

/-- Modelled from the spec: `contiguous()`; the memory layout is not
modelled. -/
def contiguous (t : Tensor) : Tensor := t

/-- Modelled from the spec: the read `accessor<float, 2>()(i, j)`, checked
for element type, rank and bounds. -/
def getF : Tensor → Nat → Nat → Option ℚ
  | alloc [r, c] _ (Storage.f32 a), i, j => if i < r ∧ j < c then some (a [i, j]) else none
  | _, _, _ => none

/-- Modelled from the spec: the write `accessor<float, 2>()(i, j) = v`. -/
def setF : Tensor → Nat → Nat → ℚ → Option Tensor
  | alloc [r, c] d (Storage.f32 a), i, j, v =>
    if i < r ∧ j < c then some (alloc [r, c] d (Storage.f32 (Function.update a [i, j] v))) else none
  | _, _, _, _ => none

/-- Modelled from the spec: the read `accessor<int32_t, 2>()(i, j)`. -/
def getI : Tensor → Nat → Nat → Option Int
  | alloc [r, c] _ (Storage.i32 a), i, j => if i < r ∧ j < c then some (a [i, j]) else none
  | _, _, _ => none

/-- Modelled from the spec: the write `accessor<int32_t, 2>()(i, j) = v`. -/
def setI : Tensor → Nat → Nat → Int → Option Tensor
  | alloc [r, c] d (Storage.i32 a), i, j, v =>
    if i < r ∧ j < c then some (alloc [r, c] d (Storage.i32 (Function.update a [i, j] v))) else none
  | _, _, _, _ => none

end Tensor

/-! ## The mesh data model (`core/mesh_data.hpp`) -/

/-- The material descriptor of `core/material.hpp` (payload only). -/
structure Material where
  base_color : ℚ × ℚ × ℚ × ℚ := (1, 1, 1, 1)
  emissive : ℚ × ℚ × ℚ := (0, 0, 0)
  metallic : ℚ := 0
  roughness : ℚ := 1
  ao : ℚ := 1
  albedo_tex : Nat := 0
  normal_tex : Nat := 0
  metallic_roughness_tex : Nat := 0
  emissive_tex : Nat := 0
  ao_tex : Nat := 0
  albedo_tex_path : String := ""
  normal_tex_path : String := ""
  metallic_roughness_tex_path : String := ""
  double_sided : Bool := false
  name : String := ""
deriving DecidableEq

/-- A decoded pixel buffer: `TextureImage`. -/
structure TextureImage where
  pixels : List Nat := []
  width : Int := 0
  height : Int := 0
  channels : Int := 0
deriving DecidableEq

/-- A range of `indices` drawn with one material: `Submesh`. -/
structure Submesh where
  start_index : Nat := 0
  index_count : Nat := 0
  material_index : Nat := 0
deriving DecidableEq

/-- The columnar mesh `lfs::core::MeshData`; the default values are those of
the default constructor. -/
structure MeshData where
  vertices : Tensor := Tensor.invalid
  normals : Tensor := Tensor.invalid
  tangents : Tensor := Tensor.invalid
  texcoords : Tensor := Tensor.invalid
  colors : Tensor := Tensor.invalid
  indices : Tensor := Tensor.invalid
  materials : List Material := []
  submeshes : List Submesh := []
  texture_images : List TextureImage := []
  generation_ : Nat := 0

namespace MeshData

/-- The constructor `MeshData(Tensor verts, Tensor idx)` with its four
assertions. -/
def construct (verts idx : Tensor) : Option MeshData :=
  if ¬ (verts.ndim = 2 ∧ verts.dim 1 = 3) then none
  else if ¬ (verts.dtype = some DataType.Float32) then none
  else if ¬ (idx.ndim = 2 ∧ idx.dim 1 = 3) then none
  else if ¬ (idx.dtype = some DataType.Int32) then none
  else some { vertices := verts, indices := idx }

/-- The query `vertex_count()`. -/
def vertex_count (m : MeshData) : Nat :=
  if m.vertices.is_valid then m.vertices.dim 0 else 0

/-- The query `face_count()`. -/
def face_count (m : MeshData) : Nat :=
  if m.indices.is_valid then m.indices.dim 0 else 0

/-- The query `has_normals()`. -/
def has_normals (m : MeshData) : Bool := m.normals.is_valid && decide (m.normals.numel > 0)

/-- The query `has_tangents()`. -/
def has_tangents (m : MeshData) : Bool := m.tangents.is_valid && decide (m.tangents.numel > 0)

/-- The query `has_texcoords()`. -/
def has_texcoords (m : MeshData) : Bool := m.texcoords.is_valid && decide (m.texcoords.numel > 0)

/-- The query `has_colors()`. -/
def has_colors (m : MeshData) : Bool := m.colors.is_valid && decide (m.colors.numel > 0)

/-- The query `generation()`. -/
def generation (m : MeshData) : Nat := m.generation_

/-- The mutation `mark_dirty()`: `fetch_add(1)` on a `uint32_t`. -/
def mark_dirty (m : MeshData) : MeshData :=
  { m with generation_ := (m.generation_ + 1) % 2 ^ 32 }

/-- The copy `to(device)` (the word `to` is reserved here). -/
def to_device (m : MeshData) (device : Device) : MeshData :=
  { vertices := if m.vertices.is_valid then m.vertices.to_device device else m.vertices
    normals := if m.normals.is_valid then m.normals.to_device device else m.normals
    tangents := if m.tangents.is_valid then m.tangents.to_device device else m.tangents
    texcoords := if m.texcoords.is_valid then m.texcoords.to_device device else m.texcoords
    colors := if m.colors.is_valid then m.colors.to_device device else m.colors
    indices := if m.indices.is_valid then m.indices.to_device device else m.indices
    materials := m.materials
    submeshes := m.submeshes
    texture_images := m.texture_images
    generation_ := m.generation_ }

end MeshData

/-! ## The half-edge topology store -/

/-- Modelled from the spec: the half-edge topology store
`OpenMesh::TriMesh_ArrayKernelT<>` (the library is not among the sources).
Vertex and face handles are indices assigned in insertion order from 0; a face
is the list of its incident vertex handles in circulation order; per-vertex and
per-face attribute storage exists only once requested. -/
structure TriMesh where
  nverts : Nat := 0
  points : Nat → Vec3f := fun _ => ⟨0, 0, 0⟩
  faces : List (List Nat) := []
  vertex_normals : Option (Nat → Vec3f) := none
  face_normals : Option (Nat → Vec3f) := none
  vertex_texcoords2D : Option (Nat → Vec2f) := none
  vertex_colors : Option (Nat → Vec3uc) := none

namespace TriMesh

/-- Modelled from the spec: `n_vertices()`. -/
def n_vertices (t : TriMesh) : Nat := t.nverts

/-- Modelled from the spec: `n_faces()`. -/
def n_faces (t : TriMesh) : Nat := t.faces.length

/-- Modelled from the spec: `has_vertex_normals()`. -/
def has_vertex_normals (t : TriMesh) : Bool := t.vertex_normals.isSome

/-- Modelled from the spec: `has_face_normals()`. -/
def has_face_normals (t : TriMesh) : Bool := t.face_normals.isSome

/-- Modelled from the spec: `has_vertex_texcoords2D()`. -/
def has_vertex_texcoords2D (t : TriMesh) : Bool := t.vertex_texcoords2D.isSome

/-- Modelled from the spec: `has_vertex_colors()`. -/
def has_vertex_colors (t : TriMesh) : Bool := t.vertex_colors.isSome

/-- Modelled from the spec: `request_vertex_normals()`. -/
def request_vertex_normals (t : TriMesh) : TriMesh :=
  match t.vertex_normals with
  | some _ => t
  | none => { t with vertex_normals := some (fun _ => ⟨0, 0, 0⟩) }

/-- Modelled from the spec: `request_face_normals()`. -/
def request_face_normals (t : TriMesh) : TriMesh :=
  match t.face_normals with
  | some _ => t
  | none => { t with face_normals := some (fun _ => ⟨0, 0, 0⟩) }

/-- Modelled from the spec: `request_vertex_texcoords2D()`. -/
def request_vertex_texcoords2D (t : TriMesh) : TriMesh :=
  match t.vertex_texcoords2D with
  | some _ => t
  | none => { t with vertex_texcoords2D := some (fun _ => ⟨0, 0⟩) }

/-- Modelled from the spec: `request_vertex_colors()`. -/
def request_vertex_colors (t : TriMesh) : TriMesh :=
  match t.vertex_colors with
  | some _ => t
  | none => { t with vertex_colors := some (fun _ => ⟨0, 0, 0⟩) }

/-- Modelled from the spec: `add_vertex(position)`; the new vertex gets the
next handle. -/
def add_vertex (t : TriMesh) (p : Vec3f) : TriMesh × Nat :=
  ({ t with nverts := t.nverts + 1, points := Function.update t.points t.nverts p }, t.nverts)

/-- Modelled from the spec: `add_face(v0, v1, v2)`; the three handles are kept
in the order given and the new face gets the next handle. -/
def add_face (t : TriMesh) (v0 v1 v2 : Nat) : TriMesh × Nat :=
  ({ t with faces := t.faces ++ [[v0, v1, v2]] }, t.faces.length)

/-- Modelled from the spec: `point(vh)`. -/
def point (t : TriMesh) (vh : Nat) : Vec3f := t.points vh

/-- Modelled from the spec: `normal(vh)`; needs the storage and a handle of
the store. -/
def normal (t : TriMesh) (vh : Nat) : Option Vec3f :=
  match t.vertex_normals with
  | some f => if vh < t.nverts then some (f vh) else none
  | none => none

/-- Modelled from the spec: `texcoord2D(vh)`. -/
def texcoord2D (t : TriMesh) (vh : Nat) : Option Vec2f :=
  match t.vertex_texcoords2D with
  | some f => if vh < t.nverts then some (f vh) else none
  | none => none

/-- Modelled from the spec: `color(vh)`. -/
def color (t : TriMesh) (vh : Nat) : Option Vec3uc :=
  match t.vertex_colors with
  | some f => if vh < t.nverts then some (f vh) else none
  | none => none

/-- Modelled from the spec: `set_normal(vh, n)`. -/
def set_normal (t : TriMesh) (vh : Nat) (n : Vec3f) : Option TriMesh :=
  match t.vertex_normals with
  | some f =>
    if vh < t.nverts then some { t with vertex_normals := some (Function.update f vh n) } else none
  | none => none

/-- Modelled from the spec: `set_texcoord2D(vh, tc)`. -/
def set_texcoord2D (t : TriMesh) (vh : Nat) (tc : Vec2f) : Option TriMesh :=
  match t.vertex_texcoords2D with
  | some f =>
    if vh < t.nverts then some { t with vertex_texcoords2D := some (Function.update f vh tc) }
    else none
  | none => none

/-- Modelled from the spec: `set_color(vh, c)`. -/
def set_color (t : TriMesh) (vh : Nat) (c : Vec3uc) : Option TriMesh :=
  match t.vertex_colors with
  | some f =>
    if vh < t.nverts then some { t with vertex_colors := some (Function.update f vh c) } else none
  | none => none

end TriMesh

/-! ## The bridge (`io/mesh/openmesh_bridge.cpp`) -/

/-- The inner loop of `from_openmesh` over the vertices of face `fi`:
`assert(vi < 3); iacc(fi, vi) = fv.idx(); ++vi`. -/
def fvLoop (fi : Nat) : List Nat → Tensor × Nat → Option (Tensor × Nat)
  | [], s => some s
  | fv :: rest, (iacc, vi) =>
    if vi < 3 then (iacc.setI fi vi (fv : Int)).bind (fun iacc1 => fvLoop fi rest (iacc1, vi + 1))
    else none

/-- The loop of `from_openmesh` over the faces of the store, with
`assert(vi == 3); ++fi` after each face. -/
def faceLoop : List (List Nat) → Tensor × Nat → Option (Tensor × Nat)
  | [], s => some s
  | fh :: rest, (iacc, fi) =>
    (fvLoop fi fh (iacc, 0)).bind (fun r =>
      if r.2 = 3 then faceLoop rest (r.1, fi + 1) else none)

/-- The position block of `from_openmesh` (lines 22-29). -/
def from_openmesh_vertices (mesh : TriMesh) (nv : Nat) : Option Tensor :=
  forLoop (fun i vacc =>
      let p := mesh.point i
      (vacc.setF i 0 p.x).bind (fun v1 => (v1.setF i 1 p.y).bind (fun v2 => v2.setF i 2 p.z)))
    nv (Tensor.empty [nv, 3] Device.CPU DataType.Float32)

/-- The index block of `from_openmesh` (lines 31-44), ending with
`assert(fi == nf)`. -/
def from_openmesh_indices (mesh : TriMesh) (nf : Nat) : Option Tensor :=
  (faceLoop mesh.faces (Tensor.empty [nf, 3] Device.CPU DataType.Int32, 0)).bind (fun fr =>
    if ¬ (fr.2 = nf) then none else some fr.1)

/-- The normal block of `from_openmesh` (lines 49-56). -/
def from_openmesh_normals (mesh : TriMesh) (nv : Nat) : Option Tensor :=
  forLoop (fun i nacc =>
      (mesh.normal i).bind (fun n =>
      (nacc.setF i 0 n.x).bind (fun n1 => (n1.setF i 1 n.y).bind (fun n2 => n2.setF i 2 n.z))))
    nv (Tensor.empty [nv, 3] Device.CPU DataType.Float32)

/-- The texture-coordinate block of `from_openmesh` (lines 60-66). -/
def from_openmesh_texcoords (mesh : TriMesh) (nv : Nat) : Option Tensor :=
  forLoop (fun i tacc =>
      (mesh.texcoord2D i).bind (fun tc =>
      (tacc.setF i 0 tc.u).bind (fun t1 => t1.setF i 1 tc.v)))
    nv (Tensor.empty [nv, 2] Device.CPU DataType.Float32)

/-- The colour block of `from_openmesh` (lines 70-78): each 8-bit component
divided by 255, alpha set to 1. -/
def from_openmesh_colors (mesh : TriMesh) (nv : Nat) : Option Tensor :=
  forLoop (fun i cacc =>
      (mesh.color i).bind (fun c =>
      (cacc.setF i 0 ((c.r : ℚ) / 255)).bind (fun c1 =>
      (c1.setF i 1 ((c.g : ℚ) / 255)).bind (fun c2 =>
      (c2.setF i 2 ((c.b : ℚ) / 255)).bind (fun c3 => c3.setF i 3 1)))))
    nv (Tensor.empty [nv, 4] Device.CPU DataType.Float32)

/-- The function `from_openmesh`. -/
def from_openmesh (mesh : TriMesh) : Option MeshData :=
  let nv := mesh.n_vertices
  let nf := mesh.n_faces
  if ¬ (nv > 0 ∧ nf > 0) then none
  else if ¬ (nv ≤ INT_MAX) then none
  else
    (from_openmesh_vertices mesh nv).bind (fun vertices =>
    (from_openmesh_indices mesh nf).bind (fun indices =>
    (MeshData.construct vertices indices).bind (fun result0 =>
    (if mesh.has_vertex_normals then
        (from_openmesh_normals mesh nv).map (fun t => { result0 with normals := t })
      else some result0).bind (fun result1 =>
    (if mesh.has_vertex_texcoords2D then
        (from_openmesh_texcoords mesh nv).map (fun t => { result1 with texcoords := t })
      else some result1).bind (fun result2 =>
    (if mesh.has_vertex_colors then
        (from_openmesh_colors mesh nv).map (fun t => { result2 with colors := t })
      else some result2))))))

/-- The function `std::clamp(v, lo, hi)`. -/
def clamp (v lo hi : ℚ) : ℚ := if v < lo then lo else if hi < v then hi else v

/-- The conversion `static_cast<unsigned char>(x)` of a float: truncation
toward zero, kept in eight bits. -/
def to_uchar (x : ℚ) : Nat := (if 0 ≤ x then ⌊x⌋ else ⌈x⌉).toNat % 256

/-- The colour-channel quantisation of `to_openmesh`:
`static_cast<unsigned char>(std::clamp(c * 255.0f, 0.0f, 255.0f))`. -/
def quantize (c : ℚ) : Nat := to_uchar (clamp (c * 255) 0 255)

/-- The vertex loop of `to_openmesh` (lines 106-110): one `add_vertex` per row
of `cpu_verts`, the returned handle stored in `vhandles`. -/
def to_openmesh_add_vertices (cpu_verts : Tensor) (nv : Nat) (mesh : TriMesh) :
    Option (TriMesh × List Nat) :=
  forLoop (fun i (s : TriMesh × List Nat) =>
      (cpu_verts.getF i 0).bind (fun x => (cpu_verts.getF i 1).bind (fun y =>
      (cpu_verts.getF i 2).bind (fun z =>
        let r := s.1.add_vertex ⟨x, y, z⟩
        some (r.1, s.2 ++ [r.2])))))
    nv (mesh, [])

/-- The normal block of `to_openmesh` (lines 113-117). -/
def to_openmesh_set_normals (data : MeshData) (nv : Nat) (vhandles : List Nat) (mesh : TriMesh) :
    Option TriMesh :=
  let cpu_normals := (data.normals.to_device Device.CPU).contiguous
  forLoop (fun i mesh =>
    (cpu_normals.getF i 0).bind (fun x => (cpu_normals.getF i 1).bind (fun y =>
    (cpu_normals.getF i 2).bind (fun z =>
    (vhandles[i]?).bind (fun vh => mesh.set_normal vh ⟨x, y, z⟩)))))
    nv mesh

/-- The texture-coordinate block of `to_openmesh` (lines 121-125). -/
def to_openmesh_set_texcoords (data : MeshData) (nv : Nat) (vhandles : List Nat)
    (mesh : TriMesh) : Option TriMesh :=
  let cpu_tc := (data.texcoords.to_device Device.CPU).contiguous
  forLoop (fun i mesh =>
    (cpu_tc.getF i 0).bind (fun u => (cpu_tc.getF i 1).bind (fun v =>
    (vhandles[i]?).bind (fun vh => mesh.set_texcoord2D vh ⟨u, v⟩))))
    nv mesh

/-- The colour block of `to_openmesh` (lines 129-136). -/
def to_openmesh_set_colors (data : MeshData) (nv : Nat) (vhandles : List Nat) (mesh : TriMesh) :
    Option TriMesh :=
  let cpu_colors := (data.colors.to_device Device.CPU).contiguous
  forLoop (fun i mesh =>
    (cpu_colors.getF i 0).bind (fun r => (cpu_colors.getF i 1).bind (fun g =>
    (cpu_colors.getF i 2).bind (fun b =>
    (vhandles[i]?).bind (fun vh =>
      mesh.set_color vh ⟨quantize r, quantize g, quantize b⟩)))))
    nv mesh

/-- The face loop of `to_openmesh` (lines 139-145): three range assertions,
then `add_face` on the three handles in the stored order. -/
def to_openmesh_add_faces (cpu_idx : Tensor) (nv nf : Nat) (vhandles : List Nat)
    (mesh : TriMesh) : Option TriMesh :=
  forLoop (fun i mesh =>
    (cpu_idx.getI i 0).bind (fun i0 => (cpu_idx.getI i 1).bind (fun i1 =>
    (cpu_idx.getI i 2).bind (fun i2 =>
      if ¬ (i0 ≥ 0 ∧ i0 < (nv : Int)) then none
      else if ¬ (i1 ≥ 0 ∧ i1 < (nv : Int)) then none
      else if ¬ (i2 ≥ 0 ∧ i2 < (nv : Int)) then none
      else
        (vhandles[i0.toNat]?).bind (fun h0 => (vhandles[i1.toNat]?).bind (fun h1 =>
        (vhandles[i2.toNat]?).bind (fun h2 => some (mesh.add_face h0 h1 h2).1)))))))
    nf mesh

/-- The start of `to_openmesh` (lines 93-104): an empty store on which the
storage of each present attribute is requested. -/
def to_openmesh_request (data : MeshData) : TriMesh :=
  let mesh0 : TriMesh := {}
  let has_normals := data.has_normals
  let has_texcoords := data.has_texcoords
  let has_colors := data.has_colors
  let mesh1 := if has_normals then mesh0.request_vertex_normals else mesh0
  let mesh2 := if has_texcoords then mesh1.request_vertex_texcoords2D else mesh1
  if has_colors then mesh2.request_vertex_colors else mesh2

/-- The function `to_openmesh`. -/
def to_openmesh (data : MeshData) : Option TriMesh :=
  if ¬ (data.vertices.is_valid ∧ data.indices.is_valid) then none
  else
    let cpu_verts := (data.vertices.to_device Device.CPU).contiguous
    let cpu_idx := (data.indices.to_device Device.CPU).contiguous
    let nv := data.vertex_count
    let nf := data.face_count
    if ¬ (nv ≤ INT_MAX) then none
    else
      let has_normals := data.has_normals
      let has_texcoords := data.has_texcoords
      let has_colors := data.has_colors
      let mesh3 := to_openmesh_request data
      (to_openmesh_add_vertices cpu_verts nv mesh3).bind (fun s =>
      let vhandles := s.2
      (if has_normals then to_openmesh_set_normals data nv vhandles s.1
        else some s.1).bind (fun mesh4 =>
      (if has_texcoords then to_openmesh_set_texcoords data nv vhandles mesh4
        else some mesh4).bind (fun mesh5 =>
      (if has_colors then to_openmesh_set_colors data nv vhandles mesh5
        else some mesh5).bind (fun mesh6 =>
      to_openmesh_add_faces cpu_idx nv nf vhandles mesh6))))

/-! ## Normal computation (`core/mesh_data.cpp`) -/

namespace Vec3f

/-- Difference of two vectors. -/
def sub (a b : Vec3f) : Vec3f := ⟨a.x - b.x, a.y - b.y, a.z - b.z⟩

/-- Sum of two vectors. -/
def add (a b : Vec3f) : Vec3f := ⟨a.x + b.x, a.y + b.y, a.z + b.z⟩

/-- Product of a scalar and a vector. -/
def smul (s : ℚ) (a : Vec3f) : Vec3f := ⟨s * a.x, s * a.y, s * a.z⟩

/-- Cross product. -/
def cross (a b : Vec3f) : Vec3f :=
  ⟨a.y * b.z - a.z * b.y, a.z * b.x - a.x * b.z, a.x * b.y - a.y * b.x⟩

/-- Dot product. -/
def dot (a b : Vec3f) : ℚ := a.x * b.x + a.y * b.y + a.z * b.z

end Vec3f

/-- Modelled from the spec: what the spec leaves to the store's normal-update
algorithm: the square root it normalises with, and the weight it gives the
normal of face `f` in the accumulation at vertex `v`. -/
structure NormalPolicy where
  sqrt : ℚ → ℚ
  weight : Nat → Nat → ℚ

/-- Modelled from the spec: the length of a vector under the policy's square
root. -/
def NormalPolicy.norm (pol : NormalPolicy) (v : Vec3f) : ℚ := pol.sqrt (Vec3f.dot v v)

namespace TriMesh

/-- Modelled from the spec: the normal of one face, the normalised cross
product of two edge vectors in the stored winding order; a face that is not a
triangle, or whose cross product has no length, has none. -/
def calc_face_normal (pol : NormalPolicy) (t : TriMesh) : List Nat → Option Vec3f
  | [a, b, c] =>
    let n := Vec3f.cross (Vec3f.sub (t.point b) (t.point a)) (Vec3f.sub (t.point c) (t.point a))
    if pol.norm n = 0 then none else some (Vec3f.smul (1 / pol.norm n) n)
  | _ => none

/-- Modelled from the spec: the normals of the faces in a list, in order. -/
def calc_face_normals (pol : NormalPolicy) (t : TriMesh) : List (List Nat) → Option (List Vec3f)
  | [] => some []
  | f :: fs =>
    (calc_face_normal pol t f).bind (fun n =>
      (calc_face_normals pol t fs).map (fun ns => n :: ns))

/-- Modelled from the spec: the weighted accumulation, at vertex `v`, of the
normals of the faces incident to `v`; `k` is the handle of the first face of
the list. -/
def accumulate_normals (pol : NormalPolicy) (v : Nat) :
    List (List Nat) → List Vec3f → Nat → Vec3f
  | f :: fs, n :: ns, k =>
    if v ∈ f then Vec3f.add (Vec3f.smul (pol.weight k v) n) (accumulate_normals pol v fs ns (k + 1))
    else accumulate_normals pol v fs ns (k + 1)
  | _, _, _ => ⟨0, 0, 0⟩

/-- Modelled from the spec: the normal of one vertex, the normalised
accumulation of its incident face normals (left as it is when it has no
length). -/
def calc_vertex_normal (pol : NormalPolicy) (t : TriMesh) (fns : List Vec3f) (v : Nat) : Vec3f :=
  let n := accumulate_normals pol v t.faces fns 0
  if pol.norm n = 0 then n else Vec3f.smul (1 / pol.norm n) n

/-- Modelled from the spec: `update_normals()`, which recomputes the face
normals and from them the vertex normals, writing each into its storage when
that storage was requested. -/
def update_normals (pol : NormalPolicy) (t : TriMesh) : Option TriMesh :=
  (calc_face_normals pol t t.faces).bind (fun fns =>
    let t1 : TriMesh :=
      match t.face_normals with
      | some _ => { t with face_normals := some (fun k => fns.getD k ⟨0, 0, 0⟩) }
      | none => t
    match t1.vertex_normals with
    | some f =>
      let vn : Nat → Vec3f :=
        fun v => if v < t1.nverts then calc_vertex_normal pol t fns v else f v
      some { t1 with vertex_normals := some vn }
    | none => some t1)

end TriMesh

/-- The first half of `compute_normals` (lines 17-39): a store with vertex and
face normal storage, one vertex per row of `vertices` and one face per row of
`indices`, together with the handles `vhandles`. -/
def compute_normals_build (m : MeshData) : Option (TriMesh × List Nat) :=
  let cpu_verts := (m.vertices.to_device Device.CPU).contiguous
  let cpu_idx := (m.indices.to_device Device.CPU).contiguous
  let nv := m.vertex_count
  let nf := m.face_count
  let mesh0 : TriMesh := {}
  let mesh1 := mesh0.request_vertex_normals
  let mesh2 := mesh1.request_face_normals
  (forLoop (fun i (s : TriMesh × List Nat) =>
      (cpu_verts.getF i 0).bind (fun x => (cpu_verts.getF i 1).bind (fun y =>
      (cpu_verts.getF i 2).bind (fun z =>
        let r := s.1.add_vertex ⟨x, y, z⟩
        some (r.1, s.2 ++ [r.2])))))
    nv (mesh2, [])).bind (fun s =>
  let vhandles := s.2
  (forLoop (fun i mesh =>
    (cpu_idx.getI i 0).bind (fun i0 => (cpu_idx.getI i 1).bind (fun i1 =>
    (cpu_idx.getI i 2).bind (fun i2 =>
      if ¬ (i0 ≥ 0 ∧ i0 < (nv : Int)) then none
      else if ¬ (i1 ≥ 0 ∧ i1 < (nv : Int)) then none
      else if ¬ (i2 ≥ 0 ∧ i2 < (nv : Int)) then none
      else
        (vhandles[i0.toNat]?).bind (fun h0 => (vhandles[i1.toNat]?).bind (fun h1 =>
        (vhandles[i2.toNat]?).bind (fun h2 => some (mesh.add_face h0 h1 h2).1)))))))
    nf s.1).map (fun mesh => (mesh, vhandles)))

/-- The read-out of `compute_normals` (lines 43-51): a fresh `[nv, 3]` buffer
filled with the vertex normal of each handle of `vhandles`. -/
def compute_normals_read (mesh : TriMesh) (vhandles : List Nat) (nv : Nat) : Option Tensor :=
  forLoop (fun i nacc =>
      (vhandles[i]?).bind (fun vh => (mesh.normal vh).bind (fun n =>
      (nacc.setF i 0 n.x).bind (fun n1 => (n1.setF i 1 n.y).bind (fun n2 => n2.setF i 2 n.z)))))
    nv (Tensor.empty [nv, 3] Device.CPU DataType.Float32)

/-- The function `MeshData::compute_normals`. -/
def MeshData.compute_normals (pol : NormalPolicy) (m : MeshData) : Option MeshData :=
  if ¬ (m.vertices.is_valid ∧ m.vertices.ndim = 2 ∧ m.vertices.dim 1 = 3) then none
  else if ¬ (m.indices.is_valid ∧ m.indices.ndim = 2 ∧ m.indices.dim 1 = 3) then none
  else
    (compute_normals_build m).bind (fun s =>
    (s.1.update_normals pol).bind (fun mesh =>
    (compute_normals_read mesh s.2 m.vertex_count).bind (fun normals0 =>
    let normals :=
      if m.vertices.device = some Device.CUDA then normals0.to_device Device.CUDA else normals0
    some ({ m with normals := normals } : MeshData).mark_dirty)))

/-! ## `compute_normals` as a transformer of its object -/

/-- A `for` loop that keeps the state reached when an iteration aborts: the
state the loop ends in, and whether it ran to its end. -/
def forLoopRun {σ : Type} (body : Nat → σ → Option σ) : Nat → σ → σ × Bool
  | 0, s => (s, true)
  | n + 1, s =>
    let r := forLoopRun body n s
    if r.2 then
      match body n r.1 with
      | some s1 => (s1, true)
      | none => (r.1, false)
    else r

/-- The read-out of `compute_normals` (lines 44-51) on the member `normals`:
the buffer as the loop leaves it, and whether the loop ran to its end. -/
def compute_normals_read_run (mesh : TriMesh) (vhandles : List Nat) (nv : Nat) : Tensor × Bool :=
  forLoopRun (fun i nacc =>
      (vhandles[i]?).bind (fun vh => (mesh.normal vh).bind (fun n =>
      (nacc.setF i 0 n.x).bind (fun n1 => (n1.setF i 1 n.y).bind (fun n2 => n2.setF i 2 n.z)))))
    nv (Tensor.empty [nv, 3] Device.CPU DataType.Float32)

/-- The function `MeshData::compute_normals` as a transformer of the mesh it
is called on: the mesh as the call leaves it, and whether the call returned
(`true`) or aborted (`false`). Lines 14-41 work on locals only; the first
write to a member is the assignment of `normals` in line 44. -/
def MeshData.compute_normals_run (pol : NormalPolicy) (m : MeshData) : MeshData × Bool :=
  if ¬ (m.vertices.is_valid ∧ m.vertices.ndim = 2 ∧ m.vertices.dim 1 = 3) then (m, false)
  else if ¬ (m.indices.is_valid ∧ m.indices.ndim = 2 ∧ m.indices.dim 1 = 3) then (m, false)
  else
    match compute_normals_build m with
    | none => (m, false)
    | some s =>
      match s.1.update_normals pol with
      | none => (m, false)
      | some mesh =>
        let r := compute_normals_read_run mesh s.2 m.vertex_count
        if r.2 then
          let normals :=
            if m.vertices.device = some Device.CUDA then r.1.to_device Device.CUDA else r.1
          (({ m with normals := normals } : MeshData).mark_dirty, true)
        else ({ m with normals := r.1 }, false)

/-! ## The Python wrapper (`python/lfs/py_mesh.hpp`) -/

namespace PyMeshData

/-- The method `set_vertices(t)`: `data_->vertices = t.tensor()`. -/
def set_vertices (data : MeshData) (t : Tensor) : MeshData := { data with vertices := t }

/-- The method `set_normals(t)`: `data_->normals = t.tensor()`. -/
def set_normals (data : MeshData) (t : Tensor) : MeshData := { data with normals := t }

/-- The method `set_indices(t)`: `data_->indices = t.tensor()`. -/
def set_indices (data : MeshData) (t : Tensor) : MeshData := { data with indices := t }

/-- The method `set_texcoords(t)`: `data_->texcoords = t.tensor()`. -/
def set_texcoords (data : MeshData) (t : Tensor) : MeshData := { data with texcoords := t }

/-- The method `set_colors(t)`: `data_->colors = t.tensor()`. -/
def set_colors (data : MeshData) (t : Tensor) : MeshData := { data with colors := t }

/-- The method `compute_normals()`: `data_->compute_normals()`. -/
def compute_normals (pol : NormalPolicy) (data : MeshData) : Option MeshData :=
  data.compute_normals pol

end PyMeshData

/-! ## Binary32 arithmetic of the colour conversion -/

/-- The power `2^e` for an integer exponent. -/
def pow2 (e : Int) : ℚ :=
  if 0 ≤ e then ((2 ^ e.toNat : Nat) : ℚ) else 1 / ((2 ^ (-e).toNat : Nat) : ℚ)

/-- Number of binary digits of `n`, counting at most `fuel` of them. -/
def bit_length : Nat → Nat → Nat
  | 0, _ => 0
  | fuel + 1, n => if n = 0 then 0 else bit_length fuel (n / 2) + 1

/-- The binary exponent of `x > 0`: the integer `e` with `2^e ≤ x < 2^(e+1)`,
for numerators and denominators below `2^128`. -/
def floor_log2 (x : ℚ) : Int :=
  let e0 : Int := (bit_length 128 x.num.toNat : Int) - (bit_length 128 x.den : Int)
  if pow2 e0 ≤ x then e0 else e0 - 1

/-- The number with a 24-bit significand nearest to `x > 0`, ties going to the
even significand. -/
def round_significand (x : ℚ) : ℚ :=
  let ulp := pow2 (floor_log2 x - 23)
  let q := x / ulp
  let n := ⌊q⌋
  let r := q - n
  (if 1 / 2 < r ∨ (r = 1 / 2 ∧ n % 2 = 1) then ((n + 1 : Int) : ℚ) else (n : ℚ)) * ulp

/-- What a `float` operation whose exact result is `x` returns: the binary32
value nearest to `x`, ties to even (the exponent range is not modelled). -/
def round_binary32 (x : ℚ) : ℚ :=
  if x = 0 then 0 else if x < 0 then -round_significand (-x) else round_significand x

/-- The expression `static_cast<float>(c) / 255.0f` of `from_openmesh`
(lines 74-76) in binary32. -/
def dequantize32 (c : Nat) : ℚ := round_binary32 ((c : ℚ) / 255)

/-- The expression `static_cast<unsigned char>(std::clamp(x * 255.0f, 0.0f,
255.0f))` of `to_openmesh` (lines 133-135) in binary32. -/
def quantize32 (x : ℚ) : Nat := to_uchar (clamp (round_binary32 (x * 255)) 0 255)

/-! ## Specification vocabulary -/

/-- Component `j` of a three-vector: `p[j]`. -/
def Vec3f.get (p : Vec3f) (j : Nat) : ℚ := if j = 0 then p.x else if j = 1 then p.y else p.z

/-- Component `j` of a two-vector: `tc[j]`. -/
def Vec2f.get (p : Vec2f) (j : Nat) : ℚ := if j = 0 then p.u else p.v

/-- Component `j` of a colour: `c[j]`. -/
def Vec3uc.get (c : Vec3uc) (j : Nat) : Nat := if j = 0 then c.r else if j = 1 then c.g else c.b

/-- What `from_openmesh` returns for the store `t`: the postcondition of the
function, field by field. -/
structure FromSpec (t : TriMesh) (m : MeshData) : Prop where
  vertices : ∃ a, m.vertices = Tensor.alloc [t.nverts, 3] Device.CPU (Storage.f32 a) ∧
    ∀ i j, i < t.nverts → j < 3 → a [i, j] = (t.points i).get j
  indices : ∃ a, m.indices = Tensor.alloc [t.faces.length, 3] Device.CPU (Storage.i32 a) ∧
    ∀ k j, k < t.faces.length → j < 3 → a [k, j] = (((t.faces.getD k []).getD j 0 : Nat) : Int)
  normals : match t.vertex_normals with
    | none => m.normals = Tensor.invalid
    | some f => ∃ a, m.normals = Tensor.alloc [t.nverts, 3] Device.CPU (Storage.f32 a) ∧
        ∀ i j, i < t.nverts → j < 3 → a [i, j] = (f i).get j
  texcoords : match t.vertex_texcoords2D with
    | none => m.texcoords = Tensor.invalid
    | some f => ∃ a, m.texcoords = Tensor.alloc [t.nverts, 2] Device.CPU (Storage.f32 a) ∧
        ∀ i j, i < t.nverts → j < 2 → a [i, j] = (f i).get j
  colors : match t.vertex_colors with
    | none => m.colors = Tensor.invalid
    | some f => ∃ a, m.colors = Tensor.alloc [t.nverts, 4] Device.CPU (Storage.f32 a) ∧
        ∀ i j, i < t.nverts → j < 4 →
          a [i, j] = if j < 3 then (((f i).get j : Nat) : ℚ) / 255 else 1
  tangents : m.tangents = Tensor.invalid
  materials : m.materials = []
  submeshes : m.submeshes = []
  texture_images : m.texture_images = []
  generation_ : m.generation_ = 0
/-- Shape requirements of the mesh data model on `m`: `vertices` is `[V, 3]`
Float32, `indices` is `[F, 3]` Int32, and each of the optional attributes the
bridge reads, when present, has one row per vertex: normals `[V, 3]`,
texcoords `[V, 2]`, colors `[V, 4]`, all Float32. -/
def MeshData.WellShaped (m : MeshData) : Prop :=
  (m.vertices.shape = [m.vertex_count, 3] ∧ m.vertices.dtype = some DataType.Float32) ∧
  (m.indices.shape = [m.face_count, 3] ∧ m.indices.dtype = some DataType.Int32) ∧
  (m.has_normals = true →
    m.normals.shape = [m.vertex_count, 3] ∧ m.normals.dtype = some DataType.Float32) ∧
  (m.has_texcoords = true →
    m.texcoords.shape = [m.vertex_count, 2] ∧ m.texcoords.dtype = some DataType.Float32) ∧
  (m.has_colors = true →
    m.colors.shape = [m.vertex_count, 4] ∧ m.colors.dtype = some DataType.Float32)

/-- What `to_openmesh` reads of `m` can be read: `vertices` and `indices` are
valid, rows `0..V-1` of `vertices` and `0..F-1` of `indices` have three
readable entries of the accessor's element type, and so have the first three
(for texcoords two) columns of rows `0..V-1` of each present attribute the
bridge copies. -/
def MeshData.Readable (m : MeshData) : Prop :=
  m.vertices.is_valid = true ∧ m.indices.is_valid = true ∧
  (∀ i j, i < m.vertex_count → j < 3 → ∃ x, m.vertices.getF i j = some x) ∧
  (∀ k j, k < m.face_count → j < 3 → ∃ x, m.indices.getI k j = some x) ∧
  (m.has_normals = true → ∀ i j, i < m.vertex_count → j < 3 → ∃ x, m.normals.getF i j = some x) ∧
  (m.has_texcoords = true →
    ∀ i j, i < m.vertex_count → j < 2 → ∃ x, m.texcoords.getF i j = some x) ∧
  (m.has_colors = true → ∀ i j, i < m.vertex_count → j < 3 → ∃ x, m.colors.getF i j = some x)

/-- Every entry of `indices` lies in `[0, vertex_count)`. -/
def MeshData.IndicesInRange (m : MeshData) : Prop :=
  ∀ k j, k < m.face_count → j < 3 →
    ∃ x, m.indices.getI k j = some x ∧ 0 ≤ x ∧ x < (m.vertex_count : Int)

/-- Some entry of `indices` is negative or at least `vertex_count`. -/
def MeshData.SomeIndexOutOfRange (m : MeshData) : Prop :=
  ∃ k j, k < m.face_count ∧ j < 3 ∧
    ∃ x, m.indices.getI k j = some x ∧ (x < 0 ∨ (m.vertex_count : Int) ≤ x)

/-- What `to_openmesh` returns for the mesh `m`: the postcondition of the
function, field by field. -/
structure ToSpec (m : MeshData) (t : TriMesh) : Prop where
  nverts : t.nverts = m.vertex_count
  points : ∀ i j, i < m.vertex_count → j < 3 →
    m.vertices.getF i j = some ((t.points i).get j)
  nfaces : t.faces.length = m.face_count
  faces : ∀ k, k < m.face_count → ∃ i0 i1 i2 : Nat,
    m.indices.getI k 0 = some (i0 : Int) ∧ m.indices.getI k 1 = some (i1 : Int) ∧
    m.indices.getI k 2 = some (i2 : Int) ∧ t.faces.getD k [] = [i0, i1, i2]
  face_normals : t.face_normals = none
  normals : if m.has_normals = true then
      ∃ f, t.vertex_normals = some f ∧
        ∀ i j, i < m.vertex_count → j < 3 → m.normals.getF i j = some ((f i).get j)
    else t.vertex_normals = none
  texcoords : if m.has_texcoords = true then
      ∃ f, t.vertex_texcoords2D = some f ∧
        ∀ i j, i < m.vertex_count → j < 2 → m.texcoords.getF i j = some ((f i).get j)
    else t.vertex_texcoords2D = none
  colors : if m.has_colors = true then
      ∃ f, t.vertex_colors = some f ∧
        ∀ i j, i < m.vertex_count → j < 3 →
          ∃ c, m.colors.getF i j = some c ∧ (f i).get j = quantize c
    else t.vertex_colors = none

/-- Modelled from the spec: the invariant of a topology store that every face
refers only to vertex handles of the store (`add_face` is given handles the
store has assigned; any other handle is a contract violation). -/
def TriMesh.Valid (t : TriMesh) : Prop :=
  ∀ f, f ∈ t.faces → ∀ v, v ∈ f → v < t.nverts

/-- The six tensors of a mesh, in declaration order. -/
def MeshData.tensors (m : MeshData) : List Tensor :=
  [m.vertices, m.normals, m.tangents, m.texcoords, m.colors, m.indices]

/-- Modelled from the spec: the elements of a tensor, when it is allocated. -/
def Tensor.elements : Tensor → Option Storage
  | Tensor.invalid => none
  | Tensor.alloc _ _ st => some st

/-- Every validly allocated tensor of `m` resides on `d`. -/
def MeshData.resides_on (m : MeshData) (d : Device) : Prop :=
  ∀ x, x ∈ m.tensors → x.is_valid = true → x.device = some d

/-- Modelled from the spec: the colours of a store are 8-bit components, so
each stored component is at most 255. -/
def TriMesh.ColorsAreBytes (t : TriMesh) : Prop :=
  ∀ i c, t.color i = some c → c.r ≤ 255 ∧ c.g ≤ 255 ∧ c.b ≤ 255

/-- The mesh `m` with normals, texcoords and colors removed. -/
def MeshData.without_attributes (m : MeshData) : MeshData :=
  { m with normals := Tensor.invalid, texcoords := Tensor.invalid, colors := Tensor.invalid }

/-- The store `t` with fresh vertex and face normal storage. -/
def TriMesh.with_normal_storage (t : TriMesh) : TriMesh :=
  { t with vertex_normals := some (fun _ => ⟨0, 0, 0⟩), face_normals := some (fun _ => ⟨0, 0, 0⟩) }

/-! ## Concrete meshes -/

/-- The vertex buffer of `make_triangle` in the tests: rows `(0,0,0)`,
`(1,0,0)`, `(0,1,0)`. -/
def triangle_vertices : Tensor :=
  Tensor.alloc [3, 3] Device.CPU (Storage.f32 (fun idx =>
    if idx = [1, 0] then 1 else if idx = [2, 1] then 1 else 0))

/-- The index buffer of `make_triangle` in the tests: the single row
`(0,1,2)`. -/
def triangle_indices : Tensor :=
  Tensor.alloc [1, 3] Device.CPU (Storage.i32 (fun idx =>
    if idx = [0, 1] then 1 else if idx = [0, 2] then 2 else 0))

/-- The mesh `make_triangle()` of the tests. -/
def make_triangle : MeshData := { vertices := triangle_vertices, indices := triangle_indices }

/-- A vertex buffer with `INT_MAX + 1` rows. -/
def huge_vertices : Tensor :=
  Tensor.alloc [2147483648, 3] Device.CPU (Storage.f32 (fun _ => 0))

/-- A mesh of `INT_MAX + 1` vertices and the one face `(0,1,2)`. -/
def huge_mesh : MeshData := { vertices := huge_vertices, indices := triangle_indices }

/-- A mesh of `INT_MAX + 1` vertices and no face. -/
def huge_faceless_mesh : MeshData :=
  { vertices := huge_vertices
    indices := Tensor.alloc [0, 3] Device.CPU (Storage.i32 (fun _ => 0)) }

/-- The triangle with a normals buffer of a single row. -/
def short_normals_mesh : MeshData :=
  { make_triangle with normals := Tensor.empty [1, 3] Device.CPU DataType.Float32 }

/-- A store of `INT_MAX + 1` vertices and the one triangle `(0,1,2)`. -/
def huge_store : TriMesh := { nverts := 2147483648, faces := [[0, 1, 2]] }

/-- The store `compute_normals` builds for the test triangle. -/
def triangle_store : TriMesh :=
  { nverts := 3
    points := fun h => if h = 0 then ⟨0, 0, 0⟩ else if h = 1 then ⟨1, 0, 0⟩
      else if h = 2 then ⟨0, 1, 0⟩ else ⟨0, 0, 0⟩
    faces := [[0, 1, 2]]
    vertex_normals := some (fun _ => ⟨0, 0, 0⟩)
    face_normals := some (fun _ => ⟨0, 0, 0⟩) }

/-- A policy with an exact square root on squares and unit weights. -/
def exact_policy : NormalPolicy := { sqrt := Rat.sqrt, weight := fun _ _ => 1 }

/-- The test triangle with the generation counter at its largest value. -/
def saturated_triangle : MeshData := { make_triangle with generation_ := 4294967295 }


/-- The test triangle with a `[3, 4]` colour buffer: every row is
`(0, 0, 0, 1/2)`. -/
def half_alpha_triangle : MeshData :=
  { make_triangle with
    colors := Tensor.alloc [3, 4] Device.CPU (Storage.f32 (fun idx =>
      if idx.getD 1 0 = 3 then 1 / 2 else 0)) }

/-- The test triangle with a `[3, 4]` colour buffer whose row 0 is
`(1.2, -0.1, 0, 1)`, the out-of-range values of the spec. -/
def saturating_triangle : MeshData :=
  { make_triangle with
    colors := Tensor.alloc [3, 4] Device.CPU (Storage.f32 (fun idx =>
      if idx = [0, 0] then 6 / 5 else if idx = [0, 1] then -1 / 10
      else if idx.getD 1 0 = 3 then 1 else 0)) }

/-- The test triangle with an allocated but empty `[0, 3]` normals buffer. -/
def empty_normals_triangle : MeshData :=
  { make_triangle with normals := Tensor.empty [0, 3] Device.CPU DataType.Float32 }

/-- The test triangle with the `[3, 3]` normals buffer whose rows are all
`(0, 0, 1)`. -/
def normals_triangle : MeshData :=
  { make_triangle with
    normals := Tensor.alloc [3, 3] Device.CPU (Storage.f32 (fun idx =>
      if idx.getD 1 0 = 2 then 1 else 0)) }

/-- The mesh of `INT_MAX + 1` vertices with a normals buffer of as many rows. -/
def huge_normals_mesh : MeshData :=
  { huge_mesh with
    normals := Tensor.alloc [2147483648, 3] Device.CPU (Storage.f32 (fun _ => 0)) }

/-- The triangle with normals and a colour buffer of a single row. -/
def short_colors_mesh : MeshData :=
  { normals_triangle with colors := Tensor.empty [1, 4] Device.CPU DataType.Float32 }

/-- The vertex buffer of `make_quad` in the tests: rows `(0,0,0)`, `(1,0,0)`,
`(1,1,0)`, `(0,1,0)`. -/
def quad_vertices : Tensor :=
  Tensor.alloc [4, 3] Device.CPU (Storage.f32 (fun idx =>
    if idx = [1, 0] then 1 else if idx = [2, 0] then 1 else if idx = [2, 1] then 1
    else if idx = [3, 1] then 1 else 0))

/-- The index buffer of `make_quad` in the tests: rows `(0,1,2)` and
`(0,2,3)`. -/
def quad_indices : Tensor :=
  Tensor.alloc [2, 3] Device.CPU (Storage.i32 (fun idx =>
    if idx = [0, 1] then 1 else if idx = [0, 2] then 2 else if idx = [1, 1] then 2
    else if idx = [1, 2] then 3 else 0))

/-- The mesh `make_quad()` of the tests. -/
def make_quad : MeshData := { vertices := quad_vertices, indices := quad_indices }

/-- The store `compute_normals` builds for the test quad. -/
def quad_store : TriMesh :=
  { nverts := 4
    points := fun h => if h = 0 then ⟨0, 0, 0⟩ else if h = 1 then ⟨1, 0, 0⟩
      else if h = 2 then ⟨1, 1, 0⟩ else if h = 3 then ⟨0, 1, 0⟩ else ⟨0, 0, 0⟩
    faces := [[0, 1, 2], [0, 2, 3]]
    vertex_normals := some (fun _ => ⟨0, 0, 0⟩)
    face_normals := some (fun _ => ⟨0, 0, 0⟩) }

/-- The store of the test triangle with the colour `(255, 128, 0)` at every
vertex. -/
def colored_store : TriMesh :=
  { triangle_store with vertex_colors := some (fun _ => ⟨255, 128, 0⟩) }

/-- The test triangle with a `[3, 4]` tangents buffer. -/
def tangents_triangle : MeshData :=
  { make_triangle with
    tangents := Tensor.alloc [3, 4] Device.CPU (Storage.f32 (fun _ => 1)) }

/-- The three vertices of the test triangle without any face. -/
def faceless_triangle : MeshData :=
  { vertices := triangle_vertices
    indices := Tensor.alloc [0, 3] Device.CPU (Storage.i32 (fun _ => 0)) }

/-- The face-less triangle vertices with a normals buffer of a single row. -/
def faceless_short_normals : MeshData :=
  { faceless_triangle with normals := Tensor.empty [1, 3] Device.CPU DataType.Float32 }

/-- The triangle with normals whose face refers to a vertex 3 that does not
exist. -/
def bad_index_mesh : MeshData :=
  { normals_triangle with
    indices := Tensor.alloc [1, 3] Device.CPU (Storage.i32 (fun idx =>
      if idx = [0, 1] then 1 else if idx = [0, 2] then 3 else 0)) }

/-! ## Loop rules -/

theorem forLoop_succ {σ : Type} (body : Nat → σ → Option σ) (n : Nat) (s : σ) :
    forLoop body (n + 1) s = (forLoop body n s).bind (body n) := rfl

/-- Invariant rule for `forLoop`. -/
theorem forLoop_inv {σ : Type} (body : Nat → σ → Option σ) (P : Nat → σ → Prop) (n : Nat)
    (s : σ) (h0 : P 0 s)
    (hstep : ∀ i, i < n → ∀ s1, P i s1 → ∃ s2, body i s1 = some s2 ∧ P (i + 1) s2) :
    ∃ s2, forLoop body n s = some s2 ∧ P n s2 := by
  induction n with
  | zero => exact ⟨s, rfl, h0⟩
  | succ k ih =>
    obtain ⟨s1, h1, hP⟩ := ih (fun i hi => hstep i (Nat.lt_succ_of_lt hi))
    obtain ⟨s2, h2, hP2⟩ := hstep k (Nat.lt_succ_self k) s1 hP
    exact ⟨s2, by simp [forLoop, h1, h2], hP2⟩

/-- A loop that has failed stays failed. -/
theorem forLoop_none_mono {σ : Type} (body : Nat → σ → Option σ) (s : σ) (n k : Nat)
    (h : forLoop body n s = none) (hk : n ≤ k) : forLoop body k s = none := by
  induction k with
  | zero =>
    have : n = 0 := Nat.le_zero.mp hk
    subst this; exact h
  | succ m ih =>
    rcases Nat.eq_or_lt_of_le hk with h1 | h1
    · subst h1; exact h
    · simp [forLoop, ih (Nat.lt_succ_iff.mp h1)]

/-- A loop fails when the body fails at some iteration on every state. -/
theorem forLoop_fail_at {σ : Type} (body : Nat → σ → Option σ) (s : σ) (n i : Nat)
    (hi : i < n) (hb : ∀ s1, body i s1 = none) : forLoop body n s = none := by
  apply forLoop_none_mono body s (i + 1) n _ hi
  simp only [forLoop]
  cases forLoop body i s with
  | none => rfl
  | some s1 => simpa using hb s1

/-! ## Buffer access -/

theorem Tensor.eq_alloc_f32 (t : Tensor) (sh : List Nat)
    (hs : t.shape = sh) (hd : t.dtype = some DataType.Float32) (hv : t.is_valid = true) :
    ∃ d a, t = Tensor.alloc sh d (Storage.f32 a) := by
  cases t with
  | invalid => simp [Tensor.is_valid] at hv
  | alloc s d st =>
    cases st with
    | f32 a => simp [Tensor.shape] at hs; subst hs; exact ⟨d, a, rfl⟩
    | i32 a => simp [Tensor.dtype, Storage.dtype] at hd

theorem Tensor.eq_alloc_i32 (t : Tensor) (sh : List Nat)
    (hs : t.shape = sh) (hd : t.dtype = some DataType.Int32) (hv : t.is_valid = true) :
    ∃ d a, t = Tensor.alloc sh d (Storage.i32 a) := by
  cases t with
  | invalid => simp [Tensor.is_valid] at hv
  | alloc s d st =>
    cases st with
    | i32 a => simp [Tensor.shape] at hs; subst hs; exact ⟨d, a, rfl⟩
    | f32 a => simp [Tensor.dtype, Storage.dtype] at hd

/-- Filling the first `n` rows of a float buffer, one row per iteration. -/
theorem fill_rows (V c k : Nat) (val : Nat → Nat → ℚ) (body : Nat → Tensor → Option Tensor)
    (hbody : ∀ i a d, i < V → ∃ a1,
      body i (Tensor.alloc [V, c] d (Storage.f32 a)) = some (Tensor.alloc [V, c] d (Storage.f32 a1)) ∧
      (∀ j, j < k → a1 [i, j] = val i j) ∧ (∀ i1 j, i1 ≠ i → a1 [i1, j] = a [i1, j]))
    (n : Nat) (hn : n ≤ V) (a : List Nat → ℚ) (d : Device) :
    ∃ a1, forLoop body n (Tensor.alloc [V, c] d (Storage.f32 a)) =
        some (Tensor.alloc [V, c] d (Storage.f32 a1)) ∧
      ∀ i j, i < n → j < k → a1 [i, j] = val i j := by
  have h := forLoop_inv body
    (fun m t => ∃ a1, t = Tensor.alloc [V, c] d (Storage.f32 a1) ∧
      ∀ i j, i < m → j < k → a1 [i, j] = val i j) n
    (Tensor.alloc [V, c] d (Storage.f32 a)) ⟨a, rfl, by intro i j hi; omega⟩
    (by
      rintro i hi s1 ⟨a1, rfl, h1⟩
      obtain ⟨a2, hb, hrow, hoth⟩ := hbody i a1 d (by omega)
      refine ⟨_, hb, a2, rfl, ?_⟩
      intro i1 j hi1 hj
      by_cases he : i1 = i
      · subst he; exact hrow j hj
      · rw [hoth i1 j he]; exact h1 i1 j (by omega) hj)
  obtain ⟨s2, hs, a1, rfl, h1⟩ := h
  exact ⟨a1, hs, h1⟩
theorem Tensor.setF_alloc (r c i j : Nat) (d : Device) (a : List Nat → ℚ) (v : ℚ)
    (hi : i < r) (hj : j < c) :
    (Tensor.alloc [r, c] d (Storage.f32 a)).setF i j v =
      some (Tensor.alloc [r, c] d (Storage.f32 (Function.update a [i, j] v))) := by
  simp [Tensor.setF, hi, hj]

theorem Tensor.setI_alloc (r c i j : Nat) (d : Device) (a : List Nat → Int) (v : Int)
    (hi : i < r) (hj : j < c) :
    (Tensor.alloc [r, c] d (Storage.i32 a)).setI i j v =
      some (Tensor.alloc [r, c] d (Storage.i32 (Function.update a [i, j] v))) := by
  simp [Tensor.setI, hi, hj]

theorem Tensor.getF_alloc (r c i j : Nat) (d : Device) (a : List Nat → ℚ)
    (hi : i < r) (hj : j < c) :
    (Tensor.alloc [r, c] d (Storage.f32 a)).getF i j = some (a [i, j]) := by
  simp [Tensor.getF, hi, hj]

theorem Tensor.getI_alloc (r c i j : Nat) (d : Device) (a : List Nat → Int)
    (hi : i < r) (hj : j < c) :
    (Tensor.alloc [r, c] d (Storage.i32 a)).getI i j = some (a [i, j]) := by
  simp [Tensor.getI, hi, hj]

/-- The inner face loop counts the vertices it has written. -/
theorem fvLoop_count (fi : Nat) (f : List Nat) :
    ∀ (t : Tensor) (vi : Nat) (r : Tensor × Nat),
      fvLoop fi f (t, vi) = some r → r.2 = vi + f.length := by
  induction f with
  | nil => intro t vi r h; simp [fvLoop] at h; subst h; simp
  | cons v rest ih =>
    intro t vi r h
    simp only [fvLoop] at h
    split at h
    · cases hs : t.setI fi vi (v : Int) with
      | none => simp [hs] at h
      | some t1 =>
        simp [hs] at h
        have := ih t1 (vi + 1) r h
        simp [this]; omega
    · simp at h

/-- The inner face loop writes the vertices of one face into row `fi`. -/
theorem fvLoop_spec (F fi : Nat) (d : Device) (hfi : fi < F) (f : List Nat) :
    ∀ (vi : Nat) (a : List Nat → Int), vi + f.length ≤ 3 →
      ∃ a1, fvLoop fi f (Tensor.alloc [F, 3] d (Storage.i32 a), vi) =
          some (Tensor.alloc [F, 3] d (Storage.i32 a1), vi + f.length) ∧
        (∀ j, j < f.length → a1 [fi, vi + j] = ((f.getD j 0 : Nat) : Int)) ∧
        (∀ r c, (r ≠ fi ∨ c < vi) → a1 [r, c] = a [r, c]) := by
  induction f with
  | nil => intro vi a _; exact ⟨a, by simp [fvLoop], by simp, by simp⟩
  | cons v rest ih =>
    intro vi a hlen
    simp only [List.length_cons] at hlen
    have hvi : vi < 3 := by omega
    obtain ⟨a1, h1, hrow, hoth⟩ := ih (vi + 1) (Function.update a [fi, vi] (v : Int)) (by omega)
    refine ⟨a1, ?_, ?_, ?_⟩
    · simp only [fvLoop, hvi, if_true, Tensor.setI_alloc F 3 fi vi d a _ hfi hvi, Option.some_bind,
        h1, List.length_cons]
      congr 2; omega
    · intro j hj
      cases j with
      | zero =>
        have := hoth fi vi (Or.inr (Nat.lt_succ_self vi))
        simp [this]
      | succ j1 =>
        have h2 := hrow j1 (by simpa using hj)
        have e : vi + (j1 + 1) = vi + 1 + j1 := by omega
        simp only [List.getD_cons_succ]
        rw [e]; exact h2
    · intro r c hrc
      rw [hoth r c (by omega)]
      rw [Function.update_noteq]
      intro he
      simp at he
      omega

/-- The face loop fails on a face that is not a triangle. -/
theorem faceLoop_fail (fs : List (List Nat)) :
    (∃ f, f ∈ fs ∧ f.length ≠ 3) → ∀ (s : Tensor × Nat), faceLoop fs s = none := by
  induction fs with
  | nil => rintro ⟨f, hf, _⟩; simp at hf
  | cons f0 rest ih =>
    rintro ⟨f, hf, hne⟩ ⟨t, fi⟩
    simp only [faceLoop]
    cases hr : fvLoop fi f0 (t, 0) with
    | none => rfl
    | some r =>
      simp only [Option.some_bind]
      have hc := fvLoop_count fi f0 t 0 r hr
      by_cases h3 : r.2 = 3
      · simp only [h3, if_true]
        rcases List.mem_cons.mp hf with h | h
        · subst h; omega
        · exact ih ⟨f, h, hne⟩ _
      · simp [h3]

/-- The face loop writes one row per triangle, in the order of the faces. -/
theorem faceLoop_spec (F : Nat) (d : Device) (fs : List (List Nat)) :
    ∀ (fi : Nat) (a : List Nat → Int), (∀ f, f ∈ fs → f.length = 3) → fi + fs.length ≤ F →
      ∃ a1, faceLoop fs (Tensor.alloc [F, 3] d (Storage.i32 a), fi) =
          some (Tensor.alloc [F, 3] d (Storage.i32 a1), fi + fs.length) ∧
        (∀ k j, k < fs.length → j < 3 →
          a1 [fi + k, j] = (((fs.getD k []).getD j 0 : Nat) : Int)) ∧
        (∀ r c, r < fi → a1 [r, c] = a [r, c]) := by
  induction fs with
  | nil => intro fi a _ _; exact ⟨a, by simp [faceLoop], by simp, by simp⟩
  | cons f0 rest ih =>
    intro fi a hall hlen
    simp only [List.length_cons] at hlen
    have h3 : f0.length = 3 := hall f0 (List.mem_cons_self _ _)
    obtain ⟨a1, h1, hrow1, hoth1⟩ := fvLoop_spec F fi d (by omega) f0 0 a (by omega)
    obtain ⟨a2, h2, hrow2, hoth2⟩ :=
      ih (fi + 1) a1 (fun f hf => hall f (List.mem_cons_of_mem _ hf)) (by omega)
    refine ⟨a2, ?_, ?_, ?_⟩
    · simp only [faceLoop, h1, Option.some_bind, h3, Nat.zero_add, if_true, h2, List.length_cons]
      congr 2; omega
    · intro k j hk hj
      cases k with
      | zero =>
        rw [Nat.add_zero, hoth2 fi j (Nat.lt_succ_self fi)]
        have := hrow1 j (by omega)
        simpa using this
      | succ k1 =>
        have h4 := hrow2 k1 j (by simpa using hk) hj
        have e : fi + (k1 + 1) = fi + 1 + k1 := by omega
        simp only [List.getD_cons_succ]
        rw [e]; exact h4
    · intro r c hr
      rw [hoth2 r c (by omega)]
      exact hoth1 r c (Or.inl (by omega))
/-! ## `from_openmesh` -/

theorem write_row3 (V : Nat) (i : Nat) (a : List Nat → ℚ) (d : Device)
    (hi : i < V) (p : Vec3f) :
    ∃ a1, ((Tensor.alloc [V, 3] d (Storage.f32 a)).setF i 0 p.x).bind
        (fun v1 => (v1.setF i 1 p.y).bind (fun v2 => v2.setF i 2 p.z)) =
        some (Tensor.alloc [V, 3] d (Storage.f32 a1)) ∧
      (∀ j, j < 3 → a1 [i, j] = p.get j) ∧ (∀ i1 j, i1 ≠ i → a1 [i1, j] = a [i1, j]) := by
  refine ⟨_, by simp [Tensor.setF, hi]; rfl, ?_, ?_⟩
  · intro j hj
    interval_cases j <;> simp [Function.update_apply, Vec3f.get]
  · intro i1 j hne
    simp [Function.update_apply, hne]

theorem write_row2 (V : Nat) (i : Nat) (a : List Nat → ℚ) (d : Device)
    (hi : i < V) (p : Vec2f) :
    ∃ a1, ((Tensor.alloc [V, 2] d (Storage.f32 a)).setF i 0 p.u).bind
        (fun t1 => t1.setF i 1 p.v) =
        some (Tensor.alloc [V, 2] d (Storage.f32 a1)) ∧
      (∀ j, j < 2 → a1 [i, j] = p.get j) ∧ (∀ i1 j, i1 ≠ i → a1 [i1, j] = a [i1, j]) := by
  refine ⟨_, by simp [Tensor.setF, hi]; rfl, ?_, ?_⟩
  · intro j hj
    interval_cases j <;> simp [Function.update_apply, Vec2f.get]
  · intro i1 j hne
    simp [Function.update_apply, hne]

theorem write_row4 (V : Nat) (i : Nat) (a : List Nat → ℚ) (d : Device)
    (hi : i < V) (c : Vec3uc) :
    ∃ a1, ((Tensor.alloc [V, 4] d (Storage.f32 a)).setF i 0 ((c.r : ℚ) / 255)).bind (fun c1 =>
        (c1.setF i 1 ((c.g : ℚ) / 255)).bind (fun c2 =>
        (c2.setF i 2 ((c.b : ℚ) / 255)).bind (fun c3 => c3.setF i 3 1))) =
        some (Tensor.alloc [V, 4] d (Storage.f32 a1)) ∧
      (∀ j, j < 4 → a1 [i, j] = if j < 3 then ((c.get j : Nat) : ℚ) / 255 else 1) ∧
      (∀ i1 j, i1 ≠ i → a1 [i1, j] = a [i1, j]) := by
  refine ⟨_, by simp [Tensor.setF, hi]; rfl, ?_, ?_⟩
  · intro j hj
    interval_cases j <;> simp [Function.update_apply, Vec3uc.get]
  · intro i1 j hne
    simp [Function.update_apply, hne]

/-- When its four assertions hold, `from_openmesh` returns a mesh that meets
`FromSpec`. -/
theorem from_openmesh_spec (t : TriMesh) (hv : 0 < t.nverts) (hmax : t.nverts ≤ INT_MAX)
    (hf : 0 < t.faces.length) (htri : ∀ f, f ∈ t.faces → f.length = 3) :
    ∃ m, from_openmesh t = some m ∧ FromSpec t m := by
  obtain ⟨va, hva, hvrow⟩ := fill_rows t.nverts 3 3 (fun i j => (t.points i).get j)
    (fun i vacc =>
        let p := t.point i
        (vacc.setF i 0 p.x).bind (fun v1 => (v1.setF i 1 p.y).bind (fun v2 => v2.setF i 2 p.z)))
    (fun i a d hi => write_row3 t.nverts i a d hi (t.points i))
    t.nverts le_rfl (fun _ => 0) Device.CPU
  obtain ⟨ia, hia, hirow, _⟩ := faceLoop_spec t.faces.length Device.CPU t.faces 0 (fun _ => 0)
    htri (by omega)
  have hN : ∀ f : Nat → Vec3f, t.vertex_normals = some f →
      ∃ a, forLoop (fun i nacc =>
            (t.normal i).bind (fun n =>
            (nacc.setF i 0 n.x).bind (fun n1 => (n1.setF i 1 n.y).bind (fun n2 => n2.setF i 2 n.z))))
          t.nverts (Tensor.alloc [t.nverts, 3] Device.CPU (Storage.f32 (fun _ => 0))) =
          some (Tensor.alloc [t.nverts, 3] Device.CPU (Storage.f32 a)) ∧
        ∀ i j, i < t.nverts → j < 3 → a [i, j] = (f i).get j := by
    intro f hfn
    exact fill_rows t.nverts 3 3 (fun i j => (f i).get j) _
      (fun i a d hi => by
        simp only [TriMesh.normal, hfn, hi, if_true, Option.some_bind]
        exact write_row3 t.nverts i a d hi (f i))
      t.nverts le_rfl (fun _ => 0) Device.CPU
  have hT : ∀ f : Nat → Vec2f, t.vertex_texcoords2D = some f →
      ∃ a, forLoop (fun i tacc =>
            (t.texcoord2D i).bind (fun tc =>
            (tacc.setF i 0 tc.u).bind (fun t1 => t1.setF i 1 tc.v)))
          t.nverts (Tensor.alloc [t.nverts, 2] Device.CPU (Storage.f32 (fun _ => 0))) =
          some (Tensor.alloc [t.nverts, 2] Device.CPU (Storage.f32 a)) ∧
        ∀ i j, i < t.nverts → j < 2 → a [i, j] = (f i).get j := by
    intro f hfn
    exact fill_rows t.nverts 2 2 (fun i j => (f i).get j) _
      (fun i a d hi => by
        simp only [TriMesh.texcoord2D, hfn, hi, if_true, Option.some_bind]
        exact write_row2 t.nverts i a d hi (f i))
      t.nverts le_rfl (fun _ => 0) Device.CPU
  have hC : ∀ f : Nat → Vec3uc, t.vertex_colors = some f →
      ∃ a, forLoop (fun i cacc =>
            (t.color i).bind (fun c =>
            (cacc.setF i 0 ((c.r : ℚ) / 255)).bind (fun c1 =>
            (c1.setF i 1 ((c.g : ℚ) / 255)).bind (fun c2 =>
            (c2.setF i 2 ((c.b : ℚ) / 255)).bind (fun c3 => c3.setF i 3 1)))))
          t.nverts (Tensor.alloc [t.nverts, 4] Device.CPU (Storage.f32 (fun _ => 0))) =
          some (Tensor.alloc [t.nverts, 4] Device.CPU (Storage.f32 a)) ∧
        ∀ i j, i < t.nverts → j < 4 →
          a [i, j] = if j < 3 then (((f i).get j : Nat) : ℚ) / 255 else 1 := by
    intro f hfn
    exact fill_rows t.nverts 4 4 (fun i j => if j < 3 then (((f i).get j : Nat) : ℚ) / 255 else 1) _
      (fun i a d hi => by
        simp only [TriMesh.color, hfn, hi, if_true, Option.some_bind]
        exact write_row4 t.nverts i a d hi (f i))
      t.nverts le_rfl (fun _ => 0) Device.CPU
  have hcons : MeshData.construct (Tensor.alloc [t.nverts, 3] Device.CPU (Storage.f32 va))
      (Tensor.alloc [t.faces.length, 3] Device.CPU (Storage.i32 ia)) =
      some { vertices := Tensor.alloc [t.nverts, 3] Device.CPU (Storage.f32 va),
             indices := Tensor.alloc [t.faces.length, 3] Device.CPU (Storage.i32 ia) } := by
    simp [MeshData.construct, Tensor.ndim, Tensor.dim, Tensor.shape, Tensor.dtype, Storage.dtype]
  simp only [Nat.zero_add] at hia hirow
  simp only [from_openmesh, from_openmesh_vertices, from_openmesh_indices, from_openmesh_normals,
    from_openmesh_texcoords, from_openmesh_colors, TriMesh.n_vertices, TriMesh.n_faces,
    Tensor.empty, Storage.fresh, gt_iff_lt, hv, hf, hmax, and_self, not_true_eq_false, if_false,
    hva, hia, Option.some_bind, hcons, TriMesh.has_vertex_normals,
    TriMesh.has_vertex_texcoords2D, TriMesh.has_vertex_colors]
  have hN2 : t.vertex_normals = none ∨ ∃ f a, t.vertex_normals = some f ∧
      forLoop (fun i nacc =>
            (t.normal i).bind (fun n =>
            (nacc.setF i 0 n.x).bind (fun n1 => (n1.setF i 1 n.y).bind (fun n2 => n2.setF i 2 n.z))))
          t.nverts (Tensor.alloc [t.nverts, 3] Device.CPU (Storage.f32 (fun _ => 0))) =
          some (Tensor.alloc [t.nverts, 3] Device.CPU (Storage.f32 a)) ∧
        ∀ i j, i < t.nverts → j < 3 → a [i, j] = (f i).get j := by
    cases hn : t.vertex_normals with
    | none => exact Or.inl rfl
    | some f => obtain ⟨a, h1, h2⟩ := hN f hn; exact Or.inr ⟨f, a, rfl, h1, h2⟩
  have hT2 : t.vertex_texcoords2D = none ∨ ∃ f a, t.vertex_texcoords2D = some f ∧
      forLoop (fun i tacc =>
            (t.texcoord2D i).bind (fun tc =>
            (tacc.setF i 0 tc.u).bind (fun t1 => t1.setF i 1 tc.v)))
          t.nverts (Tensor.alloc [t.nverts, 2] Device.CPU (Storage.f32 (fun _ => 0))) =
          some (Tensor.alloc [t.nverts, 2] Device.CPU (Storage.f32 a)) ∧
        ∀ i j, i < t.nverts → j < 2 → a [i, j] = (f i).get j := by
    cases hn : t.vertex_texcoords2D with
    | none => exact Or.inl rfl
    | some f => obtain ⟨a, h1, h2⟩ := hT f hn; exact Or.inr ⟨f, a, rfl, h1, h2⟩
  have hC2 : t.vertex_colors = none ∨ ∃ f a, t.vertex_colors = some f ∧
      forLoop (fun i cacc =>
            (t.color i).bind (fun c =>
            (cacc.setF i 0 ((c.r : ℚ) / 255)).bind (fun c1 =>
            (c1.setF i 1 ((c.g : ℚ) / 255)).bind (fun c2 =>
            (c2.setF i 2 ((c.b : ℚ) / 255)).bind (fun c3 => c3.setF i 3 1)))))
          t.nverts (Tensor.alloc [t.nverts, 4] Device.CPU (Storage.f32 (fun _ => 0))) =
          some (Tensor.alloc [t.nverts, 4] Device.CPU (Storage.f32 a)) ∧
        ∀ i j, i < t.nverts → j < 4 →
          a [i, j] = if j < 3 then (((f i).get j : Nat) : ℚ) / 255 else 1 := by
    cases hn : t.vertex_colors with
    | none => exact Or.inl rfl
    | some f => obtain ⟨a, h1, h2⟩ := hC f hn; exact Or.inr ⟨f, a, rfl, h1, h2⟩
  clear hN hT hC hva hia hcons
  rcases hN2 with hn | ⟨fn, na, hn, hna, hnrow⟩ <;>
    rcases hT2 with htc | ⟨ft, ta, htc, hta, htrow⟩ <;>
    rcases hC2 with hc | ⟨fc, ca, hc, hca, hcrow⟩
  all_goals
    simp only [Option.isSome_none, Option.isSome_some, if_true, Bool.false_eq_true, if_false,
      Option.map_some', Option.some_bind, hn, htc, hc, *]
    refine ⟨_, rfl, ?_⟩
    constructor <;> simp only [hn, htc, hc]
  all_goals
    first
    | exact ⟨_, rfl, hvrow⟩
    | exact ⟨_, rfl, hirow⟩
    | exact ⟨_, rfl, by assumption⟩
/-! ## `to_openmesh` -/

theorem Tensor.getF_to_device (t : Tensor) (d : Device) (i j : Nat) :
    ((t.to_device d).contiguous).getF i j = t.getF i j := by
  cases t with
  | invalid => rfl
  | alloc s d1 st =>
    simp only [Tensor.to_device, Tensor.contiguous]
    rcases s with _ | ⟨r, _ | ⟨c, _ | ⟨x, l⟩⟩⟩ <;> cases st <;> rfl

theorem Tensor.getI_to_device (t : Tensor) (d : Device) (i j : Nat) :
    ((t.to_device d).contiguous).getI i j = t.getI i j := by
  cases t with
  | invalid => rfl
  | alloc s d1 st =>
    simp only [Tensor.to_device, Tensor.contiguous]
    rcases s with _ | ⟨r, _ | ⟨c, _ | ⟨x, l⟩⟩⟩ <;> cases st <;> rfl

/-- The vertex loop of `to_openmesh` and of `compute_normals`: the i-th vertex
added to a store without vertices gets handle `i` and the position of row `i`. -/
theorem to_vertex_loop (V : Nat) (verts : Tensor) (va : Nat → Nat → ℚ)
    (hva : ∀ i j, i < V → j < 3 → verts.getF i j = some (va i j))
    (mesh0 : TriMesh) (h0 : mesh0.nverts = 0) (n : Nat) (hn : n ≤ V) :
    ∃ pts, forLoop (fun i (s : TriMesh × List Nat) =>
          (verts.getF i 0).bind (fun x => (verts.getF i 1).bind (fun y =>
          (verts.getF i 2).bind (fun z =>
            let r := s.1.add_vertex ⟨x, y, z⟩
            some (r.1, s.2 ++ [r.2])))))
        n (mesh0, []) = some ({ mesh0 with nverts := n, points := pts }, List.range n) ∧
      ∀ i, i < n → pts i = ⟨va i 0, va i 1, va i 2⟩ := by
  have h := forLoop_inv (fun i (s : TriMesh × List Nat) =>
          (verts.getF i 0).bind (fun x => (verts.getF i 1).bind (fun y =>
          (verts.getF i 2).bind (fun z =>
            let r := s.1.add_vertex ⟨x, y, z⟩
            some (r.1, s.2 ++ [r.2])))))
    (fun k s => ∃ pts, s = ({ mesh0 with nverts := k, points := pts }, List.range k) ∧
      ∀ i, i < k → pts i = ⟨va i 0, va i 1, va i 2⟩) n (mesh0, [])
    ⟨mesh0.points, by cases mesh0; simp at h0; subst h0; rfl, by intro i hi; omega⟩
    (by
      rintro i hi s1 ⟨pts, rfl, hp⟩
      have hiV : i < V := by omega
      refine ⟨_, ?_, Function.update pts i ⟨va i 0, va i 1, va i 2⟩, rfl, ?_⟩
      · simp [hva i 0 hiV, hva i 1 hiV, hva i 2 hiV, TriMesh.add_vertex, List.range_succ]
      · intro i1 hi1
        by_cases he : i1 = i
        · subst he; simp
        · rw [Function.update_noteq he]; exact hp i1 (by omega))
  obtain ⟨s2, hs, pts, rfl, hp⟩ := h
  exact ⟨pts, hs, hp⟩
/-- The normal loop of `to_openmesh`: row `i` is stored at handle `i`. -/
theorem to_normal_loop (V : Nat) (nt : Tensor) (na : Nat → Nat → ℚ)
    (hna : ∀ i j, i < V → j < 3 → nt.getF i j = some (na i j))
    (mesh : TriMesh) (f0 : Nat → Vec3f) (hf : mesh.vertex_normals = some f0)
    (hV : mesh.nverts = V) (n : Nat) (hn : n ≤ V) :
    ∃ f, forLoop (fun i (mesh : TriMesh) =>
          (nt.getF i 0).bind (fun x => (nt.getF i 1).bind (fun y =>
          (nt.getF i 2).bind (fun z =>
          ((List.range V)[i]?).bind (fun vh => mesh.set_normal vh ⟨x, y, z⟩)))))
        n mesh = some { mesh with vertex_normals := some f } ∧
      ∀ i, i < n → f i = ⟨na i 0, na i 1, na i 2⟩ := by
  have h := forLoop_inv (fun i (mesh : TriMesh) =>
          (nt.getF i 0).bind (fun x => (nt.getF i 1).bind (fun y =>
          (nt.getF i 2).bind (fun z =>
          ((List.range V)[i]?).bind (fun vh => mesh.set_normal vh ⟨x, y, z⟩)))))
    (fun k s => ∃ f, s = { mesh with vertex_normals := some f } ∧
      ∀ i, i < k → f i = ⟨na i 0, na i 1, na i 2⟩) n mesh
    ⟨f0, by cases mesh; simp at hf; subst hf; rfl, by intro i hi; omega⟩
    (by
      rintro i hi s1 ⟨f, rfl, hp⟩
      have hiV : i < V := by omega
      refine ⟨_, ?_, Function.update f i ⟨na i 0, na i 1, na i 2⟩, rfl, ?_⟩
      · simp [hna i 0 hiV, hna i 1 hiV, hna i 2 hiV, TriMesh.set_normal, List.getElem?_range hiV,
          hV, hiV]
      · intro i1 hi1
        by_cases he : i1 = i
        · subst he; simp
        · rw [Function.update_noteq he]; exact hp i1 (by omega))
  obtain ⟨s2, hs, f, rfl, hp⟩ := h
  exact ⟨f, hs, hp⟩

/-- The texture-coordinate loop of `to_openmesh`. -/
theorem to_texcoord_loop (V : Nat) (tt : Tensor) (ta : Nat → Nat → ℚ)
    (hta : ∀ i j, i < V → j < 2 → tt.getF i j = some (ta i j))
    (mesh : TriMesh) (f0 : Nat → Vec2f) (hf : mesh.vertex_texcoords2D = some f0)
    (hV : mesh.nverts = V) (n : Nat) (hn : n ≤ V) :
    ∃ f, forLoop (fun i (mesh : TriMesh) =>
          (tt.getF i 0).bind (fun u => (tt.getF i 1).bind (fun v =>
          ((List.range V)[i]?).bind (fun vh => mesh.set_texcoord2D vh ⟨u, v⟩))))
        n mesh = some { mesh with vertex_texcoords2D := some f } ∧
      ∀ i, i < n → f i = ⟨ta i 0, ta i 1⟩ := by
  have h := forLoop_inv (fun i (mesh : TriMesh) =>
          (tt.getF i 0).bind (fun u => (tt.getF i 1).bind (fun v =>
          ((List.range V)[i]?).bind (fun vh => mesh.set_texcoord2D vh ⟨u, v⟩))))
    (fun k s => ∃ f, s = { mesh with vertex_texcoords2D := some f } ∧
      ∀ i, i < k → f i = ⟨ta i 0, ta i 1⟩) n mesh
    ⟨f0, by cases mesh; simp at hf; subst hf; rfl, by intro i hi; omega⟩
    (by
      rintro i hi s1 ⟨f, rfl, hp⟩
      have hiV : i < V := by omega
      refine ⟨_, ?_, Function.update f i ⟨ta i 0, ta i 1⟩, rfl, ?_⟩
      · simp [hta i 0 hiV, hta i 1 hiV, TriMesh.set_texcoord2D, List.getElem?_range hiV,
          hV, hiV]
      · intro i1 hi1
        by_cases he : i1 = i
        · subst he; simp
        · rw [Function.update_noteq he]; exact hp i1 (by omega))
  obtain ⟨s2, hs, f, rfl, hp⟩ := h
  exact ⟨f, hs, hp⟩

/-- The colour loop of `to_openmesh`: the three leading channels of row `i`
are quantised and stored at handle `i`. -/
theorem to_color_loop (V : Nat) (ct : Tensor) (ca : Nat → Nat → ℚ)
    (hca : ∀ i j, i < V → j < 3 → ct.getF i j = some (ca i j))
    (mesh : TriMesh) (f0 : Nat → Vec3uc) (hf : mesh.vertex_colors = some f0)
    (hV : mesh.nverts = V) (n : Nat) (hn : n ≤ V) :
    ∃ f, forLoop (fun i (mesh : TriMesh) =>
          (ct.getF i 0).bind (fun r => (ct.getF i 1).bind (fun g =>
          (ct.getF i 2).bind (fun b =>
          ((List.range V)[i]?).bind (fun vh =>
            mesh.set_color vh ⟨quantize r, quantize g, quantize b⟩)))))
        n mesh = some { mesh with vertex_colors := some f } ∧
      ∀ i, i < n → f i = ⟨quantize (ca i 0), quantize (ca i 1), quantize (ca i 2)⟩ := by
  have h := forLoop_inv (fun i (mesh : TriMesh) =>
          (ct.getF i 0).bind (fun r => (ct.getF i 1).bind (fun g =>
          (ct.getF i 2).bind (fun b =>
          ((List.range V)[i]?).bind (fun vh =>
            mesh.set_color vh ⟨quantize r, quantize g, quantize b⟩)))))
    (fun k s => ∃ f, s = { mesh with vertex_colors := some f } ∧
      ∀ i, i < k → f i = ⟨quantize (ca i 0), quantize (ca i 1), quantize (ca i 2)⟩) n mesh
    ⟨f0, by cases mesh; simp at hf; subst hf; rfl, by intro i hi; omega⟩
    (by
      rintro i hi s1 ⟨f, rfl, hp⟩
      have hiV : i < V := by omega
      refine ⟨_, ?_, Function.update f i ⟨quantize (ca i 0), quantize (ca i 1), quantize (ca i 2)⟩,
        rfl, ?_⟩
      · simp [hca i 0 hiV, hca i 1 hiV, hca i 2 hiV, TriMesh.set_color, List.getElem?_range hiV,
          hV, hiV]
      · intro i1 hi1
        by_cases he : i1 = i
        · subst he; simp
        · rw [Function.update_noteq he]; exact hp i1 (by omega))
  obtain ⟨s2, hs, f, rfl, hp⟩ := h
  exact ⟨f, hs, hp⟩

/-- The face loop of `to_openmesh` and of `compute_normals` when every index
is in range: face `k` is built from row `k`, in the stored order. -/
theorem to_face_loop (V F : Nat) (it : Tensor) (ii : Nat → Nat → Int)
    (hii : ∀ k j, k < F → j < 3 → it.getI k j = some (ii k j))
    (hrange : ∀ k j, k < F → j < 3 → 0 ≤ ii k j ∧ ii k j < (V : Int))
    (mesh : TriMesh) (hfaces : mesh.faces = []) (n : Nat) (hn : n ≤ F) :
    ∃ fs, forLoop (fun i (mesh : TriMesh) =>
        (it.getI i 0).bind (fun i0 => (it.getI i 1).bind (fun i1 =>
        (it.getI i 2).bind (fun i2 =>
          if ¬ (i0 ≥ 0 ∧ i0 < (V : Int)) then none
          else if ¬ (i1 ≥ 0 ∧ i1 < (V : Int)) then none
          else if ¬ (i2 ≥ 0 ∧ i2 < (V : Int)) then none
          else
            ((List.range V)[i0.toNat]?).bind (fun h0 => ((List.range V)[i1.toNat]?).bind (fun h1 =>
            ((List.range V)[i2.toNat]?).bind (fun h2 => some (mesh.add_face h0 h1 h2).1)))))))
        n mesh = some { mesh with faces := fs } ∧ fs.length = n ∧
      ∀ k, k < n → fs.getD k [] = [(ii k 0).toNat, (ii k 1).toNat, (ii k 2).toNat] := by
  have h := forLoop_inv (fun i (mesh : TriMesh) =>
        (it.getI i 0).bind (fun i0 => (it.getI i 1).bind (fun i1 =>
        (it.getI i 2).bind (fun i2 =>
          if ¬ (i0 ≥ 0 ∧ i0 < (V : Int)) then none
          else if ¬ (i1 ≥ 0 ∧ i1 < (V : Int)) then none
          else if ¬ (i2 ≥ 0 ∧ i2 < (V : Int)) then none
          else
            ((List.range V)[i0.toNat]?).bind (fun h0 => ((List.range V)[i1.toNat]?).bind (fun h1 =>
            ((List.range V)[i2.toNat]?).bind (fun h2 => some (mesh.add_face h0 h1 h2).1)))))))
    (fun k s => ∃ fs, s = { mesh with faces := fs } ∧ fs.length = k ∧
      ∀ k1, k1 < k → fs.getD k1 [] = [(ii k1 0).toNat, (ii k1 1).toNat, (ii k1 2).toNat]) n mesh
    ⟨[], by cases mesh; simp at hfaces; subst hfaces; rfl, rfl, by intro i hi; omega⟩
    (by
      rintro i hi s1 ⟨fs, rfl, hlen, hp⟩
      have hiF : i < F := by omega
      have r0 := hrange i 0 hiF (by omega)
      have r1 := hrange i 1 hiF (by omega)
      have r2 := hrange i 2 hiF (by omega)
      have t0 : (ii i 0).toNat < V := by omega
      have t1 : (ii i 1).toNat < V := by omega
      have t2 : (ii i 2).toNat < V := by omega
      refine ⟨_, ?_, fs ++ [[(ii i 0).toNat, (ii i 1).toNat, (ii i 2).toNat]], rfl, ?_, ?_⟩
      · simp [hii i 0 hiF, hii i 1 hiF, hii i 2 hiF, r0, r1, r2, List.getElem?_range t0,
          List.getElem?_range t1, List.getElem?_range t2, TriMesh.add_face]
      · simp [hlen]
      · intro k1 hk1
        by_cases he : k1 = i
        · subst he
          rw [List.getD_append_right _ _ _ _ (by omega)]
          simp [hlen]
        · rw [List.getD_append _ _ _ _ (by omega)]
          exact hp k1 (by omega))
  obtain ⟨s2, hs, fs, rfl, hlen, hp⟩ := h
  exact ⟨fs, hs, hlen, hp⟩

/-- The face loop fails when some index of some row is out of range. -/
theorem to_face_loop_fail (V F : Nat) (it : Tensor) (ii : Nat → Nat → Int)
    (hii : ∀ k j, k < F → j < 3 → it.getI k j = some (ii k j))
    (k j : Nat) (hk : k < F) (hj : j < 3) (hbad : ii k j < 0 ∨ (V : Int) ≤ ii k j)
    (mesh : TriMesh) :
    forLoop (fun i (mesh : TriMesh) =>
        (it.getI i 0).bind (fun i0 => (it.getI i 1).bind (fun i1 =>
        (it.getI i 2).bind (fun i2 =>
          if ¬ (i0 ≥ 0 ∧ i0 < (V : Int)) then none
          else if ¬ (i1 ≥ 0 ∧ i1 < (V : Int)) then none
          else if ¬ (i2 ≥ 0 ∧ i2 < (V : Int)) then none
          else
            ((List.range V)[i0.toNat]?).bind (fun h0 => ((List.range V)[i1.toNat]?).bind (fun h1 =>
            ((List.range V)[i2.toNat]?).bind (fun h2 => some (mesh.add_face h0 h1 h2).1)))))))
        F mesh = none := by
  apply forLoop_fail_at _ mesh F k hk
  intro s1
  simp only [hii k 0 hk (by omega), hii k 1 hk (by omega), hii k 2 hk (by omega),
    Option.some_bind]
  interval_cases j
  · rw [if_pos (by omega)]
  · by_cases c0 : ¬ (ii k 0 ≥ 0 ∧ ii k 0 < (V : Int))
    · rw [if_pos c0]
    · rw [if_neg c0, if_pos (by omega)]
  · by_cases c0 : ¬ (ii k 0 ≥ 0 ∧ ii k 0 < (V : Int))
    · rw [if_pos c0]
    · rw [if_neg c0]
      by_cases c1 : ¬ (ii k 1 ≥ 0 ∧ ii k 1 < (V : Int))
      · rw [if_pos c1]
      · rw [if_neg c1, if_pos (by omega)]
theorem Tensor.getF_of_shape (t : Tensor) (r c : Nat) (hs : t.shape = [r, c])
    (hd : t.dtype = some DataType.Float32) :
    ∃ a : Nat → Nat → ℚ, ∀ i j, i < r → j < c → t.getF i j = some (a i j) := by
  cases t with
  | invalid => simp [Tensor.shape] at hs
  | alloc s d st =>
    cases st with
    | f32 a =>
      simp only [Tensor.shape] at hs; subst hs
      exact ⟨fun i j => a [i, j], fun i j hi hj => Tensor.getF_alloc r c i j d a hi hj⟩
    | i32 a => simp [Tensor.dtype, Storage.dtype] at hd

theorem Tensor.getI_of_shape (t : Tensor) (r c : Nat) (hs : t.shape = [r, c])
    (hd : t.dtype = some DataType.Int32) :
    ∃ a : Nat → Nat → Int, ∀ i j, i < r → j < c → t.getI i j = some (a i j) := by
  cases t with
  | invalid => simp [Tensor.shape] at hs
  | alloc s d st =>
    cases st with
    | i32 a =>
      simp only [Tensor.shape] at hs; subst hs
      exact ⟨fun i j => a [i, j], fun i j hi hj => Tensor.getI_alloc r c i j d a hi hj⟩
    | f32 a => simp [Tensor.dtype, Storage.dtype] at hd

theorem Tensor.is_valid_of_shape (t : Tensor) (r c : Nat) (hs : t.shape = [r, c]) :
    t.is_valid = true := by
  cases t with
  | invalid => simp [Tensor.shape] at hs
  | alloc s d st => rfl

/-- The store on which `to_openmesh` starts adding vertices: empty, with the
attribute storage of the present attributes requested. -/
theorem requested_store (m : MeshData) :
    (to_openmesh_request m).nverts = 0 ∧ (to_openmesh_request m).faces = [] ∧
    (to_openmesh_request m).face_normals = none ∧
    (to_openmesh_request m).vertex_normals.isSome = m.has_normals ∧
    (to_openmesh_request m).vertex_texcoords2D.isSome = m.has_texcoords ∧
    (to_openmesh_request m).vertex_colors.isSome = m.has_colors := by
  simp only [to_openmesh_request]
  cases m.has_normals <;> cases m.has_texcoords <;> cases m.has_colors <;>
    simp [TriMesh.request_vertex_normals, TriMesh.request_vertex_texcoords2D,
      TriMesh.request_vertex_colors]

/-- Unfolding of `to_openmesh` past its assertions. -/
theorem to_openmesh_eq (m : MeshData) (hv : m.vertices.is_valid = true)
    (hi : m.indices.is_valid = true) (hmax : m.vertex_count ≤ INT_MAX) :
    to_openmesh m =
      (to_openmesh_add_vertices ((m.vertices.to_device Device.CPU).contiguous) m.vertex_count
        (to_openmesh_request m)).bind (fun s =>
      (if m.has_normals = true then to_openmesh_set_normals m m.vertex_count s.2 s.1
        else some s.1).bind (fun mesh4 =>
      (if m.has_texcoords = true then to_openmesh_set_texcoords m m.vertex_count s.2 mesh4
        else some mesh4).bind (fun mesh5 =>
      (if m.has_colors = true then to_openmesh_set_colors m m.vertex_count s.2 mesh5
        else some mesh5).bind (fun mesh6 =>
      to_openmesh_add_faces ((m.indices.to_device Device.CPU).contiguous) m.vertex_count
        m.face_count s.2 mesh6)))) := by
  simp only [to_openmesh, hv, hi, and_self, not_true_eq_false, if_false, hmax]

/-- The assertions a successful `to_openmesh` has passed. -/
theorem to_openmesh_some_guards (m : MeshData) (t : TriMesh) (h : to_openmesh m = some t) :
    m.vertices.is_valid = true ∧ m.indices.is_valid = true ∧ m.vertex_count ≤ INT_MAX := by
  simp only [to_openmesh] at h
  split at h
  · cases h
  · split at h
    · cases h
    · rename_i h1 h2
      simp only [not_not] at h1 h2
      exact ⟨h1.1, h1.2, h2⟩

theorem Tensor.getF_fn (t : Tensor) (r c : Nat)
    (h : ∀ i j, i < r → j < c → ∃ x, t.getF i j = some x) :
    ∃ a : Nat → Nat → ℚ, ∀ i j, i < r → j < c → t.getF i j = some (a i j) :=
  ⟨fun i j => (t.getF i j).getD 0, fun i j hi hj => by
    obtain ⟨x, hx⟩ := h i j hi hj
    simp [hx]⟩

theorem Tensor.getI_fn (t : Tensor) (r c : Nat)
    (h : ∀ i j, i < r → j < c → ∃ x, t.getI i j = some x) :
    ∃ a : Nat → Nat → Int, ∀ i j, i < r → j < c → t.getI i j = some (a i j) :=
  ⟨fun i j => (t.getI i j).getD 0, fun i j hi hj => by
    obtain ⟨x, hx⟩ := h i j hi hj
    simp [hx]⟩

/-- Conforming shapes make everything `to_openmesh` reads readable. -/
theorem wellShaped_readable (m : MeshData) (hw : m.WellShaped) : m.Readable := by
  obtain ⟨⟨hvs, hvd⟩, ⟨his, hid⟩, hwn, hwt, hwc⟩ := hw
  obtain ⟨va, hva⟩ := Tensor.getF_of_shape _ _ _ hvs hvd
  obtain ⟨ia, hia⟩ := Tensor.getI_of_shape _ _ _ his hid
  refine ⟨Tensor.is_valid_of_shape _ _ _ hvs, Tensor.is_valid_of_shape _ _ _ his,
    fun i j hi hj => ⟨_, hva i j hi hj⟩, fun i j hi hj => ⟨_, hia i j hi hj⟩, ?_, ?_, ?_⟩
  · intro hb i j hi hj
    obtain ⟨a, ha⟩ := Tensor.getF_of_shape _ _ _ (hwn hb).1 (hwn hb).2
    exact ⟨_, ha i j hi hj⟩
  · intro hb i j hi hj
    obtain ⟨a, ha⟩ := Tensor.getF_of_shape _ _ _ (hwt hb).1 (hwt hb).2
    exact ⟨_, ha i j hi hj⟩
  · intro hb i j hi hj
    obtain ⟨a, ha⟩ := Tensor.getF_of_shape _ _ _ (hwc hb).1 (hwc hb).2
    exact ⟨_, ha i j hi (by omega)⟩

theorem set_normals_stage (m : MeshData)
    (hread : m.has_normals = true →
      ∀ i j, i < m.vertex_count → j < 3 → ∃ x, m.normals.getF i j = some x)
    (mesh : TriMesh) (hnv : mesh.nverts = m.vertex_count)
    (hsome : mesh.vertex_normals.isSome = m.has_normals) :
    ∃ vn, (if m.has_normals = true then
          to_openmesh_set_normals m m.vertex_count (List.range m.vertex_count) mesh
        else some mesh) = some { mesh with vertex_normals := vn } ∧
      (if m.has_normals = true then
        ∃ f, vn = some f ∧
          ∀ i j, i < m.vertex_count → j < 3 → m.normals.getF i j = some ((f i).get j)
      else vn = none) := by
  by_cases hb : m.has_normals = true
  · obtain ⟨na, hna⟩ := Tensor.getF_fn _ _ _ (hread hb)
    rw [hb] at hsome
    obtain ⟨f0, hf0⟩ := Option.isSome_iff_exists.mp hsome
    obtain ⟨f, hloop, hf⟩ := to_normal_loop m.vertex_count
      ((m.normals.to_device Device.CPU).contiguous) na
      (fun i j hi hj => by rw [Tensor.getF_to_device]; exact hna i j hi hj)
      mesh f0 hf0 hnv m.vertex_count le_rfl
    refine ⟨some f, ?_, ?_⟩
    · simp only [hb, if_true, to_openmesh_set_normals]; exact hloop
    · simp only [hb, if_true]
      refine ⟨f, rfl, ?_⟩
      intro i j hi hj
      rw [hna i j hi hj, hf i hi]
      interval_cases j <;> simp [Vec3f.get]
  · have hb2 : m.has_normals = false := by simpa using hb
    rw [hb2] at hsome
    refine ⟨none, ?_, by simp [hb2]⟩
    simp only [hb2, Bool.false_eq_true, if_false]
    cases mesh
    simp at hsome
    subst hsome
    rfl

theorem set_texcoords_stage (m : MeshData)
    (hread : m.has_texcoords = true →
      ∀ i j, i < m.vertex_count → j < 2 → ∃ x, m.texcoords.getF i j = some x)
    (mesh : TriMesh) (hnv : mesh.nverts = m.vertex_count)
    (hsome : mesh.vertex_texcoords2D.isSome = m.has_texcoords) :
    ∃ vt, (if m.has_texcoords = true then
          to_openmesh_set_texcoords m m.vertex_count (List.range m.vertex_count) mesh
        else some mesh) = some { mesh with vertex_texcoords2D := vt } ∧
      (if m.has_texcoords = true then
        ∃ f, vt = some f ∧
          ∀ i j, i < m.vertex_count → j < 2 → m.texcoords.getF i j = some ((f i).get j)
      else vt = none) := by
  by_cases hb : m.has_texcoords = true
  · obtain ⟨ta, hta⟩ := Tensor.getF_fn _ _ _ (hread hb)
    rw [hb] at hsome
    obtain ⟨f0, hf0⟩ := Option.isSome_iff_exists.mp hsome
    obtain ⟨f, hloop, hf⟩ := to_texcoord_loop m.vertex_count
      ((m.texcoords.to_device Device.CPU).contiguous) ta
      (fun i j hi hj => by rw [Tensor.getF_to_device]; exact hta i j hi hj)
      mesh f0 hf0 hnv m.vertex_count le_rfl
    refine ⟨some f, ?_, ?_⟩
    · simp only [hb, if_true, to_openmesh_set_texcoords]; exact hloop
    · simp only [hb, if_true]
      refine ⟨f, rfl, ?_⟩
      intro i j hi hj
      rw [hta i j hi hj, hf i hi]
      interval_cases j <;> simp [Vec2f.get]
  · have hb2 : m.has_texcoords = false := by simpa using hb
    rw [hb2] at hsome
    refine ⟨none, ?_, by simp [hb2]⟩
    simp only [hb2, Bool.false_eq_true, if_false]
    cases mesh
    simp at hsome
    subst hsome
    rfl

theorem set_colors_stage (m : MeshData)
    (hread : m.has_colors = true →
      ∀ i j, i < m.vertex_count → j < 3 → ∃ x, m.colors.getF i j = some x)
    (mesh : TriMesh) (hnv : mesh.nverts = m.vertex_count)
    (hsome : mesh.vertex_colors.isSome = m.has_colors) :
    ∃ vc, (if m.has_colors = true then
          to_openmesh_set_colors m m.vertex_count (List.range m.vertex_count) mesh
        else some mesh) = some { mesh with vertex_colors := vc } ∧
      (if m.has_colors = true then
        ∃ f, vc = some f ∧
          ∀ i j, i < m.vertex_count → j < 3 →
            ∃ c, m.colors.getF i j = some c ∧ (f i).get j = quantize c
      else vc = none) := by
  by_cases hb : m.has_colors = true
  · obtain ⟨ca, hca⟩ := Tensor.getF_fn _ _ _ (hread hb)
    rw [hb] at hsome
    obtain ⟨f0, hf0⟩ := Option.isSome_iff_exists.mp hsome
    obtain ⟨f, hloop, hf⟩ := to_color_loop m.vertex_count
      ((m.colors.to_device Device.CPU).contiguous) ca
      (fun i j hi hj => by rw [Tensor.getF_to_device]; exact hca i j hi hj)
      mesh f0 hf0 hnv m.vertex_count le_rfl
    refine ⟨some f, ?_, ?_⟩
    · simp only [hb, if_true, to_openmesh_set_colors]; exact hloop
    · simp only [hb, if_true]
      refine ⟨f, rfl, ?_⟩
      intro i j hi hj
      refine ⟨ca i j, hca i j hi hj, ?_⟩
      rw [hf i hi]
      interval_cases j <;> simp [Vec3uc.get]
  · have hb2 : m.has_colors = false := by simpa using hb
    rw [hb2] at hsome
    refine ⟨none, ?_, by simp [hb2]⟩
    simp only [hb2, Bool.false_eq_true, if_false]
    cases mesh
    simp at hsome
    subst hsome
    rfl

/-- When everything it reads is readable, the vertex count fits an `int` and
every index is in range, `to_openmesh` returns a store that meets `ToSpec`. -/
theorem to_openmesh_spec_of_readable (m : MeshData) (hw : m.Readable)
    (hmax : m.vertex_count ≤ INT_MAX) (hr : m.IndicesInRange) :
    ∃ t, to_openmesh m = some t ∧ ToSpec m t := by
  obtain ⟨hvv, hiv, hrv, hri, hwn, hwt, hwc⟩ := hw
  obtain ⟨va, hva⟩ := Tensor.getF_fn _ _ _ hrv
  obtain ⟨ia, hia⟩ := Tensor.getI_fn _ _ _ hri
  obtain ⟨h3n, h3f, h3fn, h3vn, h3vt, h3vc⟩ := requested_store m
  obtain ⟨mesh3, hm3⟩ : ∃ x, to_openmesh_request m = x := ⟨_, rfl⟩
  rw [hm3] at h3n h3f h3fn h3vn h3vt h3vc
  obtain ⟨pts, hvl, hpts⟩ := to_vertex_loop m.vertex_count
    ((m.vertices.to_device Device.CPU).contiguous) va
    (fun i j hi hj => by rw [Tensor.getF_to_device]; exact hva i j hi hj)
    mesh3 h3n m.vertex_count le_rfl
  obtain ⟨vn, hsn, hvn⟩ := set_normals_stage m hwn
    { mesh3 with nverts := m.vertex_count, points := pts } rfl h3vn
  obtain ⟨vt, hst, hvt⟩ := set_texcoords_stage m hwt
    { mesh3 with nverts := m.vertex_count, points := pts, vertex_normals := vn } rfl h3vt
  obtain ⟨vc, hsc, hvc⟩ := set_colors_stage m hwc
    { mesh3 with nverts := m.vertex_count, points := pts, vertex_normals := vn,
                 vertex_texcoords2D := vt } rfl h3vc
  have hrange : ∀ k j, k < m.face_count → j < 3 →
      0 ≤ ia k j ∧ ia k j < (m.vertex_count : Int) := by
    intro k j hk hj
    obtain ⟨x, hx, h0, h1⟩ := hr k j hk hj
    rw [hia k j hk hj] at hx
    cases hx
    exact ⟨h0, h1⟩
  obtain ⟨fs, hfl, hflen, hfrow⟩ := to_face_loop m.vertex_count m.face_count
    ((m.indices.to_device Device.CPU).contiguous) ia
    (fun i j hi hj => by rw [Tensor.getI_to_device]; exact hia i j hi hj) hrange
    { mesh3 with nverts := m.vertex_count, points := pts, vertex_normals := vn,
                 vertex_texcoords2D := vt, vertex_colors := vc } h3f m.face_count le_rfl
  refine ⟨{ mesh3 with nverts := m.vertex_count, points := pts, vertex_normals := vn,
                       vertex_texcoords2D := vt, vertex_colors := vc, faces := fs }, ?_, ?_⟩
  · simp only [to_openmesh, hvv, hiv, and_self, not_true_eq_false, if_false, hmax, hm3,
      to_openmesh_add_vertices, hvl, Option.some_bind, hsn, hst, hsc, to_openmesh_add_faces, hfl]
  · refine ⟨rfl, ?_, hflen, ?_, h3fn, hvn, hvt, hvc⟩
    · intro i j hi hj
      rw [hva i j hi hj]
      simp only [hpts i hi]
      interval_cases j <;> simp [Vec3f.get]
    · intro k hk
      have r0 := hrange k 0 hk (by omega)
      have r1 := hrange k 1 hk (by omega)
      have r2 := hrange k 2 hk (by omega)
      refine ⟨(ia k 0).toNat, (ia k 1).toNat, (ia k 2).toNat, ?_, ?_, ?_, hfrow k hk⟩
      · rw [hia k 0 hk (by omega), Int.toNat_of_nonneg r0.1]
      · rw [hia k 1 hk (by omega), Int.toNat_of_nonneg r1.1]
      · rw [hia k 2 hk (by omega), Int.toNat_of_nonneg r2.1]
/-- When the shapes conform, the vertex count fits an `int` and every index is
in range, `to_openmesh` returns a store that meets `ToSpec`. -/
theorem to_openmesh_spec (m : MeshData) (hw : m.WellShaped) (hmax : m.vertex_count ≤ INT_MAX)
    (hr : m.IndicesInRange) : ∃ t, to_openmesh m = some t ∧ ToSpec m t :=
  to_openmesh_spec_of_readable m (wellShaped_readable m hw) hmax hr

theorem indicesInRange_or_out (m : MeshData)
    (hs : m.indices.shape = [m.face_count, 3]) (hd : m.indices.dtype = some DataType.Int32) :
    m.IndicesInRange ∨ m.SomeIndexOutOfRange := by
  obtain ⟨ia, hia⟩ := Tensor.getI_of_shape _ _ _ hs hd
  by_cases h : ∀ k j, k < m.face_count → j < 3 → 0 ≤ ia k j ∧ ia k j < (m.vertex_count : Int)
  · left
    intro k j hk hj
    exact ⟨ia k j, hia k j hk hj, h k j hk hj⟩
  · right
    push_neg at h
    obtain ⟨k, j, hk, hj, hbad⟩ := h
    refine ⟨k, j, hk, hj, ia k j, hia k j hk hj, ?_⟩
    by_cases h0 : 0 ≤ ia k j
    · right; exact hbad h0
    · left; omega

theorem not_both_inRange_out (m : MeshData) (hr : m.IndicesInRange)
    (ho : m.SomeIndexOutOfRange) : False := by
  obtain ⟨k, j, hk, hj, x, hx, hbad⟩ := ho
  obtain ⟨y, hy, h0, h1⟩ := hr k j hk hj
  rw [hx] at hy
  cases hy
  omega

/-- With conforming shapes, an index out of range makes `to_openmesh` fail. -/
theorem to_openmesh_out_of_range (m : MeshData) (hw : m.Readable)
    (ho : m.SomeIndexOutOfRange) : to_openmesh m = none := by
  by_cases hmax : m.vertex_count ≤ INT_MAX
  · obtain ⟨hvv, hiv, hrv, hri, hwn, hwt, hwc⟩ := hw
    obtain ⟨va, hva⟩ := Tensor.getF_fn _ _ _ hrv
    obtain ⟨ia, hia⟩ := Tensor.getI_fn _ _ _ hri
    obtain ⟨h3n, h3f, h3fn, h3vn, h3vt, h3vc⟩ := requested_store m
    obtain ⟨mesh3, hm3⟩ : ∃ x, to_openmesh_request m = x := ⟨_, rfl⟩
    rw [hm3] at h3n h3f h3fn h3vn h3vt h3vc
    obtain ⟨pts, hvl, hpts⟩ := to_vertex_loop m.vertex_count
      ((m.vertices.to_device Device.CPU).contiguous) va
      (fun i j hi hj => by rw [Tensor.getF_to_device]; exact hva i j hi hj)
      mesh3 h3n m.vertex_count le_rfl
    obtain ⟨vn, hsn, hvn⟩ := set_normals_stage m hwn
      { mesh3 with nverts := m.vertex_count, points := pts } rfl h3vn
    obtain ⟨vt, hst, hvt⟩ := set_texcoords_stage m hwt
      { mesh3 with nverts := m.vertex_count, points := pts, vertex_normals := vn } rfl h3vt
    obtain ⟨vc, hsc, hvc⟩ := set_colors_stage m hwc
      { mesh3 with nverts := m.vertex_count, points := pts, vertex_normals := vn,
                   vertex_texcoords2D := vt } rfl h3vc
    obtain ⟨k, j, hk, hj, x, hx, hbad⟩ := ho
    have hx2 : ia k j = x := by
      have := hia k j hk hj
      rw [hx] at this
      exact (Option.some.inj this).symm
    have hfl := to_face_loop_fail m.vertex_count m.face_count
      ((m.indices.to_device Device.CPU).contiguous) ia
      (fun i j hi hj => by rw [Tensor.getI_to_device]; exact hia i j hi hj)
      k j hk hj (by rw [hx2]; exact hbad)
      { mesh3 with nverts := m.vertex_count, points := pts, vertex_normals := vn,
                   vertex_texcoords2D := vt, vertex_colors := vc }
    simp only [to_openmesh, hvv, hiv, and_self, not_true_eq_false, if_false, hmax, hm3,
      to_openmesh_add_vertices, hvl, Option.some_bind, hsn, hst, hsc, to_openmesh_add_faces, hfl]
  · simp [to_openmesh, hmax]

/-- From the postcondition of `to_openmesh`: every face of the store is a
triangle. -/
theorem ToSpec.triangles {m : MeshData} {t : TriMesh} (h : ToSpec m t) :
    ∀ f, f ∈ t.faces → f.length = 3 := by
  intro f hf
  obtain ⟨k, hk, rfl⟩ := List.getElem_of_mem hf
  obtain ⟨i0, i1, i2, _, _, _, h4⟩ := h.faces k (by rw [← h.nfaces]; exact hk)
  have : t.faces.getD k [] = t.faces[k] := by
    simp [List.getD, List.getElem?_eq_getElem hk]
  rw [← this, h4]
  rfl
theorem make_triangle_build :
    compute_normals_build make_triangle = some (triangle_store, List.range 3) := by
  simp [compute_normals_build, make_triangle, triangle_vertices, triangle_indices,
    MeshData.vertex_count, MeshData.face_count, Tensor.is_valid, Tensor.dim, Tensor.shape,
    Tensor.to_device, Tensor.contiguous, forLoop, Tensor.getF, Tensor.getI,
    TriMesh.request_vertex_normals, TriMesh.request_face_normals, TriMesh.add_vertex,
    TriMesh.add_face, triangle_store]
  constructor
  · funext h
    simp [Function.update_apply]
    split_ifs <;> simp_all
  · decide

/-- The read-out loop of `compute_normals` copies the normal of handle `i`
into row `i`. -/
theorem compute_normals_read_spec (mesh : TriMesh) (nv : Nat) (n : Nat → Vec3f)
    (hn : ∀ i, i < nv → mesh.normal i = some (n i)) :
    ∃ a, compute_normals_read mesh (List.range nv) nv =
        some (Tensor.alloc [nv, 3] Device.CPU (Storage.f32 a)) ∧
      ∀ i j, i < nv → j < 3 → a [i, j] = (n i).get j := by
  exact fill_rows nv 3 3 (fun i j => (n i).get j) _
    (fun i a d hi => by
      simp only [List.getElem?_range hi, hn i hi, Option.some_bind]
      exact write_row3 nv i a d hi (n i))
    nv le_rfl (fun _ => 0) Device.CPU

theorem triangle_store_update (pol : NormalPolicy)
    (hs : ∀ x : ℚ, 0 < x → pol.sqrt (x * x) = x) (hw : ∀ f v, 0 < pol.weight f v) :
    ∃ t1, triangle_store.update_normals pol = some t1 ∧
      ∀ i, i < 3 → t1.normal i = some ⟨0, 0, 1⟩ := by
  have h1 : pol.sqrt 1 = 1 := by simpa using hs 1 one_pos
  have hfn : TriMesh.calc_face_normals pol triangle_store triangle_store.faces =
      some [⟨0, 0, 1⟩] := by
    simp [triangle_store, TriMesh.calc_face_normals, TriMesh.calc_face_normal, TriMesh.point,
      Vec3f.cross, Vec3f.sub, Vec3f.smul, Vec3f.dot, NormalPolicy.norm, h1]
  refine ⟨_, by simp only [TriMesh.update_normals, hfn, Option.some_bind]; rfl, ?_⟩
  intro i hi
  have hwi := hw 0 i
  have hsi := hs _ hwi
  interval_cases i <;>
    simp [TriMesh.normal, triangle_store, TriMesh.calc_vertex_normal,
      TriMesh.accumulate_normals, Vec3f.add, Vec3f.smul, Vec3f.dot, NormalPolicy.norm, hsi,
      hwi.ne']
/-- Invariant rule for a `forLoop` known to have succeeded. -/
theorem forLoop_some_inv {σ : Type} (body : Nat → σ → Option σ) (P : Nat → σ → Prop) (n : Nat)
    (s : σ) (h0 : P 0 s)
    (hstep : ∀ i, i < n → ∀ a b, P i a → body i a = some b → P (i + 1) b) :
    ∀ s1, forLoop body n s = some s1 → P n s1 := by
  induction n with
  | zero => intro s1 h; simp [forLoop] at h; subst h; exact h0
  | succ k ih =>
    intro s1 h
    simp only [forLoop] at h
    cases hk : forLoop body k s with
    | none => simp [hk] at h
    | some a =>
      rw [hk] at h
      exact hstep k (Nat.lt_succ_self k) a s1
        (ih (fun i hi => hstep i (Nat.lt_succ_of_lt hi)) a hk) h

/-- What a successful read-out of `compute_normals` returns: a host `[nv, 3]`
float buffer whose row `i` is the normal of handle `vhandles[i]`. -/
theorem compute_normals_read_some (mesh : TriMesh) (vh : List Nat) (nv : Nat) (n0 : Tensor)
    (h : compute_normals_read mesh vh nv = some n0) :
    ∃ a, n0 = Tensor.alloc [nv, 3] Device.CPU (Storage.f32 a) ∧
      ∀ i, i < nv → ∃ hd n, vh[i]? = some hd ∧ mesh.normal hd = some n ∧
        ∀ j, j < 3 → a [i, j] = n.get j := by
  refine forLoop_some_inv _
    (fun k t => ∃ a, t = Tensor.alloc [nv, 3] Device.CPU (Storage.f32 a) ∧
      ∀ i, i < k → ∃ hd n, vh[i]? = some hd ∧ mesh.normal hd = some n ∧
        ∀ j, j < 3 → a [i, j] = n.get j) nv _ ⟨fun _ => 0, rfl, by intro i hi; omega⟩ ?_ n0 h
  rintro i hi t1 t2 ⟨a, rfl, hp⟩ hb
  cases hv : vh[i]? with
  | none => simp [hv] at hb
  | some hd =>
    cases hn : mesh.normal hd with
    | none => simp [hv, hn] at hb
    | some n =>
      simp only [hv, hn, Option.some_bind] at hb
      obtain ⟨a1, hw, hrow, hoth⟩ := write_row3 nv i a Device.CPU hi n
      rw [hw] at hb
      cases hb
      refine ⟨a1, rfl, ?_⟩
      intro i1 hi1
      by_cases he : i1 = i
      · subst he; exact ⟨hd, n, hv, hn, hrow⟩
      · obtain ⟨hd1, n1, h1, h2, h3⟩ := hp i1 (by omega)
        exact ⟨hd1, n1, h1, h2, fun j hj => by rw [hoth i1 j he]; exact h3 j hj⟩

/-- Unfolding of a successful `compute_normals`. -/
theorem compute_normals_some (pol : NormalPolicy) (m m1 : MeshData)
    (h : m.compute_normals pol = some m1) :
    (m.vertices.is_valid = true ∧ m.vertices.ndim = 2 ∧ m.vertices.dim 1 = 3) ∧
    (m.indices.is_valid = true ∧ m.indices.ndim = 2 ∧ m.indices.dim 1 = 3) ∧
    ∃ t vh t1 n0, compute_normals_build m = some (t, vh) ∧ t.update_normals pol = some t1 ∧
      compute_normals_read t1 vh m.vertex_count = some n0 ∧
      m1 = MeshData.mark_dirty { m with
        normals := (if m.vertices.device = some Device.CUDA then n0.to_device Device.CUDA
                    else n0) } := by
  simp only [MeshData.compute_normals] at h
  split at h
  · cases h
  · split at h
    · cases h
    · rename_i h1 h2
      simp only [not_not] at h1 h2
      refine ⟨h1, h2, ?_⟩
      cases hb : compute_normals_build m with
      | none => simp [hb] at h
      | some s =>
        cases hu : s.1.update_normals pol with
        | none => simp [hb, hu] at h
        | some t1 =>
          cases hr : compute_normals_read t1 s.2 m.vertex_count with
          | none => simp [hb, hu, hr] at h
          | some n0 =>
            simp only [hb, hu, hr, Option.some_bind] at h
            exact ⟨s.1, s.2, t1, n0, rfl, hu, hr, (Option.some.inj h).symm⟩

/-- Assembly of `compute_normals` from its blocks. -/
theorem compute_normals_of_blocks (pol : NormalPolicy) (m : MeshData) (t t1 : TriMesh)
    (vh : List Nat) (n0 : Tensor)
    (hv : m.vertices.is_valid = true ∧ m.vertices.ndim = 2 ∧ m.vertices.dim 1 = 3)
    (hi : m.indices.is_valid = true ∧ m.indices.ndim = 2 ∧ m.indices.dim 1 = 3)
    (hb : compute_normals_build m = some (t, vh)) (hu : t.update_normals pol = some t1)
    (hr : compute_normals_read t1 vh m.vertex_count = some n0) :
    m.compute_normals pol = some (MeshData.mark_dirty { m with
        normals := (if m.vertices.device = some Device.CUDA then n0.to_device Device.CUDA
                    else n0) }) := by
  simp only [MeshData.compute_normals, hv, hi, and_self, not_true_eq_false, if_false, hb,
    Option.some_bind, hu, hr]
/-- What a successful first half of `compute_normals` returns: handle `i` is
the `i`-th entry of `vhandles` and carries the position in row `i`; face `k`
is built from row `k` of `indices`, whose entries are in range; vertex and
face normal storage are requested. -/
theorem compute_normals_build_some (m : MeshData) (t : TriMesh) (vh : List Nat)
    (h : compute_normals_build m = some (t, vh)) :
    vh = List.range m.vertex_count ∧ t.nverts = m.vertex_count ∧
    (∀ i j, i < m.vertex_count → j < 3 → m.vertices.getF i j = some ((t.points i).get j)) ∧
    t.vertex_normals.isSome = true ∧ t.face_normals.isSome = true ∧
    t.faces.length = m.face_count ∧
    ∀ k, k < m.face_count → ∃ i0 i1 i2 : Nat,
      m.indices.getI k 0 = some (i0 : Int) ∧ m.indices.getI k 1 = some (i1 : Int) ∧
      m.indices.getI k 2 = some (i2 : Int) ∧ i0 < m.vertex_count ∧ i1 < m.vertex_count ∧
      i2 < m.vertex_count ∧ t.faces.getD k [] = [i0, i1, i2] := by
  simp only [compute_normals_build] at h
  cases hv : forLoop (fun i (s : TriMesh × List Nat) =>
      (((m.vertices.to_device Device.CPU).contiguous).getF i 0).bind (fun x =>
      (((m.vertices.to_device Device.CPU).contiguous).getF i 1).bind (fun y =>
      (((m.vertices.to_device Device.CPU).contiguous).getF i 2).bind (fun z =>
        let r := s.1.add_vertex ⟨x, y, z⟩
        some (r.1, s.2 ++ [r.2])))))
    m.vertex_count ((({} : TriMesh).request_vertex_normals).request_face_normals, []) with
  | none => rw [hv] at h; cases h
  | some s =>
    rw [hv] at h
    simp only [Option.some_bind, Option.map_eq_some'] at h
    obtain ⟨t0, hf, heq⟩ := h
    cases heq
    have hP := forLoop_some_inv _
      (fun k (s : TriMesh × List Nat) => s.2 = List.range k ∧ s.1.nverts = k ∧
        (∀ i j, i < k → j < 3 → m.vertices.getF i j = some ((s.1.points i).get j)) ∧
        s.1.faces = [] ∧ s.1.vertex_normals.isSome = true ∧ s.1.face_normals.isSome = true)
      m.vertex_count _
      ⟨rfl, rfl, by intro i j hi; omega, rfl,
        by simp [TriMesh.request_vertex_normals, TriMesh.request_face_normals],
        by simp [TriMesh.request_vertex_normals, TriMesh.request_face_normals]⟩
      (by
        rintro i hi ⟨a1, a2⟩ b ⟨h1, h2, h3, h4, h5, h6⟩ hb
        simp only [Tensor.getF_to_device] at hb
        cases hx : m.vertices.getF i 0 with
        | none => simp [hx] at hb
        | some x =>
          cases hy : m.vertices.getF i 1 with
          | none => simp [hx, hy] at hb
          | some y =>
            cases hz : m.vertices.getF i 2 with
            | none => simp [hx, hy, hz] at hb
            | some z =>
              simp only [hx, hy, hz, Option.some_bind, TriMesh.add_vertex] at hb
              cases hb
              simp only at h1 h2 h3 h4 h5 h6
              refine ⟨by simp [h1, h2, List.range_succ], by simp [h2], ?_, h4, h5, h6⟩
              intro i1 j hi1 hj
              by_cases he : i1 = i
              · subst he
                dsimp only
                rw [h2, Function.update_same]
                interval_cases j <;> simp [Vec3f.get, hx, hy, hz]
              · dsimp only
                rw [h2, Function.update_noteq he]
                exact h3 i1 j (by omega) hj)
      s hv
    obtain ⟨h1, h2, h3, h4, h5, h6⟩ := hP
    have hQ := forLoop_some_inv _
      (fun k (mesh : TriMesh) => mesh.nverts = m.vertex_count ∧ mesh.points = s.1.points ∧
        mesh.vertex_normals.isSome = true ∧ mesh.face_normals.isSome = true ∧
        mesh.faces.length = k ∧
        ∀ k1, k1 < k → ∃ i0 i1 i2 : Nat,
          m.indices.getI k1 0 = some (i0 : Int) ∧ m.indices.getI k1 1 = some (i1 : Int) ∧
          m.indices.getI k1 2 = some (i2 : Int) ∧ i0 < m.vertex_count ∧ i1 < m.vertex_count ∧
          i2 < m.vertex_count ∧ mesh.faces.getD k1 [] = [i0, i1, i2])
      m.face_count s.1
      ⟨h2, rfl, h5, h6, by simp [h4], by intro k hk; omega⟩
      (by
        rintro i hi a b ⟨q1, q2, q3, q4, q5, q6⟩ hb
        simp only [Tensor.getI_to_device] at hb
        cases hx : m.indices.getI i 0 with
        | none => simp [hx] at hb
        | some x =>
          cases hy : m.indices.getI i 1 with
          | none => simp [hx, hy] at hb
          | some y =>
            cases hz : m.indices.getI i 2 with
            | none => simp [hx, hy, hz] at hb
            | some z =>
              simp only [hx, hy, hz, Option.some_bind] at hb
              split at hb
              · cases hb
              · split at hb
                · cases hb
                · split at hb
                  · cases hb
                  · rename_i c0 c1 c2
                    simp only [not_not] at c0 c1 c2
                    have t0 : x.toNat < m.vertex_count := by omega
                    have t1 : y.toNat < m.vertex_count := by omega
                    have t2 : z.toNat < m.vertex_count := by omega
                    rw [h1] at hb
                    simp only [List.getElem?_range t0, List.getElem?_range t1,
                      List.getElem?_range t2, Option.some_bind, TriMesh.add_face] at hb
                    cases hb
                    refine ⟨q1, q2, q3, q4, by simp [q5], ?_⟩
                    intro k1 hk1
                    by_cases he : k1 = i
                    · subst he
                      refine ⟨x.toNat, y.toNat, z.toNat, ?_, ?_, ?_, t0, t1, t2, ?_⟩
                      · rw [hx, Int.toNat_of_nonneg c0.1]
                      · rw [hy, Int.toNat_of_nonneg c1.1]
                      · rw [hz, Int.toNat_of_nonneg c2.1]
                      · simp only
                        rw [List.getD_append_right _ _ _ _ (by omega)]
                        simp [q5]
                    · obtain ⟨i0, i1, i2, e0, e1, e2, r0, r1, r2, e3⟩ := q6 k1 (by omega)
                      refine ⟨i0, i1, i2, e0, e1, e2, r0, r1, r2, ?_⟩
                      simp only
                      rw [List.getD_append _ _ _ _ (by omega)]
                      exact e3)
      t hf
    obtain ⟨q1, q2, q3, q4, q5, q6⟩ := hQ
    exact ⟨h1, q1, by rw [q2]; exact h3, q3, q4, q5, q6⟩

/-- What a successful `update_normals` leaves: the vertices and faces
unchanged, and a normal at every handle when vertex normal storage was
requested. -/
theorem update_normals_some (pol : NormalPolicy) (t t1 : TriMesh)
    (h : t.update_normals pol = some t1) :
    t1.nverts = t.nverts ∧ t1.points = t.points ∧ t1.faces = t.faces ∧
    (t.vertex_normals.isSome = true → ∃ fns,
      TriMesh.calc_face_normals pol t t.faces = some fns ∧
      ∀ v, v < t.nverts → t1.normal v = some (TriMesh.calc_vertex_normal pol t fns v)) := by
  simp only [TriMesh.update_normals] at h
  cases hf : TriMesh.calc_face_normals pol t t.faces with
  | none => simp [hf] at h
  | some fns =>
    simp only [hf, Option.some_bind] at h
    cases hfn : t.face_normals <;> cases hvn : t.vertex_normals <;>
      simp only [hfn, hvn] at h <;> cases h <;>
      simp [hvn, TriMesh.normal] <;>
      exact fun v hv => ⟨hv, fun hle => absurd hv (Nat.not_lt.mpr hle)⟩
/-- A projection of the state that no iteration changes is unchanged by a
successful loop. -/
theorem forLoop_preserves {σ α : Type} (π : σ → α) (body : Nat → σ → Option σ)
    (hp : ∀ i a b, body i a = some b → π b = π a) (n : Nat) (s s1 : σ)
    (h : forLoop body n s = some s1) : π s1 = π s :=
  forLoop_some_inv body (fun _ a => π a = π s) n s rfl
    (fun i _ a b ha hb => (hp i a b hb).trans ha) s1 h

theorem set_normal_frame (mesh b : TriMesh) (vh : Nat) (n : Vec3f)
    (h : mesh.set_normal vh n = some b) :
    (b.nverts, b.vertex_colors) = (mesh.nverts, mesh.vertex_colors) := by
  simp only [TriMesh.set_normal] at h
  split at h
  · split at h
    · cases h; rfl
    · cases h
  · cases h

theorem set_texcoord2D_frame (mesh b : TriMesh) (vh : Nat) (tc : Vec2f)
    (h : mesh.set_texcoord2D vh tc = some b) :
    (b.nverts, b.vertex_colors) = (mesh.nverts, mesh.vertex_colors) := by
  simp only [TriMesh.set_texcoord2D] at h
  split at h
  · split at h
    · cases h; rfl
    · cases h
  · cases h

theorem to_openmesh_set_normals_frame (m : MeshData) (nv : Nat) (vh : List Nat)
    (mesh b : TriMesh) (h : to_openmesh_set_normals m nv vh mesh = some b) :
    (b.nverts, b.vertex_colors) = (mesh.nverts, mesh.vertex_colors) := by
  refine forLoop_preserves (fun t : TriMesh => (t.nverts, t.vertex_colors)) _ ?_ nv mesh b h
  intro i a b1 hb
  cases hx : ((m.normals.to_device Device.CPU).contiguous).getF i 0 <;>
    cases hy : ((m.normals.to_device Device.CPU).contiguous).getF i 1 <;>
    cases hz : ((m.normals.to_device Device.CPU).contiguous).getF i 2 <;>
    cases hv : vh[i]? <;> simp only [hx, hy, hz, hv, Option.some_bind, Option.none_bind] at hb <;>
    first
    | exact set_normal_frame _ _ _ _ hb
    | cases hb

theorem to_openmesh_set_texcoords_frame (m : MeshData) (nv : Nat) (vh : List Nat)
    (mesh b : TriMesh) (h : to_openmesh_set_texcoords m nv vh mesh = some b) :
    (b.nverts, b.vertex_colors) = (mesh.nverts, mesh.vertex_colors) := by
  refine forLoop_preserves (fun t : TriMesh => (t.nverts, t.vertex_colors)) _ ?_ nv mesh b h
  intro i a b1 hb
  cases hx : ((m.texcoords.to_device Device.CPU).contiguous).getF i 0 <;>
    cases hy : ((m.texcoords.to_device Device.CPU).contiguous).getF i 1 <;>
    cases hv : vh[i]? <;> simp only [hx, hy, hv, Option.some_bind, Option.none_bind] at hb <;>
    first
    | exact set_texcoord2D_frame _ _ _ _ hb
    | cases hb

theorem to_openmesh_add_faces_frame (idx : Tensor) (nv nf : Nat) (vh : List Nat)
    (mesh b : TriMesh) (h : to_openmesh_add_faces idx nv nf vh mesh = some b) :
    (b.nverts, b.vertex_colors) = (mesh.nverts, mesh.vertex_colors) := by
  refine forLoop_preserves (fun t : TriMesh => (t.nverts, t.vertex_colors)) _ ?_ nf mesh b h
  intro i a b1 hb
  cases hx : idx.getI i 0 <;> cases hy : idx.getI i 1 <;> cases hz : idx.getI i 2 <;>
    simp only [hx, hy, hz, Option.some_bind, Option.none_bind] at hb
  all_goals try cases hb
  split at hb
  · cases hb
  · split at hb
    · cases hb
    · split at hb
      · cases hb
      · rename_i x y z _ _ _
        cases h0 : vh[x.toNat]? <;> cases h1 : vh[y.toNat]? <;> cases h2 : vh[z.toNat]? <;>
          simp only [h0, h1, h2, Option.some_bind, Option.none_bind] at hb <;>
          first
          | (cases hb; rfl)
          | cases hb

/-- The vertex loop of `to_openmesh`, known to have succeeded: the handles are
`0, 1, ..`, one per row, and no attribute storage is touched. -/
theorem to_openmesh_add_vertices_some (verts : Tensor) (nv : Nat) (mesh0 : TriMesh)
    (h0 : mesh0.nverts = 0) (s : TriMesh × List Nat)
    (h : to_openmesh_add_vertices verts nv mesh0 = some s) :
    s.2 = List.range nv ∧ s.1.nverts = nv ∧ s.1.vertex_colors = mesh0.vertex_colors := by
  refine forLoop_some_inv _
    (fun k (s : TriMesh × List Nat) => s.2 = List.range k ∧ s.1.nverts = k ∧
      s.1.vertex_colors = mesh0.vertex_colors) nv (mesh0, []) ⟨rfl, h0, rfl⟩ ?_ s h
  rintro i hi ⟨a1, a2⟩ b ⟨h1, h2, h3⟩ hb
  cases hx : verts.getF i 0 <;> cases hy : verts.getF i 1 <;> cases hz : verts.getF i 2 <;>
    simp only [hx, hy, hz, Option.some_bind, Option.none_bind, TriMesh.add_vertex] at hb <;>
    cases hb
  simp only at h1 h2 h3
  exact ⟨by simp [h1, h2, List.range_succ], by simp [h2], h3⟩

/-- The colour loop of `to_openmesh`, known to have succeeded: handle `i`
holds the quantised leading three channels of row `i`. -/
theorem to_openmesh_set_colors_some (m : MeshData) (nv : Nat) (mesh b : TriMesh)
    (hnv : mesh.nverts = nv) (hsome : mesh.vertex_colors.isSome = true)
    (h : to_openmesh_set_colors m nv (List.range nv) mesh = some b) :
    b.nverts = nv ∧ ∃ f, b.vertex_colors = some f ∧
      ∀ i, i < nv → ∃ r g bl, m.colors.getF i 0 = some r ∧ m.colors.getF i 1 = some g ∧
        m.colors.getF i 2 = some bl ∧ f i = ⟨quantize r, quantize g, quantize bl⟩ := by
  obtain ⟨f0, hf0⟩ := Option.isSome_iff_exists.mp hsome
  refine forLoop_some_inv _
    (fun k (t : TriMesh) => t.nverts = nv ∧ ∃ f, t.vertex_colors = some f ∧
      ∀ i, i < k → ∃ r g bl, m.colors.getF i 0 = some r ∧ m.colors.getF i 1 = some g ∧
        m.colors.getF i 2 = some bl ∧ f i = ⟨quantize r, quantize g, quantize bl⟩)
    nv mesh ⟨hnv, f0, hf0, by intro i hi; omega⟩ ?_ b h
  rintro i hi a b1 ⟨h1, f, h2, h3⟩ hb
  simp only [Tensor.getF_to_device, List.getElem?_range hi] at hb
  cases hx : m.colors.getF i 0 <;> cases hy : m.colors.getF i 1 <;>
    cases hz : m.colors.getF i 2 <;>
    simp only [hx, hy, hz, Option.some_bind, Option.none_bind, TriMesh.set_color, h2, h1, hi,
      if_true] at hb <;>
    cases hb
  rename_i r g bl
  refine ⟨rfl, _, rfl, ?_⟩
  intro i1 hi1
  by_cases he : i1 = i
  · subst he
    exact ⟨r, g, bl, hx, hy, hz, by simp⟩
  · obtain ⟨r1, g1, b1, e0, e1, e2, e3⟩ := h3 i1 (by omega)
    exact ⟨r1, g1, b1, e0, e1, e2, by rw [Function.update_noteq he]; exact e3⟩
/-- A successful `to_openmesh` on a mesh with colours: the store has one
vertex per row and colour storage whose entry at handle `i` is the quantised
leading three channels of row `i`. -/
theorem to_openmesh_some_colors (m : MeshData) (t : TriMesh) (h : to_openmesh m = some t)
    (hc : m.has_colors = true) :
    t.nverts = m.vertex_count ∧ ∃ f, t.vertex_colors = some f ∧
      ∀ i, i < m.vertex_count → ∃ r g b, m.colors.getF i 0 = some r ∧
        m.colors.getF i 1 = some g ∧ m.colors.getF i 2 = some b ∧
        f i = ⟨quantize r, quantize g, quantize b⟩ := by
  obtain ⟨h3n, _, _, _, _, h3vc⟩ := requested_store m
  obtain ⟨gv, gi, gmax⟩ := to_openmesh_some_guards m t h
  rw [to_openmesh_eq m gv gi gmax] at h
  cases hv : to_openmesh_add_vertices ((m.vertices.to_device Device.CPU).contiguous)
      m.vertex_count (to_openmesh_request m) with
  | none => rw [hv] at h; cases h
  | some s =>
    obtain ⟨s1, s2, s3⟩ := to_openmesh_add_vertices_some _ _ _ h3n s hv
    rw [hv] at h
    simp only [Option.some_bind, s1] at h
    cases h4 : (if m.has_normals = true then
        to_openmesh_set_normals m m.vertex_count (List.range m.vertex_count) s.1
        else some s.1) with
    | none => rw [h4] at h; cases h
    | some mesh4 =>
      have f4 : (mesh4.nverts, mesh4.vertex_colors) = (s.1.nverts, s.1.vertex_colors) := by
        split at h4
        · exact to_openmesh_set_normals_frame _ _ _ _ _ h4
        · cases h4; rfl
      rw [h4] at h
      simp only [Option.some_bind] at h
      cases h5 : (if m.has_texcoords = true then
          to_openmesh_set_texcoords m m.vertex_count (List.range m.vertex_count) mesh4
          else some mesh4) with
      | none => rw [h5] at h; cases h
      | some mesh5 =>
        have f5 : (mesh5.nverts, mesh5.vertex_colors) =
            (mesh4.nverts, mesh4.vertex_colors) := by
          split at h5
          · exact to_openmesh_set_texcoords_frame _ _ _ _ _ h5
          · cases h5; rfl
        rw [h5] at h
        simp only [Option.some_bind, hc, if_true] at h
        cases h6 : to_openmesh_set_colors m m.vertex_count (List.range m.vertex_count)
            mesh5 with
        | none => rw [h6] at h; cases h
        | some mesh6 =>
          rw [h6] at h
          simp only [Option.some_bind] at h
          have f6 := to_openmesh_add_faces_frame _ _ _ _ _ _ h
          simp only [Prod.mk.injEq] at f4 f5 f6
          have e5n : mesh5.nverts = m.vertex_count := by rw [f5.1, f4.1, s2]
          have e5c : mesh5.vertex_colors.isSome = true := by
            rw [f5.2, f4.2, s3, h3vc, hc]
          obtain ⟨g1, f, g2, g3⟩ := to_openmesh_set_colors_some m _ mesh5 mesh6 e5n e5c h6
          exact ⟨by rw [f6.1, g1], f, by rw [f6.2, g2], g3⟩

/-- The conditions under which `from_openmesh` fails. -/
theorem from_openmesh_none_of (t : TriMesh)
    (h : t.n_vertices = 0 ∨ t.n_faces = 0 ∨ INT_MAX < t.n_vertices ∨
      ∃ f, f ∈ t.faces ∧ f.length ≠ 3) : from_openmesh t = none := by
  rcases h with h | h | h | h
  · simp [from_openmesh, h]
  · simp [from_openmesh, h]
  · simp only [from_openmesh]
    split
    · rfl
    · rw [if_pos (Nat.not_le.mpr h)]
  · have hfail : from_openmesh_indices t t.n_faces = none := by
      simp only [from_openmesh_indices, faceLoop_fail t.faces h]
      rfl
    simp only [from_openmesh, hfail]
    split
    · rfl
    · split
      · rfl
      · cases from_openmesh_vertices t t.n_vertices <;> rfl

/-- A mesh returned by `from_openmesh` meets `FromSpec`, and the store it was
read from has between 1 and `INT_MAX` vertices and at least one face, all
faces triangles. -/
theorem from_openmesh_some_spec (t : TriMesh) (m : MeshData) (h : from_openmesh t = some m) :
    FromSpec t m ∧ 0 < t.nverts ∧ t.nverts ≤ INT_MAX ∧ 0 < t.faces.length ∧
    ∀ f, f ∈ t.faces → f.length = 3 := by
  have hcond : 0 < t.nverts ∧ t.nverts ≤ INT_MAX ∧ 0 < t.faces.length ∧
      ∀ f, f ∈ t.faces → f.length = 3 := by
    by_contra hcon
    have : t.n_vertices = 0 ∨ t.n_faces = 0 ∨ INT_MAX < t.n_vertices ∨
        ∃ f, f ∈ t.faces ∧ f.length ≠ 3 := by
      simp only [TriMesh.n_vertices, TriMesh.n_faces]
      by_cases c1 : t.nverts = 0
      · exact Or.inl c1
      · by_cases c2 : t.faces.length = 0
        · exact Or.inr (Or.inl c2)
        · by_cases c3 : INT_MAX < t.nverts
          · exact Or.inr (Or.inr (Or.inl c3))
          · right; right; right
            by_contra c4
            push_neg at c4
            exact hcon ⟨Nat.pos_of_ne_zero c1, Nat.not_lt.mp c3, Nat.pos_of_ne_zero c2, c4⟩
    rw [from_openmesh_none_of t this] at h
    cases h
  obtain ⟨m0, hm0, hs⟩ := from_openmesh_spec t hcond.1 hcond.2.1 hcond.2.2.1 hcond.2.2.2
  rw [h] at hm0
  cases hm0
  exact ⟨hs, hcond⟩

theorem clamp_unit (c : ℚ) (h0 : 0 ≤ c) (h1 : c ≤ 1) : clamp (c * 255) 0 255 = c * 255 := by
  have a : ¬ (c * 255 < 0) := by nlinarith
  have b : ¬ (255 < c * 255) := by nlinarith
  simp [clamp, a, b]

/-- Quantising a channel value of `[0,1]` gives `⌊255 c⌋`, a byte. -/
theorem quantize_unit (c : ℚ) (h0 : 0 ≤ c) (h1 : c ≤ 1) :
    ((quantize c : Nat) : ℚ) ≤ c * 255 ∧ c * 255 < (quantize c : Nat) + 1 ∧ quantize c ≤ 255 := by
  have hx0 : 0 ≤ c * 255 := by nlinarith
  have hx1 : c * 255 ≤ 255 := by nlinarith
  have hfl0 : 0 ≤ ⌊c * 255⌋ := Int.floor_nonneg.mpr hx0
  have hfl1 : ⌊c * 255⌋ ≤ 255 := by
    have : ⌊c * 255⌋ ≤ ⌊(255 : ℚ)⌋ := Int.floor_le_floor hx1
    simpa using this
  have hq : quantize c = ⌊c * 255⌋.toNat := by
    simp only [quantize, to_uchar, clamp_unit c h0 h1, hx0, if_true]
    apply Nat.mod_eq_of_lt
    omega
  have hcast : ((quantize c : Nat) : ℚ) = ((⌊c * 255⌋ : Int) : ℚ) := by
    rw [hq]
    have : ((⌊c * 255⌋.toNat : Nat) : Int) = ⌊c * 255⌋ := Int.toNat_of_nonneg hfl0
    exact_mod_cast congrArg (fun z : Int => (z : ℚ)) this
  refine ⟨?_, ?_, ?_⟩
  · rw [hcast]; exact Int.floor_le _
  · rw [hcast]; exact Int.lt_floor_add_one _
  · rw [hq]; omega

/-- The error of quantising a channel value of `[0,1]` to a byte and dividing
the byte by 255 is below `1/255`. -/
theorem quantize_error (c : ℚ) (h0 : 0 ≤ c) (h1 : c ≤ 1) :
    |c - ((quantize c : Nat) : ℚ) / 255| ≤ 1 / 255 := by
  obtain ⟨ha, hb, _⟩ := quantize_unit c h0 h1
  have hq : ((quantize c : Nat) : ℚ) / 255 * 255 = ((quantize c : Nat) : ℚ) := by
    field_simp
  rw [abs_le]
  constructor <;> linarith
/-- Every iteration of a successful loop has succeeded on some state. -/
theorem forLoop_some_iter {σ : Type} (body : Nat → σ → Option σ) (n : Nat) (s : σ) :
    ∀ s1, forLoop body n s = some s1 → ∀ i, i < n → ∃ a b, body i a = some b := by
  induction n with
  | zero => intro s1 _ i hi; omega
  | succ k ih =>
    intro s1 h i hi
    simp only [forLoop] at h
    cases hk : forLoop body k s with
    | none => simp [hk] at h
    | some a =>
      rw [hk] at h
      by_cases he : i = k
      · subst he; exact ⟨a, s1, h⟩
      · exact ih a hk i (by omega)

theorem bind3_some {α β : Type} (o0 o1 o2 : Option α) (f : α → α → α → Option β) (b : β)
    (h : (o0.bind fun x => o1.bind fun y => o2.bind fun z => f x y z) = some b) :
    ∃ x y z, o0 = some x ∧ o1 = some y ∧ o2 = some z ∧ f x y z = some b := by
  cases o0 <;> cases o1 <;> cases o2 <;> simp at h
  exact ⟨_, _, _, rfl, rfl, rfl, h⟩

theorem bind2_some {α β : Type} (o0 o1 : Option α) (f : α → α → Option β) (b : β)
    (h : (o0.bind fun x => o1.bind fun y => f x y) = some b) :
    ∃ x y, o0 = some x ∧ o1 = some y ∧ f x y = some b := by
  cases o0 <;> cases o1 <;> simp at h
  exact ⟨_, _, rfl, rfl, h⟩

/-- A successful `to_openmesh` has read everything it reads, has found every
index in range and has a vertex count that fits an `int`. -/
theorem to_openmesh_some_readable (m : MeshData) (t : TriMesh) (h : to_openmesh m = some t) :
    m.Readable ∧ m.IndicesInRange ∧ m.vertex_count ≤ INT_MAX := by
  obtain ⟨gv, gi, gmax⟩ := to_openmesh_some_guards m t h
  rw [to_openmesh_eq m gv gi gmax] at h
  simp only [Option.bind_eq_some] at h
  obtain ⟨s, hs, mesh4, h4, mesh5, h5, mesh6, h6, hf⟩ := h
  have hverts : ∀ i j, i < m.vertex_count → j < 3 → ∃ x, m.vertices.getF i j = some x := by
    intro i j hi hj
    obtain ⟨a, b, hb⟩ := forLoop_some_iter _ _ _ s hs i hi
    simp only [Tensor.getF_to_device] at hb
    obtain ⟨x, y, z, e0, e1, e2, _⟩ := bind3_some _ _ _ _ _ hb
    interval_cases j
    · exact ⟨x, e0⟩
    · exact ⟨y, e1⟩
    · exact ⟨z, e2⟩
  have hidx : ∀ k j, k < m.face_count → j < 3 →
      ∃ x, m.indices.getI k j = some x ∧ 0 ≤ x ∧ x < (m.vertex_count : Int) := by
    intro k j hk hj
    obtain ⟨a, b, hb⟩ := forLoop_some_iter _ _ _ t hf k hk
    simp only [Tensor.getI_to_device] at hb
    obtain ⟨x, y, z, e0, e1, e2, hrest⟩ := bind3_some _ _ _ _ _ hb
    split at hrest
    · cases hrest
    · split at hrest
      · cases hrest
      · split at hrest
        · cases hrest
        · rename_i c0 c1 c2
          simp only [not_not] at c0 c1 c2
          interval_cases j
          · exact ⟨x, e0, c0⟩
          · exact ⟨y, e1, c1⟩
          · exact ⟨z, e2, c2⟩
  refine ⟨⟨gv, gi, hverts, fun k j hk hj => ?_, ?_, ?_, ?_⟩, hidx, gmax⟩
  · obtain ⟨x, hx, _⟩ := hidx k j hk hj
    exact ⟨x, hx⟩
  · intro hb i j hi hj
    rw [if_pos hb] at h4
    obtain ⟨a, b, hb1⟩ := forLoop_some_iter _ _ _ mesh4 h4 i hi
    simp only [Tensor.getF_to_device] at hb1
    obtain ⟨x, y, z, e0, e1, e2, _⟩ := bind3_some _ _ _ _ _ hb1
    interval_cases j
    · exact ⟨x, e0⟩
    · exact ⟨y, e1⟩
    · exact ⟨z, e2⟩
  · intro hb i j hi hj
    rw [if_pos hb] at h5
    obtain ⟨a, b, hb1⟩ := forLoop_some_iter _ _ _ mesh5 h5 i hi
    simp only [Tensor.getF_to_device] at hb1
    obtain ⟨x, y, e0, e1, _⟩ := bind2_some _ _ _ _ hb1
    interval_cases j
    · exact ⟨x, e0⟩
    · exact ⟨y, e1⟩
  · intro hb i j hi hj
    rw [if_pos hb] at h6
    obtain ⟨a, b, hb1⟩ := forLoop_some_iter _ _ _ mesh6 h6 i hi
    simp only [Tensor.getF_to_device] at hb1
    obtain ⟨x, y, z, e0, e1, e2, _⟩ := bind3_some _ _ _ _ _ hb1
    interval_cases j
    · exact ⟨x, e0⟩
    · exact ⟨y, e1⟩
    · exact ⟨z, e2⟩

/-- A store returned by `to_openmesh` meets `ToSpec`. -/
theorem to_openmesh_some_spec (m : MeshData) (t : TriMesh) (h : to_openmesh m = some t) :
    ToSpec m t := by
  obtain ⟨hr, hi, hmax⟩ := to_openmesh_some_readable m t h
  obtain ⟨t1, h1, hs⟩ := to_openmesh_spec_of_readable m hr hmax hi
  rw [h] at h1
  cases h1
  exact hs
theorem make_quad_build :
    compute_normals_build make_quad = some (quad_store, List.range 4) := by
  simp [compute_normals_build, make_quad, quad_vertices, quad_indices,
    MeshData.vertex_count, MeshData.face_count, Tensor.is_valid, Tensor.dim, Tensor.shape,
    Tensor.to_device, Tensor.contiguous, forLoop, Tensor.getF, Tensor.getI,
    TriMesh.request_vertex_normals, TriMesh.request_face_normals, TriMesh.add_vertex,
    TriMesh.add_face, quad_store]
  constructor
  · funext h
    simp [Function.update_apply]
    split_ifs <;> simp_all
  · decide

/-- Normalising a vector along the third axis with a positive component
gives `(0, 0, 1)`. -/
theorem normalize_z (pol : NormalPolicy) (hs : ∀ x : ℚ, 0 < x → pol.sqrt (x * x) = x)
    (z : ℚ) (hz : 0 < z) :
    (if pol.norm ⟨0, 0, z⟩ = 0 then (⟨0, 0, z⟩ : Vec3f)
      else Vec3f.smul (1 / pol.norm ⟨0, 0, z⟩) ⟨0, 0, z⟩) = ⟨0, 0, 1⟩ := by
  have hn : pol.norm ⟨0, 0, z⟩ = z := by simp [NormalPolicy.norm, Vec3f.dot, hs z hz]
  rw [hn, if_neg hz.ne']
  simp [Vec3f.smul, hz.ne']

theorem quad_store_update (pol : NormalPolicy)
    (hs : ∀ x : ℚ, 0 < x → pol.sqrt (x * x) = x) (hw : ∀ f v, 0 < pol.weight f v) :
    ∃ t1, quad_store.update_normals pol = some t1 ∧
      ∀ i, i < 4 → t1.normal i = some ⟨0, 0, 1⟩ := by
  have h1 : pol.sqrt 1 = 1 := by simpa using hs 1 one_pos
  have hfn : TriMesh.calc_face_normals pol quad_store quad_store.faces =
      some [⟨0, 0, 1⟩, ⟨0, 0, 1⟩] := by
    simp [quad_store, TriMesh.calc_face_normals, TriMesh.calc_face_normal, TriMesh.point,
      Vec3f.cross, Vec3f.sub, Vec3f.smul, Vec3f.dot, NormalPolicy.norm, h1]
  refine ⟨_, by simp only [TriMesh.update_normals, hfn, Option.some_bind]; rfl, ?_⟩
  intro i hi
  have a0 : TriMesh.accumulate_normals pol 0 quad_store.faces [⟨0, 0, 1⟩, ⟨0, 0, 1⟩] 0 =
      ⟨0, 0, pol.weight 0 0 + pol.weight 1 0⟩ := by
    simp [TriMesh.accumulate_normals, quad_store, Vec3f.add, Vec3f.smul]
  have a1 : TriMesh.accumulate_normals pol 1 quad_store.faces [⟨0, 0, 1⟩, ⟨0, 0, 1⟩] 0 =
      ⟨0, 0, pol.weight 0 1⟩ := by
    simp [TriMesh.accumulate_normals, quad_store, Vec3f.add, Vec3f.smul]
  have a2 : TriMesh.accumulate_normals pol 2 quad_store.faces [⟨0, 0, 1⟩, ⟨0, 0, 1⟩] 0 =
      ⟨0, 0, pol.weight 0 2 + pol.weight 1 2⟩ := by
    simp [TriMesh.accumulate_normals, quad_store, Vec3f.add, Vec3f.smul]
  have a3 : TriMesh.accumulate_normals pol 3 quad_store.faces [⟨0, 0, 1⟩, ⟨0, 0, 1⟩] 0 =
      ⟨0, 0, pol.weight 1 3⟩ := by
    simp [TriMesh.accumulate_normals, quad_store, Vec3f.add, Vec3f.smul]
  have hnv : quad_store.nverts = 4 := rfl
  interval_cases i
  · simp only [TriMesh.normal, hnv, TriMesh.calc_vertex_normal, a0]
    rw [normalize_z pol hs _ (add_pos (hw 0 0) (hw 1 0))]
    simp [quad_store]
  · simp only [TriMesh.normal, hnv, TriMesh.calc_vertex_normal, a1]
    rw [normalize_z pol hs _ (hw 0 1)]
    simp [quad_store]
  · simp only [TriMesh.normal, hnv, TriMesh.calc_vertex_normal, a2]
    rw [normalize_z pol hs _ (add_pos (hw 0 2) (hw 1 2))]
    simp [quad_store]
  · simp only [TriMesh.normal, hnv, TriMesh.calc_vertex_normal, a3]
    rw [normalize_z pol hs _ (hw 1 3)]
    simp [quad_store]
/-- Two loops whose bodies commute with a map of the state give mapped
results. -/
theorem forLoop_map {σ τ : Type} (f : σ → τ) (body : Nat → σ → Option σ)
    (body1 : Nat → τ → Option τ) (h : ∀ i a, body1 i (f a) = (body i a).map f) (n : Nat)
    (s : σ) : forLoop body1 n (f s) = (forLoop body n s).map f := by
  induction n with
  | zero => rfl
  | succ k ih =>
    simp only [forLoop, ih]
    cases forLoop body k s with
    | none => rfl
    | some a => simpa using h k a

/-- The vertex loop on a store with normal storage. -/
theorem add_vertices_with_normal_storage (verts : Tensor) (nv : Nat) (mesh : TriMesh) :
    to_openmesh_add_vertices verts nv mesh.with_normal_storage =
      (to_openmesh_add_vertices verts nv mesh).map (fun s => (s.1.with_normal_storage, s.2)) := by
  simp only [to_openmesh_add_vertices]
  refine forLoop_map (fun (s : TriMesh × List Nat) => (s.1.with_normal_storage, s.2)) _ _ ?_ nv
    (mesh, [])
  intro i a
  cases verts.getF i 0 <;> cases verts.getF i 1 <;> cases verts.getF i 2 <;> rfl

/-- The face loop on a store with normal storage. -/
theorem add_faces_with_normal_storage (idx : Tensor) (nv nf : Nat) (vh : List Nat)
    (mesh : TriMesh) :
    to_openmesh_add_faces idx nv nf vh mesh.with_normal_storage =
      (to_openmesh_add_faces idx nv nf vh mesh).map TriMesh.with_normal_storage := by
  simp only [to_openmesh_add_faces]
  refine forLoop_map TriMesh.with_normal_storage _ _ ?_ nf mesh
  intro i a
  cases idx.getI i 0 with
  | none => rfl
  | some i0 =>
    cases idx.getI i 1 with
    | none => rfl
    | some i1 =>
      cases idx.getI i 2 with
      | none => rfl
      | some i2 =>
        simp only [Option.some_bind]
        split_ifs <;>
          first
          | rfl
          | (cases vh[i0.toNat]? <;> cases vh[i1.toNat]? <;> cases vh[i2.toNat]? <;> rfl)

/-- The first half of `compute_normals` in terms of the loops of the bridge. -/
theorem compute_normals_build_loops (m : MeshData) :
    compute_normals_build m =
      (to_openmesh_add_vertices ((m.vertices.to_device Device.CPU).contiguous) m.vertex_count
        ({} : TriMesh).with_normal_storage).bind (fun s =>
      (to_openmesh_add_faces ((m.indices.to_device Device.CPU).contiguous) m.vertex_count
        m.face_count s.2 s.1).map (fun mesh => (mesh, s.2))) := rfl

/-- Without the guard on the vertex count, `to_openmesh` on a mesh without
attributes is the vertex loop followed by the face loop on an empty store. -/
theorem to_openmesh_without_attributes (m : MeshData) (hv : m.vertices.is_valid = true)
    (hi : m.indices.is_valid = true) (hmax : m.vertex_count ≤ INT_MAX) :
    to_openmesh m.without_attributes =
      (to_openmesh_add_vertices ((m.vertices.to_device Device.CPU).contiguous) m.vertex_count
        ({} : TriMesh)).bind (fun s =>
      to_openmesh_add_faces ((m.indices.to_device Device.CPU).contiguous) m.vertex_count
        m.face_count s.2 s.1) := by
  rw [to_openmesh_eq m.without_attributes hv hi hmax]
  have hn : m.without_attributes.has_normals = false := rfl
  have ht : m.without_attributes.has_texcoords = false := rfl
  have hc : m.without_attributes.has_colors = false := rfl
  have hreq : to_openmesh_request m.without_attributes = {} := by
    simp [to_openmesh_request, hn, ht, hc]
  simp only [hn, ht, hc, hreq, Bool.false_eq_true, if_false, Option.some_bind]
  rfl

/-- The store built inside `compute_normals` is the store `to_openmesh` builds
for the mesh without attributes, with normal storage. -/
theorem compute_normals_build_eq (m : MeshData) (hv : m.vertices.is_valid = true)
    (hi : m.indices.is_valid = true) (hmax : m.vertex_count ≤ INT_MAX) :
    compute_normals_build m =
      (to_openmesh m.without_attributes).map
        (fun t => (t.with_normal_storage, List.range m.vertex_count)) := by
  rw [compute_normals_build_loops, to_openmesh_without_attributes m hv hi hmax,
    add_vertices_with_normal_storage]
  cases hvl : to_openmesh_add_vertices ((m.vertices.to_device Device.CPU).contiguous)
      m.vertex_count ({} : TriMesh) with
  | none => rfl
  | some s =>
    obtain ⟨hs, _, _⟩ := to_openmesh_add_vertices_some _ _ _ rfl s hvl
    simp only [Option.map_some', Option.some_bind, add_faces_with_normal_storage, hs]
    cases to_openmesh_add_faces ((m.indices.to_device Device.CPU).contiguous) m.vertex_count
        m.face_count (List.range m.vertex_count) s.1 <;> rfl
/-- The normals a successful `compute_normals` writes: row `i` is the normal
the updated store has at handle `i`. -/
theorem compute_normals_rows (pol : NormalPolicy) (m m1 : MeshData)
    (h : m.compute_normals pol = some m1) :
    ∃ t t1, compute_normals_build m = some (t, List.range m.vertex_count) ∧
      t.update_normals pol = some t1 ∧
      ∀ i, i < m.vertex_count → ∃ n, t1.normal i = some n ∧
        ∀ j, j < 3 → m1.normals.getF i j = some (n.get j) := by
  obtain ⟨hgv, hgi, t, vh, t1, n0, hb, hu, hr, rfl⟩ := compute_normals_some pol m m1 h
  obtain ⟨a, rfl, hrow⟩ := compute_normals_read_some t1 vh m.vertex_count n0 hr
  obtain ⟨hvh, _, _, _, _, _, _⟩ := compute_normals_build_some m t vh hb
  subst hvh
  refine ⟨t, t1, hb, hu, ?_⟩
  intro i hi
  obtain ⟨hd, n, h1, h2, h3⟩ := hrow i hi
  rw [List.getElem?_range hi] at h1
  cases h1
  refine ⟨n, h2, fun j hj => ?_⟩
  have hget : ∀ d, (Tensor.alloc [m.vertex_count, 3] d (Storage.f32 a)).getF i j =
      some (n.get j) := by
    intro d
    rw [Tensor.getF_alloc _ _ _ _ _ _ hi hj, h3 j hj]
  by_cases hd : m.vertices.device = some Device.CUDA
  · simp only [hd, if_true, Tensor.to_device, MeshData.mark_dirty]
    exact hget _
  · simp only [hd, if_false, MeshData.mark_dirty]
    exact hget _

/-- A store returned by `to_openmesh` for a mesh without attributes has no
normal storage, so requesting it gives fresh storage. -/
theorem without_attributes_store (m : MeshData) (t : TriMesh)
    (h : to_openmesh m.without_attributes = some t) :
    t.request_vertex_normals.request_face_normals = t.with_normal_storage := by
  have hs := to_openmesh_some_spec _ t h
  have h1 := hs.normals
  have h2 := hs.face_normals
  have hn : m.without_attributes.has_normals = false := rfl
  simp only [hn, Bool.false_eq_true, if_false] at h1
  simp [TriMesh.request_vertex_normals, TriMesh.request_face_normals,
    TriMesh.with_normal_storage, h1, h2]

/-- The first half of `compute_normals` succeeds when the vertex rows can be
read and every index is in range. -/
theorem compute_normals_build_total (m : MeshData)
    (hrv : ∀ i j, i < m.vertex_count → j < 3 → ∃ x, m.vertices.getF i j = some x)
    (hr : m.IndicesInRange) : ∃ s, compute_normals_build m = some s := by
  obtain ⟨va, hva⟩ := Tensor.getF_fn _ _ _ hrv
  have hri : ∀ k j, k < m.face_count → j < 3 → ∃ x, m.indices.getI k j = some x :=
    fun k j hk hj => (hr k j hk hj).imp (fun _ h => h.1)
  obtain ⟨ia, hia⟩ := Tensor.getI_fn _ _ _ hri
  obtain ⟨pts, hvl, _⟩ := to_vertex_loop m.vertex_count
    ((m.vertices.to_device Device.CPU).contiguous) va
    (fun i j hi hj => by rw [Tensor.getF_to_device]; exact hva i j hi hj)
    ({} : TriMesh).with_normal_storage rfl m.vertex_count le_rfl
  obtain ⟨fs, hfl, _⟩ := to_face_loop m.vertex_count m.face_count
    ((m.indices.to_device Device.CPU).contiguous) ia
    (fun k j hk hj => by rw [Tensor.getI_to_device]; exact hia k j hk hj)
    (fun k j hk hj => by
      obtain ⟨x, hx, h0, h1⟩ := hr k j hk hj
      rw [hia k j hk hj] at hx
      cases hx
      exact ⟨h0, h1⟩)
    { ({} : TriMesh).with_normal_storage with nverts := m.vertex_count, points := pts } rfl
    m.face_count le_rfl
  rw [compute_normals_build_loops]
  simp only [to_openmesh_add_vertices, to_openmesh_add_faces, hvl, Option.some_bind, hfl,
    Option.map_some']
  exact ⟨_, rfl⟩

/-! ## Facts about the concrete meshes -/

theorem make_triangle_counts : make_triangle.vertex_count = 3 ∧ make_triangle.face_count = 1 := by
  simp [make_triangle, triangle_vertices, triangle_indices, MeshData.vertex_count,
    MeshData.face_count, Tensor.is_valid, Tensor.dim, Tensor.shape]

theorem make_triangle_wellShaped : make_triangle.WellShaped := by
  simp [MeshData.WellShaped, make_triangle, triangle_vertices, triangle_indices,
    MeshData.vertex_count, MeshData.face_count, Tensor.is_valid, Tensor.dim, Tensor.shape,
    Tensor.dtype, Storage.dtype, MeshData.has_normals, MeshData.has_texcoords,
    MeshData.has_colors]

theorem triangle_indices_inRange (V : Nat) (hV : 3 ≤ V) (k j : Nat) (hk : k < 1) (hj : j < 3) :
    ∃ x, triangle_indices.getI k j = some x ∧ 0 ≤ x ∧ x < (V : Int) := by
  interval_cases k
  interval_cases j
  · exact ⟨0, by simp [triangle_indices, Tensor.getI], le_refl _, by omega⟩
  · exact ⟨1, by simp [triangle_indices, Tensor.getI], by omega, by omega⟩
  · exact ⟨2, by simp [triangle_indices, Tensor.getI], by omega, by omega⟩

theorem make_triangle_inRange : make_triangle.IndicesInRange := by
  intro k j hk hj
  rw [make_triangle_counts.2] at hk
  rw [make_triangle_counts.1]
  exact triangle_indices_inRange 3 le_rfl k j hk hj

theorem huge_mesh_counts : huge_mesh.vertex_count = 2147483648 ∧ huge_mesh.face_count = 1 := by
  simp [huge_mesh, huge_vertices, triangle_indices, MeshData.vertex_count,
    MeshData.face_count, Tensor.is_valid, Tensor.dim, Tensor.shape]

theorem huge_mesh_inRange : huge_mesh.IndicesInRange := by
  intro k j hk hj
  rw [huge_mesh_counts.2] at hk
  rw [huge_mesh_counts.1]
  exact triangle_indices_inRange 2147483648 (by omega) k j hk hj

/-! ## Claims -/

/-- C1 (as amended). Mesh, topology, mesh round trip: for every mesh with
conforming shapes (vertices `[V,3]`, indices `[F,3]`, every present optional
attribute with one row per vertex), `1 ≤ V ≤ INT_MAX`, `F ≥ 1` and every index
in `[0,V)`, `to_openmesh` and then `from_openmesh` both succeed, and the result
has the same `vertex_count` and `face_count`, the same vertex rows and the
same index rows, element for element in the same order. -/
theorem roundtrip_mesh_topology_mesh (m : MeshData) (hw : m.WellShaped)
    (hV : 1 ≤ m.vertex_count) (hmax : m.vertex_count ≤ INT_MAX) (hF : 1 ≤ m.face_count)
    (hr : m.IndicesInRange) :
    ∃ t m1, to_openmesh m = some t ∧ from_openmesh t = some m1 ∧
      m1.vertex_count = m.vertex_count ∧ m1.face_count = m.face_count ∧
      (∀ i j, i < m.vertex_count → j < 3 →
        ∃ x, m.vertices.getF i j = some x ∧ m1.vertices.getF i j = some x) ∧
      (∀ k j, k < m.face_count → j < 3 →
        ∃ x, m.indices.getI k j = some x ∧ m1.indices.getI k j = some x) := by
  obtain ⟨t, ht, hts⟩ := to_openmesh_spec m hw hmax hr
  obtain ⟨m1, hm1, hfs⟩ := from_openmesh_spec t (by rw [hts.nverts]; omega)
    (by rw [hts.nverts]; exact hmax) (by rw [hts.nfaces]; omega) hts.triangles
  obtain ⟨va, hva, hvrow⟩ := hfs.vertices
  obtain ⟨ia, hia, hirow⟩ := hfs.indices
  refine ⟨t, m1, ht, hm1, ?_, ?_, ?_, ?_⟩
  · simp [MeshData.vertex_count, hva, Tensor.is_valid, Tensor.dim, Tensor.shape, hts.nverts]
  · simp [MeshData.face_count, hia, Tensor.is_valid, Tensor.dim, Tensor.shape, hts.nfaces]
  · intro i j hi hj
    refine ⟨(t.points i).get j, hts.points i j hi hj, ?_⟩
    rw [hva, Tensor.getF_alloc _ _ _ _ _ _ (by rw [hts.nverts]; exact hi) hj,
      hvrow i j (by rw [hts.nverts]; exact hi) hj]
  · intro k j hk hj
    obtain ⟨i0, i1, i2, h0, h1, h2, hrow⟩ := hts.faces k hk
    have hk2 : k < t.faces.length := by rw [hts.nfaces]; exact hk
    rw [hia]
    interval_cases j
    · exact ⟨i0, h0, by rw [Tensor.getI_alloc _ _ _ _ _ _ hk2 (by omega),
        hirow k 0 hk2 (by omega), hrow]; rfl⟩
    · exact ⟨i1, h1, by rw [Tensor.getI_alloc _ _ _ _ _ _ hk2 (by omega),
        hirow k 1 hk2 (by omega), hrow]; rfl⟩
    · exact ⟨i2, h2, by rw [Tensor.getI_alloc _ _ _ _ _ _ hk2 (by omega),
        hirow k 2 hk2 (by omega), hrow]; rfl⟩

/-- Witness for C1: the round trip of the test triangle. -/
theorem roundtrip_mesh_topology_mesh_witness :
    make_triangle.WellShaped ∧ make_triangle.IndicesInRange ∧
    ∃ t m1, to_openmesh make_triangle = some t ∧ from_openmesh t = some m1 ∧
      m1.vertex_count = make_triangle.vertex_count ∧
      m1.face_count = make_triangle.face_count ∧
      (∀ i j, i < make_triangle.vertex_count → j < 3 →
        ∃ x, make_triangle.vertices.getF i j = some x ∧ m1.vertices.getF i j = some x) ∧
      (∀ k j, k < make_triangle.face_count → j < 3 →
        ∃ x, make_triangle.indices.getI k j = some x ∧ m1.indices.getI k j = some x) :=
  ⟨make_triangle_wellShaped, make_triangle_inRange,
    roundtrip_mesh_topology_mesh make_triangle make_triangle_wellShaped
      (by rw [make_triangle_counts.1]; decide)
      (by rw [make_triangle_counts.1]; decide)
      (by rw [make_triangle_counts.2]) make_triangle_inRange⟩

/-- Counterexample to C1 as stated: two meshes with `V ≥ 1`, `F ≥ 1` and every
index in `[0,V)` on which the round trip fails: one has `INT_MAX + 1` vertices,
the other a normals buffer with fewer rows than vertices. -/
theorem roundtrip_fails_without_size_and_shape_bounds :
    (MeshData.construct huge_vertices triangle_indices = some huge_mesh ∧
      1 ≤ huge_mesh.vertex_count ∧ 1 ≤ huge_mesh.face_count ∧ huge_mesh.IndicesInRange ∧
      (to_openmesh huge_mesh).bind from_openmesh = none) ∧
    (1 ≤ short_normals_mesh.vertex_count ∧ 1 ≤ short_normals_mesh.face_count ∧
      short_normals_mesh.IndicesInRange ∧ short_normals_mesh.has_normals = true ∧
      (to_openmesh short_normals_mesh).bind from_openmesh = none) := by
  refine ⟨⟨?_, ?_, ?_, huge_mesh_inRange, ?_⟩, ?_, ?_, ?_, ?_, ?_⟩
  · simp [MeshData.construct, huge_mesh, huge_vertices, triangle_indices, Tensor.ndim,
      Tensor.dim, Tensor.shape, Tensor.dtype, Storage.dtype]
  · rw [huge_mesh_counts.1]; decide
  · rw [huge_mesh_counts.2]
  · simp [to_openmesh, huge_mesh, huge_vertices, triangle_indices, Tensor.is_valid,
      MeshData.vertex_count, Tensor.dim, Tensor.shape, INT_MAX]
  · decide
  · decide
  · exact make_triangle_inRange
  · decide
  · have h : (to_openmesh short_normals_mesh).isNone = true := by decide
    rw [Option.isNone_iff_eq_none.mp h]
    rfl
/-- C2 (as amended). Index-bounds check of `to_openmesh`: for every mesh with
conforming shapes and at most `INT_MAX` vertices, `to_openmesh` fails if and
only if some entry of `indices` is negative or at least `V`; when every entry
lies in `[0,V)` it returns a store. -/
theorem to_openmesh_fails_iff_index_out_of_range (m : MeshData) (hw : m.WellShaped)
    (hmax : m.vertex_count ≤ INT_MAX) :
    (to_openmesh m = none ↔ m.SomeIndexOutOfRange) ∧
    (m.IndicesInRange → ∃ t, to_openmesh m = some t) := by
  refine ⟨⟨?_, to_openmesh_out_of_range m (wellShaped_readable m hw)⟩, ?_⟩
  · intro hnone
    rcases indicesInRange_or_out m hw.2.1.1 hw.2.1.2 with hr | ho
    · obtain ⟨t, ht, _⟩ := to_openmesh_spec m hw hmax hr
      rw [hnone] at ht
      cases ht
    · exact ho
  · intro hr
    obtain ⟨t, ht, _⟩ := to_openmesh_spec m hw hmax hr
    exact ⟨t, ht⟩

/-- Witness for C2: the test triangle, whose indices are all in range. -/
theorem to_openmesh_fails_iff_index_out_of_range_witness :
    make_triangle.WellShaped ∧ make_triangle.vertex_count ≤ INT_MAX ∧
    (to_openmesh make_triangle = none ↔ make_triangle.SomeIndexOutOfRange) ∧
    (make_triangle.IndicesInRange → ∃ t, to_openmesh make_triangle = some t) :=
  ⟨make_triangle_wellShaped, by rw [make_triangle_counts.1]; decide,
    to_openmesh_fails_iff_index_out_of_range make_triangle make_triangle_wellShaped
      (by rw [make_triangle_counts.1]; decide)⟩

/-- Counterexample to C2 as stated: a mesh with conforming shapes, no face and
`INT_MAX + 1` vertices has no index out of range, yet `to_openmesh` fails on
it. -/
theorem to_openmesh_fails_on_huge_vertex_count :
    huge_faceless_mesh.WellShaped ∧ ¬ huge_faceless_mesh.SomeIndexOutOfRange ∧
    to_openmesh huge_faceless_mesh = none := by
  refine ⟨?_, ?_, ?_⟩
  · simp [MeshData.WellShaped, huge_faceless_mesh, huge_vertices,
      MeshData.vertex_count, MeshData.face_count, Tensor.is_valid, Tensor.dim, Tensor.shape,
      Tensor.dtype, Storage.dtype, MeshData.has_normals, MeshData.has_texcoords,
      MeshData.has_colors]
  · rintro ⟨k, j, hk, _⟩
    simp [huge_faceless_mesh, MeshData.face_count, Tensor.is_valid, Tensor.dim,
      Tensor.shape] at hk
  · simp [to_openmesh, huge_faceless_mesh, huge_vertices, Tensor.is_valid,
      MeshData.vertex_count, Tensor.dim, Tensor.shape, INT_MAX]

/-- C3 (as amended). Failure conditions of `from_openmesh`: it fails when the
store has no vertex, or no face, or a face whose number of incident vertices
is not 3, and also when the store has more than `INT_MAX` vertices; for every
store with between 1 and `INT_MAX` vertices and at least one face, all faces
triangles, it succeeds and returns a mesh. -/
theorem from_openmesh_fails_iff (t : TriMesh) :
    (from_openmesh t = none ↔
      (t.n_vertices = 0 ∨ t.n_faces = 0 ∨ INT_MAX < t.n_vertices ∨
        ∃ f, f ∈ t.faces ∧ f.length ≠ 3)) ∧
    ((1 ≤ t.n_vertices ∧ t.n_vertices ≤ INT_MAX ∧ 1 ≤ t.n_faces ∧
        ∀ f, f ∈ t.faces → f.length = 3) → ∃ m, from_openmesh t = some m) := by
  have hsucc : (1 ≤ t.n_vertices ∧ t.n_vertices ≤ INT_MAX ∧ 1 ≤ t.n_faces ∧
        ∀ f, f ∈ t.faces → f.length = 3) → ∃ m, from_openmesh t = some m := by
    rintro ⟨h1, h2, h3, h4⟩
    obtain ⟨m, hm, _⟩ := from_openmesh_spec t h1 h2 h3 h4
    exact ⟨m, hm⟩
  refine ⟨⟨?_, ?_⟩, hsucc⟩
  · intro hnone
    by_contra hcon
    push_neg at hcon
    obtain ⟨c1, c2, c3, c4⟩ := hcon
    obtain ⟨m, hm⟩ := hsucc ⟨Nat.pos_of_ne_zero c1, c3, Nat.pos_of_ne_zero c2, c4⟩
    rw [hnone] at hm
    cases hm
  · rintro (h | h | h | h)
    · simp [from_openmesh, h]
    · simp [from_openmesh, h]
    · simp only [from_openmesh]
      split
      · rfl
      · rw [if_pos (Nat.not_le.mpr h)]
    · have hfail : from_openmesh_indices t t.n_faces = none := by
        simp only [from_openmesh_indices, faceLoop_fail t.faces h]
        rfl
      simp only [from_openmesh, hfail]
      split
      · rfl
      · split
        · rfl
        · cases from_openmesh_vertices t t.n_vertices <;> rfl

/-- Counterexample to C3 as stated: a store with one triangle and
`INT_MAX + 1` vertices has at least one vertex and one face, all faces
triangles, yet `from_openmesh` fails on it. -/
theorem from_openmesh_fails_on_huge_store :
    1 ≤ huge_store.n_vertices ∧ 1 ≤ huge_store.n_faces ∧
    (∀ f, f ∈ huge_store.faces → f.length = 3) ∧ from_openmesh huge_store = none := by
  refine ⟨by decide, by decide, ?_, ?_⟩
  · intro f hf
    simp [huge_store] at hf
    subst hf
    rfl
  · simp [from_openmesh, huge_store, TriMesh.n_vertices, TriMesh.n_faces, INT_MAX]
/-- C7. Presence rule: for each optional attribute, `has_X()` is true exactly
when the attribute tensor is validly allocated and has a non-zero element
count; after assigning a tensor `t` to the attribute, `has_X()` is true
exactly when `t` is valid and non-empty, so an invalid tensor and an allocated
tensor with a zero dimension both give false. -/
theorem presence_rule (m : MeshData) (t : Tensor) (k : Nat) (dev : Device) (dt : DataType) :
    ((m.has_normals = true ↔ m.normals.is_valid = true ∧ 0 < m.normals.numel) ∧
     (m.has_tangents = true ↔ m.tangents.is_valid = true ∧ 0 < m.tangents.numel) ∧
     (m.has_texcoords = true ↔ m.texcoords.is_valid = true ∧ 0 < m.texcoords.numel) ∧
     (m.has_colors = true ↔ m.colors.is_valid = true ∧ 0 < m.colors.numel)) ∧
    ((({ m with normals := t } : MeshData).has_normals = true ↔
        t.is_valid = true ∧ 0 < t.numel) ∧
     (({ m with tangents := t } : MeshData).has_tangents = true ↔
        t.is_valid = true ∧ 0 < t.numel) ∧
     (({ m with texcoords := t } : MeshData).has_texcoords = true ↔
        t.is_valid = true ∧ 0 < t.numel) ∧
     (({ m with colors := t } : MeshData).has_colors = true ↔
        t.is_valid = true ∧ 0 < t.numel)) ∧
    ((Tensor.empty [0, k] dev dt).is_valid = true ∧ (Tensor.empty [0, k] dev dt).numel = 0 ∧
     ({ m with normals := Tensor.empty [0, k] dev dt } : MeshData).has_normals = false ∧
     ({ m with tangents := Tensor.empty [0, k] dev dt } : MeshData).has_tangents = false ∧
     ({ m with texcoords := Tensor.empty [0, k] dev dt } : MeshData).has_texcoords = false ∧
     ({ m with colors := Tensor.empty [0, k] dev dt } : MeshData).has_colors = false) ∧
    (({ m with normals := Tensor.invalid } : MeshData).has_normals = false ∧
     ({ m with tangents := Tensor.invalid } : MeshData).has_tangents = false ∧
     ({ m with texcoords := Tensor.invalid } : MeshData).has_texcoords = false ∧
     ({ m with colors := Tensor.invalid } : MeshData).has_colors = false) := by
  refine ⟨?_, ?_, ?_, ?_⟩
  · simp [MeshData.has_normals, MeshData.has_tangents, MeshData.has_texcoords,
      MeshData.has_colors]
  · simp [MeshData.has_normals, MeshData.has_tangents, MeshData.has_texcoords,
      MeshData.has_colors]
  · simp [MeshData.has_normals, MeshData.has_tangents, MeshData.has_texcoords,
      MeshData.has_colors, Tensor.empty, Tensor.is_valid, Tensor.numel]
  · simp [MeshData.has_normals, MeshData.has_tangents, MeshData.has_texcoords,
      MeshData.has_colors, Tensor.is_valid]

/-- C8. Constructor contract: `MeshData(vertices, indices)` fails exactly when
`vertices` is not a 2-D tensor with 3 columns and element type Float32, or
`indices` is not a 2-D tensor with 3 columns and element type Int32; a mesh it
returns has `vertex_count()` and `face_count()` equal to the row counts of
the two tensors, no optional attribute present, no materials, submeshes or
texture images, and generation 0. -/
theorem constructor_contract (verts idx : Tensor) :
    (MeshData.construct verts idx = none ↔
      (¬ (verts.ndim = 2 ∧ verts.dim 1 = 3 ∧ verts.dtype = some DataType.Float32) ∨
       ¬ (idx.ndim = 2 ∧ idx.dim 1 = 3 ∧ idx.dtype = some DataType.Int32))) ∧
    (∀ m, MeshData.construct verts idx = some m →
      m.vertices = verts ∧ m.indices = idx ∧
      m.vertex_count = verts.dim 0 ∧ m.face_count = idx.dim 0 ∧
      m.has_normals = false ∧ m.has_tangents = false ∧ m.has_texcoords = false ∧
      m.has_colors = false ∧ m.materials = [] ∧ m.submeshes = [] ∧ m.texture_images = [] ∧
      m.generation = 0) := by
  constructor
  · simp only [MeshData.construct]
    split_ifs with h1 h2 h3 h4 <;> simp only [true_iff, reduceCtorEq, false_iff] <;> tauto
  · intro m hm
    simp only [MeshData.construct] at hm
    split at hm
    · cases hm
    · split at hm
      · cases hm
      · split at hm
        · cases hm
        · split at hm
          · cases hm
          · rename_i h1 h2 h3 h4
            simp only [not_not] at h1 h3
            cases hm
            have hv : verts.is_valid = true := by
              cases verts with
              | invalid => simp [Tensor.ndim, Tensor.shape] at h1
              | alloc _ _ _ => rfl
            have hi : idx.is_valid = true := by
              cases idx with
              | invalid => simp [Tensor.ndim, Tensor.shape] at h3
              | alloc _ _ _ => rfl
            simp [MeshData.vertex_count, MeshData.face_count, hv, hi, MeshData.has_normals,
              MeshData.has_tangents, MeshData.has_texcoords, MeshData.has_colors,
              MeshData.generation]
            simp [Tensor.is_valid]

/-- Witness for C8: the constructor on the buffers of the test triangle. -/
theorem constructor_contract_witness :
    MeshData.construct triangle_vertices triangle_indices = some make_triangle ∧
    make_triangle.vertex_count = 3 ∧ make_triangle.face_count = 1 ∧
    make_triangle.has_normals = false ∧ make_triangle.generation = 0 := by
  have h : MeshData.construct triangle_vertices triangle_indices = some make_triangle := by
    simp [MeshData.construct, make_triangle, triangle_vertices, triangle_indices, Tensor.ndim,
      Tensor.dim, Tensor.shape, Tensor.dtype, Storage.dtype]
  have h2 := (constructor_contract triangle_vertices triangle_indices).2 make_triangle h
  exact ⟨h, by rw [h2.2.2.1]; rfl, by rw [h2.2.2.2.1]; rfl, h2.2.2.2.2.1,
    h2.2.2.2.2.2.2.2.2.2.2.2⟩
theorem exact_policy_sqrt (x : ℚ) (hx : 0 < x) : exact_policy.sqrt (x * x) = x := by
  simp only [exact_policy, Rat.sqrt_eq, abs_of_pos hx]

theorem exact_policy_weight (f v : Nat) : 0 < exact_policy.weight f v := by
  simp [exact_policy]

/-- The normals `compute_normals` computes on any mesh whose vertices and
indices are those of the test triangle. -/
theorem triangle_compute_normals (pol : NormalPolicy)
    (hs : ∀ x : ℚ, 0 < x → pol.sqrt (x * x) = x) (hw : ∀ f v, 0 < pol.weight f v)
    (m : MeshData) (hv : m.vertices = triangle_vertices) (hi : m.indices = triangle_indices) :
    ∃ a, m.compute_normals pol = some (MeshData.mark_dirty { m with
        normals := Tensor.alloc [3, 3] Device.CPU (Storage.f32 a) }) ∧
      ∀ i, i < 3 → a [i, 0] = 0 ∧ a [i, 1] = 0 ∧ a [i, 2] = 1 := by
  have hb : compute_normals_build m = some (triangle_store, List.range 3) := by
    rw [← make_triangle_build]
    simp only [compute_normals_build, MeshData.vertex_count, MeshData.face_count, hv, hi,
      make_triangle]
  have hc : m.vertex_count = 3 := by
    simp [MeshData.vertex_count, hv, triangle_vertices, Tensor.is_valid, Tensor.dim,
      Tensor.shape]
  obtain ⟨t1, hu, hn⟩ := triangle_store_update pol hs hw
  obtain ⟨a, hr, ha⟩ := compute_normals_read_spec t1 3 (fun _ => ⟨0, 0, 1⟩) hn
  have h := compute_normals_of_blocks pol m triangle_store t1 (List.range 3) _
    (by simp [hv, triangle_vertices, Tensor.is_valid, Tensor.ndim, Tensor.dim, Tensor.shape])
    (by simp [hi, triangle_indices, Tensor.is_valid, Tensor.ndim, Tensor.dim, Tensor.shape])
    hb hu (by rw [hc]; exact hr)
  refine ⟨a, ?_, ?_⟩
  · rw [h]
    simp [hv, triangle_vertices, Tensor.device]
  · intro i hi
    exact ⟨by simpa [Vec3f.get] using ha i 0 hi (by omega),
      by simpa [Vec3f.get] using ha i 1 hi (by omega),
      by simpa [Vec3f.get] using ha i 2 hi (by omega)⟩

theorem saturated_generation : saturated_triangle.generation = 4294967295 := by
  simp [saturated_triangle, MeshData.generation]

theorem mark_dirty_generation (m : MeshData) :
    m.mark_dirty.generation = (m.generation + 1) % 2 ^ 32 := rfl

theorem saturated_mark_dirty (a : List Nat → ℚ) :
    (MeshData.mark_dirty { saturated_triangle with
        normals := Tensor.alloc [3, 3] Device.CPU (Storage.f32 a) }).generation = 0 := by
  rw [mark_dirty_generation]
  simp [MeshData.generation, saturated_triangle]
/-- C4. Flat-triangle scenario: on the mesh with vertices `(0,0,0)`, `(1,0,0)`,
`(0,1,0)` and the single face `(0,1,2)`, `compute_normals()` succeeds and
leaves a normals tensor of shape `[3,3]` whose every row is `(0,0,1)`, hence
within `1e-5` of it in each component. The store's square root is assumed
exact on squares and its weights positive. -/
theorem flat_triangle_normals (pol : NormalPolicy)
    (hs : ∀ x : ℚ, 0 < x → pol.sqrt (x * x) = x) (hw : ∀ f v, 0 < pol.weight f v) :
    ∃ m1, make_triangle.compute_normals pol = some m1 ∧ m1.normals.shape = [3, 3] ∧
      ∀ i, i < 3 → ∃ x y z, m1.normals.getF i 0 = some x ∧ m1.normals.getF i 1 = some y ∧
        m1.normals.getF i 2 = some z ∧ x = 0 ∧ y = 0 ∧ z = 1 ∧
        |x - 0| ≤ 1 / 100000 ∧ |y - 0| ≤ 1 / 100000 ∧ |z - 1| ≤ 1 / 100000 := by
  obtain ⟨a, h, ha⟩ := triangle_compute_normals pol hs hw make_triangle rfl rfl
  refine ⟨_, h, rfl, ?_⟩
  intro i hi
  obtain ⟨a0, a1, a2⟩ := ha i hi
  refine ⟨0, 0, 1, ?_, ?_, ?_, rfl, rfl, rfl, by norm_num, by norm_num, by norm_num⟩
  · simp [MeshData.mark_dirty, Tensor.getF, hi, a0]
  · simp [MeshData.mark_dirty, Tensor.getF, hi, a1]
  · simp [MeshData.mark_dirty, Tensor.getF, hi, a2]

/-- Witness for C4: the scenario under the exact policy. -/
theorem flat_triangle_normals_witness :
    ∃ m1, make_triangle.compute_normals exact_policy = some m1 ∧ m1.normals.shape = [3, 3] ∧
      ∀ i, i < 3 → ∃ x y z, m1.normals.getF i 0 = some x ∧ m1.normals.getF i 1 = some y ∧
        m1.normals.getF i 2 = some z ∧ x = 0 ∧ y = 0 ∧ z = 1 ∧
        |x - 0| ≤ 1 / 100000 ∧ |y - 0| ≤ 1 / 100000 ∧ |z - 1| ≤ 1 / 100000 :=
  flat_triangle_normals exact_policy exact_policy_sqrt exact_policy_weight

/-- C5 (as amended). One call of `compute_normals()` that succeeds performs
one increment of the 32-bit counter: `generation()` afterwards is
`generation()` before plus 1 modulo `2^32`, hence exactly plus 1 whenever the
counter was below its largest value. -/
theorem compute_normals_increments_generation (pol : NormalPolicy) (m m1 : MeshData)
    (h : m.compute_normals pol = some m1) :
    m1.generation = (m.generation + 1) % 2 ^ 32 ∧
    (m.generation < 2 ^ 32 - 1 → m1.generation = m.generation + 1) := by
  obtain ⟨_, _, t, vh, t1, n0, _, _, _, rfl⟩ := compute_normals_some pol m m1 h
  have h1 : (MeshData.mark_dirty { m with
        normals := (if m.vertices.device = some Device.CUDA then n0.to_device Device.CUDA
                    else n0) }).generation = (m.generation + 1) % 2 ^ 32 := rfl
  refine ⟨h1, ?_⟩
  intro hlt
  rw [h1]
  exact Nat.mod_eq_of_lt (by omega)

/-- Witness for C5: `compute_normals()` on the test triangle, generation 0. -/
theorem compute_normals_increments_generation_witness :
    ∃ m1, make_triangle.compute_normals exact_policy = some m1 ∧
      m1.generation = (make_triangle.generation + 1) % 2 ^ 32 ∧
      (make_triangle.generation < 2 ^ 32 - 1 → m1.generation = make_triangle.generation + 1) := by
  obtain ⟨a, h, _⟩ := triangle_compute_normals exact_policy exact_policy_sqrt
    exact_policy_weight make_triangle rfl rfl
  exact ⟨_, h, compute_normals_increments_generation exact_policy make_triangle _ h⟩

/-- Counterexample to C5 as stated: on the test triangle with the counter at
its largest value `2^32 - 1`, `compute_normals()` succeeds and leaves
`generation()` at 0, not at the value before plus 1. -/
theorem compute_normals_generation_wraps :
    saturated_triangle.generation = 4294967295 ∧
    ∃ m1, saturated_triangle.compute_normals exact_policy = some m1 ∧ m1.generation = 0 ∧
      m1.generation ≠ saturated_triangle.generation + 1 := by
  obtain ⟨a, h, _⟩ := triangle_compute_normals exact_policy exact_policy_sqrt
    exact_policy_weight saturated_triangle rfl rfl
  have hg := saturated_mark_dirty a
  refine ⟨saturated_generation, _, h, hg, ?_⟩
  rw [hg, saturated_generation]
  omega
/-- C6. Postcondition of `compute_normals` on the normals tensor: for every
mesh with at least one vertex on which `compute_normals()` succeeds,
afterwards `has_normals()` is true, `normals` has shape `[V,3]` and element
type Float32, it resides on the device of `vertices` (the accelerator if they
were there, the host otherwise), row `i` holds the normal the updated store
has at handle `i`, whose position is row `i` of `vertices`, and the result
does not depend on the normals assigned before. -/
theorem compute_normals_postcondition (pol : NormalPolicy) (m m1 : MeshData)
    (hV : 1 ≤ m.vertex_count) (h : m.compute_normals pol = some m1) :
    m1.has_normals = true ∧ m1.normals.shape = [m.vertex_count, 3] ∧
    m1.normals.dtype = some DataType.Float32 ∧
    m1.normals.device = m.vertices.device ∧
    (m.vertices.device = some Device.CUDA → m1.normals.device = some Device.CUDA) ∧
    (m.vertices.device ≠ some Device.CUDA → m1.normals.device = some Device.CPU) ∧
    (∃ t vh t1, compute_normals_build m = some (t, vh) ∧ t.update_normals pol = some t1 ∧
      ∀ i, i < m.vertex_count → ∃ n, t1.normal i = some n ∧
        (∀ j, j < 3 → m.vertices.getF i j = some ((t1.points i).get j)) ∧
        ∀ j, j < 3 → m1.normals.getF i j = some (n.get j)) ∧
    (∀ old : Tensor, ∃ m2, ({ m with normals := old } : MeshData).compute_normals pol = some m2 ∧
      m2.normals = m1.normals) := by
  obtain ⟨hgv, hgi, t, vh, t1, n0, hb, hu, hr, rfl⟩ := compute_normals_some pol m m1 h
  obtain ⟨a, rfl, hrow⟩ := compute_normals_read_some t1 vh m.vertex_count n0 hr
  obtain ⟨hvh, hnv, hpts, _, _, _, _⟩ := compute_normals_build_some m t vh hb
  obtain ⟨_, hpt1, _, _⟩ := update_normals_some pol t t1 hu
  have hdev : m.vertices.device = some Device.CUDA ∨ m.vertices.device = some Device.CPU := by
    cases hm : m.vertices with
    | invalid => rw [hm] at hgv; simp [Tensor.is_valid] at hgv
    | alloc s d st => cases d <;> simp [Tensor.device]
  have hrows : ∀ (d : Device) i, i < m.vertex_count → ∃ n, t1.normal i = some n ∧
      (∀ j, j < 3 → m.vertices.getF i j = some ((t1.points i).get j)) ∧
      ∀ j, j < 3 → (Tensor.alloc [m.vertex_count, 3] d (Storage.f32 a)).getF i j =
        some (n.get j) := by
    intro d i hi
    obtain ⟨hd, n, h1, h2, h3⟩ := hrow i hi
    rw [hvh, List.getElem?_range hi] at h1
    cases h1
    refine ⟨n, h2, fun j hj => by rw [hpt1]; exact hpts i j hi hj, fun j hj => ?_⟩
    rw [Tensor.getF_alloc _ _ _ _ _ _ hi hj, h3 j hj]
  have hframe : ∀ old : Tensor, ({ m with normals := old } : MeshData).compute_normals pol =
      some (MeshData.mark_dirty { ({ m with normals := old } : MeshData) with
        normals := (if m.vertices.device = some Device.CUDA then
          (Tensor.alloc [m.vertex_count, 3] Device.CPU (Storage.f32 a)).to_device Device.CUDA
          else Tensor.alloc [m.vertex_count, 3] Device.CPU (Storage.f32 a)) }) := by
    intro old
    exact compute_normals_of_blocks pol { m with normals := old } t t1 vh _ hgv hgi hb hu hr
  rcases hdev with hd | hd
  · simp only [hd, if_true, Tensor.to_device, MeshData.mark_dirty] at hframe ⊢
    refine ⟨?_, rfl, rfl, rfl, fun _ => rfl, fun hne => by simp at hne,
      ⟨t, vh, t1, hb, hu, hrows Device.CUDA⟩, fun old => ⟨_, hframe old, rfl⟩⟩
    simp [MeshData.has_normals, Tensor.is_valid, Tensor.numel]
    omega
  · have hne : ¬ (some Device.CPU = some Device.CUDA) := by simp
    simp only [hd, hne, if_false, MeshData.mark_dirty] at hframe ⊢
    refine ⟨?_, rfl, rfl, rfl, fun hc => by simp at hc, fun _ => rfl,
      ⟨t, vh, t1, hb, hu, hrows Device.CPU⟩, fun old => ⟨_, hframe old, rfl⟩⟩
    simp [MeshData.has_normals, Tensor.is_valid, Tensor.numel]
    omega

/-- Witness for C6: `compute_normals()` on the test triangle. -/
theorem compute_normals_postcondition_witness :
    1 ≤ make_triangle.vertex_count ∧
    ∃ m1, make_triangle.compute_normals exact_policy = some m1 ∧
      m1.has_normals = true ∧ m1.normals.shape = [make_triangle.vertex_count, 3] ∧
      m1.normals.dtype = some DataType.Float32 ∧
      m1.normals.device = make_triangle.vertices.device := by
  obtain ⟨a, h, _⟩ := triangle_compute_normals exact_policy exact_policy_sqrt
    exact_policy_weight make_triangle rfl rfl
  have hV : 1 ≤ make_triangle.vertex_count := by rw [make_triangle_counts.1]; decide
  have hp := compute_normals_postcondition exact_policy make_triangle _ hV h
  exact ⟨hV, _, h, hp.1, hp.2.1, hp.2.2.1, hp.2.2.2.1⟩
theorem half_alpha_triangle_wellShaped : half_alpha_triangle.WellShaped := by
  simp [MeshData.WellShaped, half_alpha_triangle, make_triangle, triangle_vertices,
    triangle_indices, MeshData.vertex_count, MeshData.face_count, Tensor.is_valid, Tensor.dim,
    Tensor.shape, Tensor.dtype, Storage.dtype, MeshData.has_normals, MeshData.has_texcoords,
    MeshData.has_colors]

theorem half_alpha_triangle_has_colors : half_alpha_triangle.has_colors = true := by
  simp [half_alpha_triangle, MeshData.has_colors, Tensor.is_valid, Tensor.numel]

/-- The round trip of the coloured test triangle succeeds. -/
theorem half_alpha_triangle_roundtrip :
    ∃ t m1, to_openmesh half_alpha_triangle = some t ∧ from_openmesh t = some m1 := by
  obtain ⟨t, ht, hts⟩ := to_openmesh_spec half_alpha_triangle half_alpha_triangle_wellShaped
    (by show make_triangle.vertex_count ≤ INT_MAX; rw [make_triangle_counts.1]; decide)
    make_triangle_inRange
  have hn : t.nverts = 3 := by rw [hts.nverts]; exact make_triangle_counts.1
  have hf : t.faces.length = 1 := by rw [hts.nfaces]; exact make_triangle_counts.2
  obtain ⟨m1, hm1, _⟩ := from_openmesh_spec t (by omega) (by rw [hn]; decide) (by omega)
    hts.triangles
  exact ⟨t, m1, ht, hm1⟩

/-- C9. Lossy colour round trip, RGB channels: when `to_openmesh` and then
`from_openmesh` succeed on a mesh with colours present, every value `c` of
`[0,1]` at row `i < V` and channel `j < 3` of `colors` comes back as a value
within `1/255` of `c`. -/
theorem color_roundtrip_rgb (m : MeshData) (t : TriMesh) (m1 : MeshData)
    (h1 : to_openmesh m = some t) (h2 : from_openmesh t = some m1)
    (hc : m.has_colors = true) (i j : Nat) (c : ℚ) (hi : i < m.vertex_count) (hj : j < 3)
    (hget : m.colors.getF i j = some c) (h0 : 0 ≤ c) (hle : c ≤ 1) :
    ∃ c1, m1.colors.getF i j = some c1 ∧ |c - c1| ≤ 1 / 255 := by
  obtain ⟨hn, f, hf, hrow⟩ := to_openmesh_some_colors m t h1 hc
  obtain ⟨hs, _⟩ := from_openmesh_some_spec t m1 h2
  have hcol := hs.colors
  rw [hf] at hcol
  obtain ⟨a, ha, harow⟩ := hcol
  have hi2 : i < t.nverts := by rw [hn]; exact hi
  obtain ⟨r, g, b, e0, e1, e2, e3⟩ := hrow i hi
  refine ⟨((quantize c : Nat) : ℚ) / 255, ?_, quantize_error c h0 hle⟩
  rw [ha, Tensor.getF_alloc _ _ _ _ _ _ hi2 (by omega), harow i j hi2 (by omega), if_pos hj, e3]
  interval_cases j
  · rw [e0] at hget; cases hget; rfl
  · rw [e1] at hget; cases hget; rfl
  · rw [e2] at hget; cases hget; rfl

/-- Witness for C9: the red channel of vertex 0 of the coloured test
triangle. -/
theorem color_roundtrip_rgb_witness :
    ∃ t m1, to_openmesh half_alpha_triangle = some t ∧ from_openmesh t = some m1 ∧
      half_alpha_triangle.colors.getF 0 0 = some 0 ∧
      ∃ c1, m1.colors.getF 0 0 = some c1 ∧ |(0 : ℚ) - c1| ≤ 1 / 255 := by
  obtain ⟨t, m1, ht, hm1⟩ := half_alpha_triangle_roundtrip
  have hg : half_alpha_triangle.colors.getF 0 0 = some 0 := by
    simp [half_alpha_triangle, Tensor.getF]
  exact ⟨t, m1, ht, hm1, hg,
    color_roundtrip_rgb half_alpha_triangle t m1 ht hm1 half_alpha_triangle_has_colors 0 0 0
      (by show 0 < make_triangle.vertex_count; rw [make_triangle_counts.1]; decide)
      (by decide) hg (le_refl 0) (by norm_num)⟩

/-- C10 (as amended). Alpha channel of the colour round trip: when
`to_openmesh` and then `from_openmesh` succeed on a mesh with colours present,
the returned `colors` has shape `[V, 4]` and its alpha (column 3) is exactly 1
at every row, whatever the alpha of the input; it is within `1/255` of an
input alpha `a ≤ 1` exactly when `a ≥ 254/255`. -/
theorem color_roundtrip_alpha (m : MeshData) (t : TriMesh) (m1 : MeshData)
    (h1 : to_openmesh m = some t) (h2 : from_openmesh t = some m1)
    (hc : m.has_colors = true) :
    m1.colors.shape = [m.vertex_count, 4] ∧
    ∀ i, i < m.vertex_count → m1.colors.getF i 3 = some 1 ∧
      ∀ a : ℚ, m.colors.getF i 3 = some a → a ≤ 1 →
        (|a - 1| ≤ 1 / 255 ↔ 254 / 255 ≤ a) := by
  obtain ⟨hn, f, hf, _⟩ := to_openmesh_some_colors m t h1 hc
  obtain ⟨hs, _⟩ := from_openmesh_some_spec t m1 h2
  have hcol := hs.colors
  rw [hf] at hcol
  obtain ⟨a, ha, harow⟩ := hcol
  refine ⟨by rw [ha, hn]; rfl, ?_⟩
  intro i hi
  have hi2 : i < t.nverts := by rw [hn]; exact hi
  refine ⟨?_, ?_⟩
  · rw [ha, Tensor.getF_alloc _ _ _ _ _ _ hi2 (by omega), harow i 3 hi2 (by omega)]
    simp
  · intro x _ hx
    rw [abs_le]
    constructor
    · intro h; linarith [h.1]
    · intro h; constructor <;> linarith

/-- Witness for C10: the coloured test triangle. -/
theorem color_roundtrip_alpha_witness :
    ∃ t m1, to_openmesh half_alpha_triangle = some t ∧ from_openmesh t = some m1 ∧
      m1.colors.shape = [half_alpha_triangle.vertex_count, 4] ∧
      ∀ i, i < half_alpha_triangle.vertex_count → m1.colors.getF i 3 = some 1 ∧
        ∀ a : ℚ, half_alpha_triangle.colors.getF i 3 = some a → a ≤ 1 →
          (|a - 1| ≤ 1 / 255 ↔ 254 / 255 ≤ a) := by
  obtain ⟨t, m1, ht, hm1⟩ := half_alpha_triangle_roundtrip
  exact ⟨t, m1, ht, hm1,
    color_roundtrip_alpha half_alpha_triangle t m1 ht hm1 half_alpha_triangle_has_colors⟩

/-- Counterexample to C10 as stated: on the coloured test triangle every
alpha is `1/2`, a value of `[0,1]`; the round trip succeeds and returns alpha
1 at row 0, which is not within `1/255` of `1/2`. -/
theorem color_roundtrip_loses_alpha :
    half_alpha_triangle.has_colors = true ∧
    half_alpha_triangle.colors.shape = [3, 4] ∧
    half_alpha_triangle.colors.getF 0 3 = some (1 / 2) ∧
    ∃ t m1, to_openmesh half_alpha_triangle = some t ∧ from_openmesh t = some m1 ∧
      m1.colors.getF 0 3 = some 1 ∧ ¬ (|(1 / 2 : ℚ) - 1| ≤ 1 / 255) := by
  obtain ⟨t, m1, ht, hm1⟩ := half_alpha_triangle_roundtrip
  obtain ⟨hn, f, hf, _⟩ := to_openmesh_some_colors _ t ht half_alpha_triangle_has_colors
  obtain ⟨hs, _⟩ := from_openmesh_some_spec t m1 hm1
  have hcol := hs.colors
  rw [hf] at hcol
  obtain ⟨a, ha, harow⟩ := hcol
  have hn3 : t.nverts = 3 := by rw [hn]; exact make_triangle_counts.1
  refine ⟨half_alpha_triangle_has_colors, rfl, ?_, t, m1, ht, hm1, ?_, ?_⟩
  · simp [half_alpha_triangle, Tensor.getF]
  · rw [ha, Tensor.getF_alloc _ _ _ _ _ _ (by omega) (by omega), harow 0 3 (by omega) (by omega)]
    simp
  · rw [abs_le]
    norm_num
theorem saturating_triangle_wellShaped : saturating_triangle.WellShaped := by
  simp [MeshData.WellShaped, saturating_triangle, make_triangle, triangle_vertices,
    triangle_indices, MeshData.vertex_count, MeshData.face_count, Tensor.is_valid, Tensor.dim,
    Tensor.shape, Tensor.dtype, Storage.dtype, MeshData.has_normals, MeshData.has_texcoords,
    MeshData.has_colors]

theorem saturating_triangle_has_colors : saturating_triangle.has_colors = true := by
  simp [saturating_triangle, MeshData.has_colors, Tensor.is_valid, Tensor.numel]

/-- The round trip of the saturating test triangle succeeds. -/
theorem saturating_triangle_roundtrip :
    ∃ t m1, to_openmesh saturating_triangle = some t ∧ from_openmesh t = some m1 := by
  obtain ⟨t, ht, hts⟩ := to_openmesh_spec saturating_triangle saturating_triangle_wellShaped
    (by show make_triangle.vertex_count ≤ INT_MAX; rw [make_triangle_counts.1]; decide)
    make_triangle_inRange
  have hn : t.nverts = 3 := by rw [hts.nverts]; exact make_triangle_counts.1
  have hf : t.faces.length = 1 := by rw [hts.nfaces]; exact make_triangle_counts.2
  obtain ⟨m1, hm1, _⟩ := from_openmesh_spec t (by omega) (by rw [hn]; decide) (by omega)
    hts.triangles
  exact ⟨t, m1, ht, hm1⟩

/-- Quantising a channel value of at least 1 gives the byte 255, a value of at
most 0 the byte 0, and any value a byte of `[0,255]`. -/
theorem quantize_saturates (c : ℚ) :
    quantize c ≤ 255 ∧ (1 ≤ c → quantize c = 255) ∧ (c ≤ 0 → quantize c = 0) := by
  have hclamp : 0 ≤ clamp (c * 255) 0 255 ∧ clamp (c * 255) 0 255 ≤ 255 := by
    simp only [clamp]
    split_ifs with h1 h2
    · exact ⟨le_refl _, by norm_num⟩
    · exact ⟨by norm_num, le_refl _⟩
    · exact ⟨not_lt.mp h1, not_lt.mp h2⟩
  have hq : quantize c = ⌊clamp (c * 255) 0 255⌋.toNat := by
    simp only [quantize, to_uchar, hclamp.1, if_true]
    apply Nat.mod_eq_of_lt
    have h1 : ⌊clamp (c * 255) 0 255⌋ ≤ ⌊(255 : ℚ)⌋ := Int.floor_le_floor hclamp.2
    have h2 : ⌊(255 : ℚ)⌋ = 255 := by simp
    omega
  refine ⟨?_, ?_, ?_⟩
  · rw [hq]
    have h1 : ⌊clamp (c * 255) 0 255⌋ ≤ ⌊(255 : ℚ)⌋ := Int.floor_le_floor hclamp.2
    have h2 : ⌊(255 : ℚ)⌋ = 255 := by simp
    omega
  · intro h
    have hc : clamp (c * 255) 0 255 = 255 := by
      simp only [clamp]
      split_ifs with h1 h2
      · linarith
      · rfl
      · linarith
    rw [hq, hc]
    simp
  · intro h
    have hc : clamp (c * 255) 0 255 = 0 := by
      simp only [clamp]
      split_ifs with h1 h2
      · rfl
      · linarith
      · linarith
    rw [hq, hc]
    simp

/-- C11. Colour saturation: in a store returned by `to_openmesh`, the byte
stored for channel `j < 3` of row `i` is the truncation of
`clamp(255 c, 0, 255)`, always in `[0,255]`; it is 255 when `c ≥ 1` and 0 when
`c ≤ 0`, and a following `from_openmesh` returns the byte divided by 255,
hence exactly 1 and exactly 0 in those two cases. -/
theorem color_saturation (m : MeshData) (t : TriMesh) (h1 : to_openmesh m = some t)
    (hc : m.has_colors = true) (i j : Nat) (c : ℚ) (hi : i < m.vertex_count) (hj : j < 3)
    (hget : m.colors.getF i j = some c) :
    ∃ col, t.color i = some col ∧
      col.get j = to_uchar (clamp (c * 255) 0 255) ∧ col.get j ≤ 255 ∧
      (1 ≤ c → col.get j = 255) ∧ (c ≤ 0 → col.get j = 0) ∧
      ∀ m1, from_openmesh t = some m1 →
        m1.colors.getF i j = some (((col.get j : Nat) : ℚ) / 255) ∧
        (1 ≤ c → m1.colors.getF i j = some 1) ∧ (c ≤ 0 → m1.colors.getF i j = some 0) := by
  obtain ⟨hn, f, hf, hrow⟩ := to_openmesh_some_colors m t h1 hc
  have hi2 : i < t.nverts := by rw [hn]; exact hi
  obtain ⟨r, g, b, e0, e1, e2, e3⟩ := hrow i hi
  have hbyte : (f i).get j = quantize c := by
    rw [e3]
    interval_cases j
    · rw [e0] at hget; cases hget; rfl
    · rw [e1] at hget; cases hget; rfl
    · rw [e2] at hget; cases hget; rfl
  obtain ⟨q1, q2, q3⟩ := quantize_saturates c
  have hround : ∀ m1, from_openmesh t = some m1 →
      m1.colors.getF i j = some (((quantize c : Nat) : ℚ) / 255) := by
    intro m1 h2
    obtain ⟨hs, _⟩ := from_openmesh_some_spec t m1 h2
    have hcol := hs.colors
    rw [hf] at hcol
    obtain ⟨a, ha, harow⟩ := hcol
    rw [ha, Tensor.getF_alloc _ _ _ _ _ _ hi2 (by omega), harow i j hi2 (by omega), if_pos hj,
      hbyte]
  refine ⟨f i, by simp [TriMesh.color, hf, hi2], by rw [hbyte]; rfl, by rw [hbyte]; exact q1,
    fun h => by rw [hbyte]; exact q2 h, fun h => by rw [hbyte]; exact q3 h, ?_⟩
  intro m1 h2
  rw [hbyte]
  refine ⟨hround m1 h2, fun h => ?_, fun h => ?_⟩
  · rw [hround m1 h2, q2 h]; norm_num
  · rw [hround m1 h2, q3 h]; norm_num

/-- Witness for C11: the value 1.2 in the red channel of vertex 0 of the
saturating test triangle is stored as 255 and comes back as 1. -/
theorem color_saturation_witness :
    saturating_triangle.colors.getF 0 0 = some (6 / 5) ∧
    ∃ t m1, to_openmesh saturating_triangle = some t ∧ from_openmesh t = some m1 ∧
      (∃ col, t.color 0 = some col ∧ col.get 0 = 255) ∧ m1.colors.getF 0 0 = some 1 := by
  obtain ⟨t, m1, ht, hm1⟩ := saturating_triangle_roundtrip
  have hg : saturating_triangle.colors.getF 0 0 = some (6 / 5) := by
    simp [saturating_triangle, Tensor.getF]
  obtain ⟨col, c1, _, _, c4, _, c6⟩ :=
    color_saturation saturating_triangle t ht saturating_triangle_has_colors 0 0 (6 / 5)
      (by show 0 < make_triangle.vertex_count; rw [make_triangle_counts.1]; decide)
      (by decide) hg
  exact ⟨hg, t, m1, ht, hm1, ⟨col, c1, c4 (by norm_num)⟩, (c6 m1 hm1).2.1 (by norm_num)⟩
/-- The counts of a mesh meeting `FromSpec` are those of the store. -/
theorem FromSpec.counts {t : TriMesh} {m : MeshData} (hs : FromSpec t m) :
    m.vertex_count = t.nverts ∧ m.face_count = t.faces.length := by
  obtain ⟨a, ha, _⟩ := hs.vertices
  obtain ⟨b, hb, _⟩ := hs.indices
  simp [MeshData.vertex_count, MeshData.face_count, ha, hb, Tensor.is_valid, Tensor.dim,
    Tensor.shape]

/-- The presence queries of a mesh meeting `FromSpec`, for a store with a
vertex, are the storage queries of the store. -/
theorem FromSpec.presence {t : TriMesh} {m : MeshData} (hs : FromSpec t m) (hv : 0 < t.nverts) :
    m.has_normals = t.has_vertex_normals ∧ m.has_texcoords = t.has_vertex_texcoords2D ∧
    m.has_colors = t.has_vertex_colors := by
  have hn := hs.normals
  have ht := hs.texcoords
  have hc := hs.colors
  refine ⟨?_, ?_, ?_⟩
  · cases hvn : t.vertex_normals with
    | none =>
      rw [hvn] at hn
      simp [MeshData.has_normals, TriMesh.has_vertex_normals, hvn, hn, Tensor.is_valid]
    | some f =>
      rw [hvn] at hn
      obtain ⟨a, ha, _⟩ := hn
      simp [MeshData.has_normals, TriMesh.has_vertex_normals, hvn, ha, Tensor.is_valid,
        Tensor.numel]
      omega
  · cases hvn : t.vertex_texcoords2D with
    | none =>
      rw [hvn] at ht
      simp [MeshData.has_texcoords, TriMesh.has_vertex_texcoords2D, hvn, ht, Tensor.is_valid]
    | some f =>
      rw [hvn] at ht
      obtain ⟨a, ha, _⟩ := ht
      simp [MeshData.has_texcoords, TriMesh.has_vertex_texcoords2D, hvn, ha, Tensor.is_valid,
        Tensor.numel]
      omega
  · cases hvn : t.vertex_colors with
    | none =>
      rw [hvn] at hc
      simp [MeshData.has_colors, TriMesh.has_vertex_colors, hvn, hc, Tensor.is_valid]
    | some f =>
      rw [hvn] at hc
      obtain ⟨a, ha, _⟩ := hc
      simp [MeshData.has_colors, TriMesh.has_vertex_colors, hvn, ha, Tensor.is_valid,
        Tensor.numel]
      omega

/-- C12. Vertex rows and handles are aligned in `from_openmesh`: the result
has the vertex and face counts of the store and a Float32 `[V, 3]` position
buffer, row `i` holding the position of vertex handle `i`; an optional attribute is present in the result exactly when
the store has its storage, and then has exactly `V` rows whose row `i` is the
value stored at the same handle `i` (for colours the bytes divided by 255,
with alpha 1). -/
theorem from_openmesh_row_alignment (t : TriMesh) (m : MeshData)
    (h : from_openmesh t = some m) :
    m.vertex_count = t.n_vertices ∧ m.face_count = t.n_faces ∧
    m.vertices.shape = [t.n_vertices, 3] ∧ m.vertices.dtype = some DataType.Float32 ∧
    (∀ i j, i < t.n_vertices → j < 3 → m.vertices.getF i j = some ((t.point i).get j)) ∧
    (m.has_normals = t.has_vertex_normals ∧ m.has_texcoords = t.has_vertex_texcoords2D ∧
      m.has_colors = t.has_vertex_colors) ∧
    (t.has_vertex_normals = true → m.normals.shape = [t.n_vertices, 3] ∧
      ∀ i, i < t.n_vertices → ∃ n, t.normal i = some n ∧
        ∀ j, j < 3 → m.normals.getF i j = some (n.get j)) ∧
    (t.has_vertex_texcoords2D = true → m.texcoords.shape = [t.n_vertices, 2] ∧
      ∀ i, i < t.n_vertices → ∃ tc, t.texcoord2D i = some tc ∧
        ∀ j, j < 2 → m.texcoords.getF i j = some (tc.get j)) ∧
    (t.has_vertex_colors = true → m.colors.shape = [t.n_vertices, 4] ∧
      ∀ i, i < t.n_vertices → ∃ c, t.color i = some c ∧
        (∀ j, j < 3 → m.colors.getF i j = some (((c.get j : Nat) : ℚ) / 255)) ∧
        m.colors.getF i 3 = some 1) := by
  obtain ⟨hs, hv, _, _, _⟩ := from_openmesh_some_spec t m h
  simp only [TriMesh.n_vertices, TriMesh.n_faces]
  refine ⟨hs.counts.1, hs.counts.2, ?_, ?_, ?_, hs.presence hv, ?_, ?_, ?_⟩
  · obtain ⟨a, ha, _⟩ := hs.vertices
    rw [ha]; rfl
  · obtain ⟨a, ha, _⟩ := hs.vertices
    rw [ha]; rfl
  · obtain ⟨a, ha, harow⟩ := hs.vertices
    intro i j hi hj
    rw [ha, Tensor.getF_alloc _ _ _ _ _ _ hi hj, harow i j hi hj]
    rfl
  · intro hp
    have hn := hs.normals
    cases hvn : t.vertex_normals with
    | none => simp [TriMesh.has_vertex_normals, hvn] at hp
    | some f =>
      rw [hvn] at hn
      obtain ⟨a, ha, harow⟩ := hn
      refine ⟨by rw [ha]; rfl, fun i hi => ⟨f i, by simp [TriMesh.normal, hvn, hi], ?_⟩⟩
      intro j hj
      rw [ha, Tensor.getF_alloc _ _ _ _ _ _ hi hj, harow i j hi hj]
  · intro hp
    have hn := hs.texcoords
    cases hvn : t.vertex_texcoords2D with
    | none => simp [TriMesh.has_vertex_texcoords2D, hvn] at hp
    | some f =>
      rw [hvn] at hn
      obtain ⟨a, ha, harow⟩ := hn
      refine ⟨by rw [ha]; rfl, fun i hi => ⟨f i, by simp [TriMesh.texcoord2D, hvn, hi], ?_⟩⟩
      intro j hj
      rw [ha, Tensor.getF_alloc _ _ _ _ _ _ hi hj, harow i j hi hj]
  · intro hp
    have hn := hs.colors
    cases hvn : t.vertex_colors with
    | none => simp [TriMesh.has_vertex_colors, hvn] at hp
    | some f =>
      rw [hvn] at hn
      obtain ⟨a, ha, harow⟩ := hn
      refine ⟨by rw [ha]; rfl, fun i hi => ⟨f i, by simp [TriMesh.color, hvn, hi], ?_, ?_⟩⟩
      · intro j hj
        rw [ha, Tensor.getF_alloc _ _ _ _ _ _ hi (by omega), harow i j hi (by omega), if_pos hj]
      · rw [ha, Tensor.getF_alloc _ _ _ _ _ _ hi (by omega), harow i 3 hi (by omega)]
        simp

/-- The store built for the test triangle is accepted by `from_openmesh`. -/
theorem triangle_store_from : ∃ m, from_openmesh triangle_store = some m :=
  (from_openmesh_spec triangle_store (by decide) (by decide) (by decide) (by decide)).imp
    (fun _ h => h.1)

/-- Witness for C12: the store of the test triangle, which has vertex
normals, gives a mesh of three vertices with a `[3, 3]` normals buffer. -/
theorem from_openmesh_row_alignment_witness :
    ∃ m, from_openmesh triangle_store = some m ∧ m.vertex_count = 3 ∧ m.face_count = 1 ∧
      m.has_normals = true ∧ m.normals.shape = [3, 3] ∧ m.has_colors = false := by
  obtain ⟨m, hm⟩ := triangle_store_from
  obtain ⟨h1, h2, _, _, _, ⟨hn, _, hc⟩, h5, _, _⟩ :=
    from_openmesh_row_alignment triangle_store m hm
  exact ⟨m, hm, h1, h2, hn, (h5 rfl).1, hc⟩

/-- C13. Index rows follow face order in `from_openmesh`: the result has an
Int32 `[F, 3]` index buffer whose row `k` holds the three vertex handles of
face `k` in the face's circulation order, and every value written lies in
`[0, V)` when the store's faces refer to vertices of the store. -/
theorem from_openmesh_index_rows (t : TriMesh) (m : MeshData) (h : from_openmesh t = some m) :
    m.face_count = t.n_faces ∧ m.indices.shape = [t.n_faces, 3] ∧
    m.indices.dtype = some DataType.Int32 ∧
    (∀ k, k < t.n_faces → ∃ v0 v1 v2 : Nat, t.faces.getD k [] = [v0, v1, v2] ∧
      m.indices.getI k 0 = some (v0 : Int) ∧ m.indices.getI k 1 = some (v1 : Int) ∧
      m.indices.getI k 2 = some (v2 : Int)) ∧
    (t.Valid → m.IndicesInRange) := by
  obtain ⟨hs, hv, _, _, htri⟩ := from_openmesh_some_spec t m h
  obtain ⟨a, ha, harow⟩ := hs.indices
  simp only [TriMesh.n_faces]
  have hrows : ∀ k, k < t.faces.length → ∃ v0 v1 v2 : Nat, t.faces.getD k [] = [v0, v1, v2] ∧
      m.indices.getI k 0 = some (v0 : Int) ∧ m.indices.getI k 1 = some (v1 : Int) ∧
      m.indices.getI k 2 = some (v2 : Int) := by
    intro k hk
    have hmem : t.faces.getD k [] ∈ t.faces := by
      rw [List.getD_eq_getElem _ _ hk]
      exact List.getElem_mem hk
    have hlen := htri _ hmem
    obtain ⟨v0, v1, v2, hface⟩ : ∃ v0 v1 v2, t.faces.getD k [] = [v0, v1, v2] := by
      match hf : t.faces.getD k [], hlen with
      | [v0, v1, v2], _ => exact ⟨v0, v1, v2, rfl⟩
    refine ⟨v0, v1, v2, hface, ?_, ?_, ?_⟩
    · rw [ha, Tensor.getI_alloc _ _ _ _ _ _ hk (by omega), harow k 0 hk (by omega), hface]; rfl
    · rw [ha, Tensor.getI_alloc _ _ _ _ _ _ hk (by omega), harow k 1 hk (by omega), hface]; rfl
    · rw [ha, Tensor.getI_alloc _ _ _ _ _ _ hk (by omega), harow k 2 hk (by omega), hface]; rfl
  refine ⟨hs.counts.2, by rw [ha]; rfl, by rw [ha]; rfl, hrows, ?_⟩
  intro hval k j hk hj
  rw [hs.counts.2] at hk
  rw [hs.counts.1]
  obtain ⟨v0, v1, v2, hface, e0, e1, e2⟩ := hrows k hk
  have hmem : t.faces.getD k [] ∈ t.faces := by
    rw [List.getD_eq_getElem _ _ hk]
    exact List.getElem_mem hk
  have hb := hval _ hmem
  rw [hface] at hb
  have b0 := hb v0 (by simp)
  have b1 := hb v1 (by simp)
  have b2 := hb v2 (by simp)
  interval_cases j
  · exact ⟨_, e0, by omega, by omega⟩
  · exact ⟨_, e1, by omega, by omega⟩
  · exact ⟨_, e2, by omega, by omega⟩

/-- The faces of the store built for the test triangle refer to its vertices. -/
theorem triangle_store_valid : triangle_store.Valid := by
  intro f hf v hv
  simp [triangle_store] at hf
  subst hf
  simp at hv
  show v < 3
  omega

/-- Witness for C13: the store of the test triangle gives the index row
`(0, 1, 2)`, all of whose entries are in range. -/
theorem from_openmesh_index_rows_witness :
    ∃ m, from_openmesh triangle_store = some m ∧ m.indices.shape = [1, 3] ∧
      m.indices.getI 0 0 = some 0 ∧ m.indices.getI 0 1 = some 1 ∧
      m.indices.getI 0 2 = some 2 ∧ m.IndicesInRange := by
  obtain ⟨m, hm⟩ := triangle_store_from
  obtain ⟨_, h2, _, h4, h5⟩ := from_openmesh_index_rows triangle_store m hm
  obtain ⟨v0, v1, v2, hf, e0, e1, e2⟩ := h4 0 (by decide)
  have hf2 : [0, 1, 2] = [v0, v1, v2] := hf
  simp only [List.cons.injEq, and_true] at hf2
  obtain ⟨r0, r1, r2⟩ := hf2
  subst r0 r1 r2
  exact ⟨m, hm, h2, e0, e1, e2, h5 triangle_store_valid⟩
/-- C14 (as amended). Structure of the result of `to_openmesh`: for every mesh
with conforming shapes, at most `INT_MAX` vertices and every index in `[0,V)`,
`to_openmesh` returns a store with exactly `V` vertices and exactly `F` faces,
the vertex with handle `i` has the position in row `i` of `vertices`, and the
`k`-th face is built from the handles `(indices[k,0], indices[k,1],
indices[k,2])` in that order. -/
theorem to_openmesh_structure (m : MeshData) (hw : m.WellShaped)
    (hmax : m.vertex_count ≤ INT_MAX) (hr : m.IndicesInRange) :
    ∃ t, to_openmesh m = some t ∧ t.n_vertices = m.vertex_count ∧
      t.n_faces = m.face_count ∧
      (∀ i j, i < m.vertex_count → j < 3 → m.vertices.getF i j = some ((t.point i).get j)) ∧
      ∀ k, k < m.face_count → ∃ i0 i1 i2 : Nat,
        m.indices.getI k 0 = some (i0 : Int) ∧ m.indices.getI k 1 = some (i1 : Int) ∧
        m.indices.getI k 2 = some (i2 : Int) ∧ t.faces.getD k [] = [i0, i1, i2] := by
  obtain ⟨t, ht, hs⟩ := to_openmesh_spec m hw hmax hr
  exact ⟨t, ht, hs.nverts, hs.nfaces, hs.points, hs.faces⟩

/-- Witness for C14: the test triangle gives a store of three vertices and one
face. -/
theorem to_openmesh_structure_witness :
    ∃ t, to_openmesh make_triangle = some t ∧ t.n_vertices = 3 ∧ t.n_faces = 1 := by
  obtain ⟨t, ht, h1, h2, _⟩ := to_openmesh_structure make_triangle make_triangle_wellShaped
    (by rw [make_triangle_counts.1]; decide) make_triangle_inRange
  exact ⟨t, ht, by rw [h1, make_triangle_counts.1], by rw [h2, make_triangle_counts.2]⟩

/-- Counterexample to C14 as stated: two meshes with `V` vertices, `F` faces
and every index in `[0,V)` for which `to_openmesh` returns no store: one has
`INT_MAX + 1` vertices, the other a normals buffer with fewer rows than
vertices. -/
theorem to_openmesh_returns_no_store_beyond_bounds :
    (huge_mesh.vertex_count = 2147483648 ∧ huge_mesh.face_count = 1 ∧
      huge_mesh.IndicesInRange ∧ to_openmesh huge_mesh = none) ∧
    (short_normals_mesh.vertex_count = 3 ∧ short_normals_mesh.face_count = 1 ∧
      short_normals_mesh.IndicesInRange ∧ to_openmesh short_normals_mesh = none) := by
  refine ⟨⟨huge_mesh_counts.1, huge_mesh_counts.2, huge_mesh_inRange, ?_⟩, ?_, ?_, ?_, ?_⟩
  · simp [to_openmesh, huge_mesh, huge_vertices, triangle_indices, Tensor.is_valid,
      MeshData.vertex_count, Tensor.dim, Tensor.shape, INT_MAX]
  · exact make_triangle_counts.1
  · exact make_triangle_counts.2
  · exact make_triangle_inRange
  · have h : (to_openmesh short_normals_mesh).isNone = true := by decide
    exact Option.isNone_iff_eq_none.mp h

/-- C15. Attribute storage in `to_openmesh` follows the presence rule: a
returned store has per-vertex normal, texcoord and colour storage exactly when
`has_normals`, `has_texcoords` and `has_colors` hold; the storage is requested
on the store that has no vertex and no face yet, on which the vertex loop then
runs; and an attribute tensor without elements requests nothing. -/
theorem to_openmesh_attribute_storage (m : MeshData) (t : TriMesh)
    (h : to_openmesh m = some t) :
    (t.has_vertex_normals = m.has_normals ∧ t.has_vertex_texcoords2D = m.has_texcoords ∧
      t.has_vertex_colors = m.has_colors) ∧
    ((to_openmesh_request m).n_vertices = 0 ∧ (to_openmesh_request m).n_faces = 0 ∧
      (to_openmesh_request m).has_vertex_normals = m.has_normals ∧
      (to_openmesh_request m).has_vertex_texcoords2D = m.has_texcoords ∧
      (to_openmesh_request m).has_vertex_colors = m.has_colors ∧
      ∃ s, to_openmesh_add_vertices ((m.vertices.to_device Device.CPU).contiguous)
        m.vertex_count (to_openmesh_request m) = some s) ∧
    (m.normals.numel = 0 → t.has_vertex_normals = false) ∧
    (m.texcoords.numel = 0 → t.has_vertex_texcoords2D = false) ∧
    (m.colors.numel = 0 → t.has_vertex_colors = false) := by
  have hs := to_openmesh_some_spec m t h
  obtain ⟨h3n, h3f, _, h3vn, h3vt, h3vc⟩ := requested_store m
  obtain ⟨gv, gi, gmax⟩ := to_openmesh_some_guards m t h
  have hn : t.has_vertex_normals = m.has_normals := by
    have := hs.normals
    cases hp : m.has_normals with
    | false => rw [hp] at this; simp at this; simp [TriMesh.has_vertex_normals, this]
    | true =>
      rw [hp] at this; simp only [if_true] at this
      obtain ⟨f, hf, _⟩ := this
      simp [TriMesh.has_vertex_normals, hf]
  have htc : t.has_vertex_texcoords2D = m.has_texcoords := by
    have := hs.texcoords
    cases hp : m.has_texcoords with
    | false => rw [hp] at this; simp at this; simp [TriMesh.has_vertex_texcoords2D, this]
    | true =>
      rw [hp] at this; simp only [if_true] at this
      obtain ⟨f, hf, _⟩ := this
      simp [TriMesh.has_vertex_texcoords2D, hf]
  have hc : t.has_vertex_colors = m.has_colors := by
    have := hs.colors
    cases hp : m.has_colors with
    | false => rw [hp] at this; simp at this; simp [TriMesh.has_vertex_colors, this]
    | true =>
      rw [hp] at this; simp only [if_true] at this
      obtain ⟨f, hf, _⟩ := this
      simp [TriMesh.has_vertex_colors, hf]
  refine ⟨⟨hn, htc, hc⟩, ⟨h3n, by simp [TriMesh.n_faces, h3f], h3vn, h3vt, h3vc, ?_⟩, ?_, ?_, ?_⟩
  · rw [to_openmesh_eq m gv gi gmax] at h
    cases hv : to_openmesh_add_vertices ((m.vertices.to_device Device.CPU).contiguous)
        m.vertex_count (to_openmesh_request m) with
    | none => rw [hv] at h; cases h
    | some s => exact ⟨s, rfl⟩
  · intro h0
    rw [hn]
    simp [MeshData.has_normals, h0]
  · intro h0
    rw [htc]
    simp [MeshData.has_texcoords, h0]
  · intro h0
    rw [hc]
    simp [MeshData.has_colors, h0]

/-- Witness for C15: the saturating test triangle, whose only optional
attribute is its colour buffer, gives a store with colour storage only; the
triangle with an empty normals buffer gives a store without normal storage. -/
theorem to_openmesh_attribute_storage_witness :
    (∃ t, to_openmesh saturating_triangle = some t ∧ t.has_vertex_colors = true ∧
      t.has_vertex_normals = false ∧ t.has_vertex_texcoords2D = false) ∧
    (empty_normals_triangle.normals.is_valid = true ∧
      ∃ t, to_openmesh empty_normals_triangle = some t ∧ t.has_vertex_normals = false) := by
  constructor
  · obtain ⟨t, _, ht, _⟩ := saturating_triangle_roundtrip
    obtain ⟨⟨h1, h2, h3⟩, _⟩ := to_openmesh_attribute_storage saturating_triangle t ht
    exact ⟨t, ht, by rw [h3]; exact saturating_triangle_has_colors, by rw [h1]; rfl,
      by rw [h2]; rfl⟩
  · have hw : empty_normals_triangle.WellShaped := by
      simp [MeshData.WellShaped, empty_normals_triangle, make_triangle, triangle_vertices,
        triangle_indices, MeshData.vertex_count, MeshData.face_count, Tensor.is_valid,
        Tensor.dim, Tensor.shape, Tensor.dtype, Storage.dtype, MeshData.has_normals,
        MeshData.has_texcoords, MeshData.has_colors, Tensor.empty, Tensor.numel]
    obtain ⟨t, ht, _⟩ := to_openmesh_spec empty_normals_triangle hw
      (by show make_triangle.vertex_count ≤ INT_MAX; rw [make_triangle_counts.1]; decide)
      make_triangle_inRange
    obtain ⟨_, _, h3, _⟩ := to_openmesh_attribute_storage empty_normals_triangle t ht
    exact ⟨rfl, t, ht, h3 rfl⟩
/-- A mesh meeting `FromSpec` has conforming shapes. -/
theorem FromSpec.wellShaped {t : TriMesh} {m : MeshData} (hs : FromSpec t m) :
    m.WellShaped := by
  obtain ⟨c1, c2⟩ := hs.counts
  obtain ⟨a, ha, _⟩ := hs.vertices
  obtain ⟨b, hb, _⟩ := hs.indices
  refine ⟨⟨by rw [c1, ha]; rfl, by rw [ha]; rfl⟩, ⟨by rw [c2, hb]; rfl, by rw [hb]; rfl⟩,
    ?_, ?_, ?_⟩
  · intro hp
    have hn := hs.normals
    cases hvn : t.vertex_normals with
    | none =>
      rw [hvn] at hn
      simp [MeshData.has_normals, hn, Tensor.is_valid] at hp
    | some f =>
      rw [hvn] at hn
      obtain ⟨x, hx, _⟩ := hn
      exact ⟨by rw [c1, hx]; rfl, by rw [hx]; rfl⟩
  · intro hp
    have hn := hs.texcoords
    cases hvn : t.vertex_texcoords2D with
    | none =>
      rw [hvn] at hn
      simp [MeshData.has_texcoords, hn, Tensor.is_valid] at hp
    | some f =>
      rw [hvn] at hn
      obtain ⟨x, hx, _⟩ := hn
      exact ⟨by rw [c1, hx]; rfl, by rw [hx]; rfl⟩
  · intro hp
    have hn := hs.colors
    cases hvn : t.vertex_colors with
    | none =>
      rw [hvn] at hn
      simp [MeshData.has_colors, hn, Tensor.is_valid] at hp
    | some f =>
      rw [hvn] at hn
      obtain ⟨x, hx, _⟩ := hn
      exact ⟨by rw [c1, hx]; rfl, by rw [hx]; rfl⟩

/-- A mesh meeting `FromSpec` for a triangulated store whose faces refer to
its vertices has every index in range. -/
theorem FromSpec.inRange {t : TriMesh} {m : MeshData} (hs : FromSpec t m)
    (htri : ∀ f, f ∈ t.faces → f.length = 3) (hval : t.Valid) : m.IndicesInRange := by
  obtain ⟨c1, c2⟩ := hs.counts
  obtain ⟨a, ha, harow⟩ := hs.indices
  intro k j hk hj
  rw [c2] at hk
  rw [c1]
  have hmem : t.faces.getD k [] ∈ t.faces := by
    rw [List.getD_eq_getElem _ _ hk]
    exact List.getElem_mem hk
  have hlen := htri _ hmem
  have hb := hval _ hmem
  have hjl : j < (t.faces.getD k []).length := by omega
  have hin : (t.faces.getD k []).getD j 0 ∈ t.faces.getD k [] := by
    rw [List.getD_eq_getElem _ _ hjl]
    exact List.getElem_mem hjl
  refine ⟨_, by rw [ha, Tensor.getI_alloc _ _ _ _ _ _ hk hj, harow k j hk hj], ?_, ?_⟩
  · exact Int.natCast_nonneg _
  · exact_mod_cast hb _ hin

/-- Two three-vectors with the same components are equal. -/
theorem Vec3f.ext_get (a b : Vec3f) (h : ∀ j, j < 3 → a.get j = b.get j) : a = b := by
  have h0 := h 0 (by omega)
  have h1 := h 1 (by omega)
  have h2 := h 2 (by omega)
  simp [Vec3f.get] at h0 h1 h2
  cases a; cases b
  simp_all

/-- A store returned by `to_openmesh` has faces that refer to its vertices. -/
theorem ToSpec.valid {m : MeshData} {t : TriMesh} (hs : ToSpec m t) (hr : m.IndicesInRange) :
    t.Valid := by
  intro f hf v hv
  obtain ⟨k, hk, hfk⟩ := List.getElem_of_mem hf
  have hk2 : k < m.face_count := by rw [← hs.nfaces]; exact hk
  obtain ⟨i0, i1, i2, e0, e1, e2, hrow⟩ := hs.faces k hk2
  rw [List.getD_eq_getElem _ _ hk, hfk] at hrow
  obtain ⟨x0, y0, _, z0⟩ := hr k 0 hk2 (by omega)
  obtain ⟨x1, y1, _, z1⟩ := hr k 1 hk2 (by omega)
  obtain ⟨x2, y2, _, z2⟩ := hr k 2 hk2 (by omega)
  rw [e0] at y0; rw [e1] at y1; rw [e2] at y2
  cases y0; cases y1; cases y2
  rw [hs.nverts]
  rw [hrow] at hv
  simp at hv
  rcases hv with rfl | rfl | rfl <;> omega
theorem normals_triangle_wellShaped : normals_triangle.WellShaped := by
  simp [MeshData.WellShaped, normals_triangle, make_triangle, triangle_vertices,
    triangle_indices, MeshData.vertex_count, MeshData.face_count, Tensor.is_valid, Tensor.dim,
    Tensor.shape, Tensor.dtype, Storage.dtype, MeshData.has_normals, MeshData.has_texcoords,
    MeshData.has_colors]

theorem normals_triangle_has_normals : normals_triangle.has_normals = true := by
  simp [normals_triangle, MeshData.has_normals, Tensor.is_valid, Tensor.numel]

/-- C16 (as amended). Normals and texcoords cross the bridge exactly: for
every mesh with conforming shapes, `1 ≤ V ≤ INT_MAX`, `F ≥ 1` and indices in
range, both conversions succeed, `to_openmesh` stores row `i` of a present
normals or texcoords buffer at vertex handle `i`, and the buffers returned by
`from_openmesh` have `V` rows equal to the original rows, value for value.
Dually, for every store with vertex normals that `from_openmesh` accepts,
every store `to_openmesh` returns for the result has vertex normals and the
same normal at every handle, and `to_openmesh` does return one when the faces
of the store refer to its vertices. -/
theorem normals_texcoords_cross_bridge :
    (∀ m : MeshData, m.WellShaped → 1 ≤ m.vertex_count → m.vertex_count ≤ INT_MAX →
      1 ≤ m.face_count → m.IndicesInRange →
      ∃ t m1, to_openmesh m = some t ∧ from_openmesh t = some m1 ∧
        (m.has_normals = true →
          (∀ i, i < m.vertex_count → ∃ n, t.normal i = some n ∧
            ∀ j, j < 3 → m.normals.getF i j = some (n.get j)) ∧
          m1.has_normals = true ∧ m1.normals.shape = [m.vertex_count, 3] ∧
          ∀ i j, i < m.vertex_count → j < 3 → m1.normals.getF i j = m.normals.getF i j) ∧
        (m.has_texcoords = true →
          (∀ i, i < m.vertex_count → ∃ tc, t.texcoord2D i = some tc ∧
            ∀ j, j < 2 → m.texcoords.getF i j = some (tc.get j)) ∧
          m1.has_texcoords = true ∧ m1.texcoords.shape = [m.vertex_count, 2] ∧
          ∀ i j, i < m.vertex_count → j < 2 →
            m1.texcoords.getF i j = m.texcoords.getF i j)) ∧
    (∀ (t : TriMesh) (m : MeshData), from_openmesh t = some m → t.has_vertex_normals = true →
      (t.Valid → ∃ t1, to_openmesh m = some t1) ∧
      ∀ t1, to_openmesh m = some t1 → t1.n_vertices = t.n_vertices ∧
        t1.has_vertex_normals = true ∧ ∀ i, i < t.n_vertices → t1.normal i = t.normal i) := by
  constructor
  · intro m hw hV hmax hF hr
    obtain ⟨t, ht, hts⟩ := to_openmesh_spec m hw hmax hr
    have hnv : 0 < t.nverts := by rw [hts.nverts]; omega
    obtain ⟨m1, hm1, hfs⟩ := from_openmesh_spec t hnv
      (by rw [hts.nverts]; exact hmax) (by rw [hts.nfaces]; omega) hts.triangles
    refine ⟨t, m1, ht, hm1, ?_, ?_⟩
    · intro hp
      have h1 := hts.normals
      rw [if_pos hp] at h1
      obtain ⟨f, hf, hrow⟩ := h1
      have h2 := hfs.normals
      rw [hf] at h2
      obtain ⟨a, ha, harow⟩ := h2
      refine ⟨fun i hi => ⟨f i, ?_, fun j hj => hrow i j hi hj⟩, ?_, ?_, ?_⟩
      · have hi2 : i < t.nverts := by rw [hts.nverts]; exact hi
        simp [TriMesh.normal, hf, hi2]
      · rw [(hfs.presence hnv).1]
        simp [TriMesh.has_vertex_normals, hf]
      · rw [ha, hts.nverts]; rfl
      · intro i j hi hj
        have hi2 : i < t.nverts := by rw [hts.nverts]; exact hi
        rw [ha, Tensor.getF_alloc _ _ _ _ _ _ hi2 hj, harow i j hi2 hj, hrow i j hi hj]
    · intro hp
      have h1 := hts.texcoords
      rw [if_pos hp] at h1
      obtain ⟨f, hf, hrow⟩ := h1
      have h2 := hfs.texcoords
      rw [hf] at h2
      obtain ⟨a, ha, harow⟩ := h2
      refine ⟨fun i hi => ⟨f i, ?_, fun j hj => hrow i j hi hj⟩, ?_, ?_, ?_⟩
      · have hi2 : i < t.nverts := by rw [hts.nverts]; exact hi
        simp [TriMesh.texcoord2D, hf, hi2]
      · rw [(hfs.presence hnv).2.1]
        simp [TriMesh.has_vertex_texcoords2D, hf]
      · rw [ha, hts.nverts]; rfl
      · intro i j hi hj
        have hi2 : i < t.nverts := by rw [hts.nverts]; exact hi
        rw [ha, Tensor.getF_alloc _ _ _ _ _ _ hi2 hj, harow i j hi2 hj, hrow i j hi hj]
  · intro t m h hp
    obtain ⟨hfs, hnv, hmax, hnf, htri⟩ := from_openmesh_some_spec t m h
    obtain ⟨c1, c2⟩ := hfs.counts
    refine ⟨fun hval => ?_, ?_⟩
    · obtain ⟨t1, ht1, _⟩ := to_openmesh_spec m hfs.wellShaped (by rw [c1]; exact hmax)
        (hfs.inRange htri hval)
      exact ⟨t1, ht1⟩
    · intro t1 ht1
      have hts := to_openmesh_some_spec m t1 ht1
      have hn := hfs.normals
      cases hvn : t.vertex_normals with
      | none => simp [TriMesh.has_vertex_normals, hvn] at hp
      | some f =>
        rw [hvn] at hn
        obtain ⟨a, ha, harow⟩ := hn
        have hmn : m.has_normals = true := by
          rw [(hfs.presence hnv).1]; exact hp
        have h1 := hts.normals
        rw [if_pos hmn] at h1
        obtain ⟨g, hg, hrow⟩ := h1
        have hn1 : t1.nverts = t.nverts := by rw [hts.nverts, c1]
        refine ⟨hn1, by simp [TriMesh.has_vertex_normals, hg], ?_⟩
        intro i hi
        have hi1 : i < t.nverts := hi
        have hfg : g i = f i := by
          apply Vec3f.ext_get
          intro j hj
          have e := hrow i j (by rw [c1]; exact hi1) hj
          rw [ha, Tensor.getF_alloc _ _ _ _ _ _ hi1 hj, harow i j hi1 hj] at e
          exact (Option.some.inj e).symm
        simp [TriMesh.normal, hg, hvn, hn1, hi1, hfg]

/-- Witness for C16: the triangle with normals `(0, 0, 1)` keeps its normals
across the bridge, and the store of the test triangle keeps its vertex normals
across the two conversions. -/
theorem normals_texcoords_cross_bridge_witness :
    (∃ t m1, to_openmesh normals_triangle = some t ∧ from_openmesh t = some m1 ∧
      m1.has_normals = true ∧ m1.normals.shape = [3, 3] ∧
      m1.normals.getF 0 2 = some 1) ∧
    (∃ m t1, from_openmesh triangle_store = some m ∧ to_openmesh m = some t1 ∧
      t1.has_vertex_normals = true ∧ t1.normal 0 = triangle_store.normal 0) := by
  have hc : normals_triangle.vertex_count = 3 := make_triangle_counts.1
  constructor
  · obtain ⟨t, m1, ht, hm1, hn, _⟩ := normals_texcoords_cross_bridge.1 normals_triangle
      normals_triangle_wellShaped (by rw [hc]; decide) (by rw [hc]; decide)
      (by show 1 ≤ make_triangle.face_count; rw [make_triangle_counts.2]) make_triangle_inRange
    obtain ⟨_, h2, h3, h4⟩ := hn normals_triangle_has_normals
    refine ⟨t, m1, ht, hm1, h2, by rw [h3, hc], ?_⟩
    rw [h4 0 2 (by rw [hc]; decide) (by decide)]
    simp [normals_triangle, Tensor.getF]
  · obtain ⟨m, hm⟩ := triangle_store_from
    obtain ⟨hex, hall⟩ := normals_texcoords_cross_bridge.2 triangle_store m hm rfl
    obtain ⟨t1, ht1⟩ := hex triangle_store_valid
    obtain ⟨_, h2, h3⟩ := hall t1 ht1
    exact ⟨m, t1, hm, ht1, h2, h3 0 (by decide)⟩

/-- Counterexample to C16 as stated: two meshes with `V ≥ 1`, `F ≥ 1`, indices
in range and a present `[V, 3]` normals buffer on which `to_openmesh` fails:
one has `INT_MAX + 1` vertices, the other a colour buffer with fewer rows than
vertices. -/
theorem normals_do_not_cross_beyond_bounds :
    (1 ≤ huge_normals_mesh.vertex_count ∧ 1 ≤ huge_normals_mesh.face_count ∧
      huge_normals_mesh.IndicesInRange ∧ huge_normals_mesh.has_normals = true ∧
      huge_normals_mesh.normals.shape = [huge_normals_mesh.vertex_count, 3] ∧
      to_openmesh huge_normals_mesh = none) ∧
    (1 ≤ short_colors_mesh.vertex_count ∧ 1 ≤ short_colors_mesh.face_count ∧
      short_colors_mesh.IndicesInRange ∧ short_colors_mesh.has_normals = true ∧
      short_colors_mesh.normals.shape = [short_colors_mesh.vertex_count, 3] ∧
      to_openmesh short_colors_mesh = none) := by
  have hc : huge_normals_mesh.vertex_count = 2147483648 := huge_mesh_counts.1
  have hc2 : short_colors_mesh.vertex_count = 3 := make_triangle_counts.1
  refine ⟨⟨?_, ?_, huge_mesh_inRange, ?_, ?_, ?_⟩, ?_, ?_, make_triangle_inRange, ?_, ?_, ?_⟩
  · rw [hc]; decide
  · show 1 ≤ huge_mesh.face_count
    rw [huge_mesh_counts.2]
  · simp [huge_normals_mesh, MeshData.has_normals, Tensor.is_valid, Tensor.numel]
  · rw [hc]; rfl
  · simp [to_openmesh, huge_normals_mesh, huge_mesh, huge_vertices, triangle_indices,
      Tensor.is_valid, MeshData.vertex_count, Tensor.dim, Tensor.shape, INT_MAX]
  · rw [hc2]; decide
  · show 1 ≤ make_triangle.face_count
    rw [make_triangle_counts.2]
  · exact normals_triangle_has_normals
  · rw [hc2]; rfl
  · have h : (to_openmesh short_colors_mesh).isNone = true := by decide
    exact Option.isNone_iff_eq_none.mp h
/-- Row `k` of the index buffer of a mesh meeting `FromSpec`, for a
triangulated store, holds the three handles of face `k` in order. -/
theorem FromSpec.rows {t : TriMesh} {m : MeshData} (hs : FromSpec t m)
    (htri : ∀ f, f ∈ t.faces → f.length = 3) (k : Nat) (hk : k < t.faces.length) :
    ∃ v0 v1 v2 : Nat, t.faces.getD k [] = [v0, v1, v2] ∧
      m.indices.getI k 0 = some (v0 : Int) ∧ m.indices.getI k 1 = some (v1 : Int) ∧
      m.indices.getI k 2 = some (v2 : Int) := by
  obtain ⟨a, ha, harow⟩ := hs.indices
  have hmem : t.faces.getD k [] ∈ t.faces := by
    rw [List.getD_eq_getElem _ _ hk]
    exact List.getElem_mem hk
  have hlen := htri _ hmem
  obtain ⟨v0, v1, v2, hface⟩ : ∃ v0 v1 v2, t.faces.getD k [] = [v0, v1, v2] := by
    match hf : t.faces.getD k [], hlen with
    | [v0, v1, v2], _ => exact ⟨v0, v1, v2, rfl⟩
  refine ⟨v0, v1, v2, hface, ?_, ?_, ?_⟩
  · rw [ha, Tensor.getI_alloc _ _ _ _ _ _ hk (by omega), harow k 0 hk (by omega), hface]; rfl
  · rw [ha, Tensor.getI_alloc _ _ _ _ _ _ hk (by omega), harow k 1 hk (by omega), hface]; rfl
  · rw [ha, Tensor.getI_alloc _ _ _ _ _ _ hk (by omega), harow k 2 hk (by omega), hface]; rfl

/-- The one face of `huge_store` is a triangle on vertices of the store. -/
theorem huge_store_valid :
    huge_store.Valid ∧ ∀ f, f ∈ huge_store.faces → f.length = 3 := by
  constructor
  · intro f hf v hv
    simp [huge_store] at hf
    subst hf
    simp at hv
    show v < 2147483648
    omega
  · intro f hf
    simp [huge_store] at hf
    subst hf
    rfl

/-- C17 (as amended). Topology, mesh, topology round trip: for every
triangulated store whose faces refer to its vertices, with between 1 and
`INT_MAX` vertices and at least one face, `from_openmesh` and then
`to_openmesh` both succeed, and the result has the same number of vertices and
of faces, the same position at every vertex handle, and the same three handles
in every face. -/
theorem roundtrip_topology_mesh_topology (t : TriMesh) (hval : t.Valid)
    (hV : 1 ≤ t.n_vertices) (hmax : t.n_vertices ≤ INT_MAX) (hF : 1 ≤ t.n_faces)
    (htri : ∀ f, f ∈ t.faces → f.length = 3) :
    ∃ m t1, from_openmesh t = some m ∧ to_openmesh m = some t1 ∧
      t1.n_vertices = t.n_vertices ∧ t1.n_faces = t.n_faces ∧
      (∀ i, i < t.n_vertices → t1.point i = t.point i) ∧
      ∀ k, k < t.n_faces → t1.faces.getD k [] = t.faces.getD k [] := by
  simp only [TriMesh.n_vertices, TriMesh.n_faces] at hV hmax hF ⊢
  obtain ⟨m, hm, hfs⟩ := from_openmesh_spec t (by omega) hmax (by omega) htri
  obtain ⟨c1, c2⟩ := hfs.counts
  obtain ⟨t1, ht1, hts⟩ := to_openmesh_spec m hfs.wellShaped (by rw [c1]; exact hmax)
    (hfs.inRange htri hval)
  refine ⟨m, t1, hm, ht1, by rw [hts.nverts, c1], by rw [hts.nfaces, c2], ?_, ?_⟩
  · intro i hi
    obtain ⟨a, ha, harow⟩ := hfs.vertices
    apply Vec3f.ext_get
    intro j hj
    have e := hts.points i j (by rw [c1]; exact hi) hj
    rw [ha, Tensor.getF_alloc _ _ _ _ _ _ hi hj, harow i j hi hj] at e
    exact (Option.some.inj e).symm
  · intro k hk
    obtain ⟨v0, v1, v2, hface, e0, e1, e2⟩ := hfs.rows htri k hk
    obtain ⟨i0, i1, i2, d0, d1, d2, hrow⟩ := hts.faces k (by rw [c2]; exact hk)
    rw [e0] at d0; rw [e1] at d1; rw [e2] at d2
    have q0 : v0 = i0 := by exact_mod_cast Option.some.inj d0
    have q1 : v1 = i1 := by exact_mod_cast Option.some.inj d1
    have q2 : v2 = i2 := by exact_mod_cast Option.some.inj d2
    rw [hrow, hface, q0, q1, q2]

/-- Witness for C17: the store of the test triangle. -/
theorem roundtrip_topology_mesh_topology_witness :
    triangle_store.Valid ∧
    ∃ m t1, from_openmesh triangle_store = some m ∧ to_openmesh m = some t1 ∧
      t1.n_vertices = 3 ∧ t1.n_faces = 1 ∧
      (∀ i, i < 3 → t1.point i = triangle_store.point i) ∧
      ∀ k, k < 1 → t1.faces.getD k [] = triangle_store.faces.getD k [] :=
  ⟨triangle_store_valid,
    roundtrip_topology_mesh_topology triangle_store triangle_store_valid (by decide)
      (by decide) (by decide) (by decide)⟩

/-- Counterexample to C17 as stated: a triangulated store with one face and
`INT_MAX + 1` vertices, on which `from_openmesh` fails, so that the round trip
gives no store. -/
theorem topology_roundtrip_fails_on_huge_store :
    huge_store.Valid ∧ (∀ f, f ∈ huge_store.faces → f.length = 3) ∧
    1 ≤ huge_store.n_vertices ∧ 1 ≤ huge_store.n_faces ∧
    (from_openmesh huge_store).bind to_openmesh = none := by
  refine ⟨huge_store_valid.1, huge_store_valid.2, by decide, by decide, ?_⟩
  rw [from_openmesh_none_of huge_store (Or.inr (Or.inr (Or.inl (by decide))))]
  rfl
/-- Moving a tensor to where it resides changes nothing. -/
theorem Tensor.to_device_self (t : Tensor) (d : Device)
    (h : t.is_valid = true → t.device = some d) :
    (if t.is_valid = true then t.to_device d else t) = t := by
  cases t with
  | invalid => rfl
  | alloc s d1 st =>
    have := h rfl
    simp only [Tensor.device, Option.some.injEq] at this
    subst this
    simp [Tensor.to_device, Tensor.is_valid]

/-- Moving a tensor away and back to where it resides changes nothing. -/
theorem Tensor.to_device_back (t : Tensor) (d other : Device)
    (h : t.is_valid = true → t.device = some d) :
    (if (if t.is_valid = true then t.to_device other else t).is_valid = true
      then (if t.is_valid = true then t.to_device other else t).to_device d
      else (if t.is_valid = true then t.to_device other else t)) = t := by
  cases t with
  | invalid => rfl
  | alloc s d1 st =>
    have := h rfl
    simp only [Tensor.device, Option.some.injEq] at this
    subst this
    simp [Tensor.to_device, Tensor.is_valid]

/-- C18. The copy `to(device)` is a full value copy: the result has the same
`vertex_count`, `face_count`, presence results, materials, submeshes, texture
images and generation; tensor by tensor, a tensor that is valid in `m` is valid
in the result, resides on `d` and has the same shape, element type and
elements, and a tensor that is not valid in `m` is not valid in the result. -/
theorem to_device_full_copy (m : MeshData) (d : Device) :
    (m.to_device d).vertex_count = m.vertex_count ∧
    (m.to_device d).face_count = m.face_count ∧
    (m.to_device d).has_normals = m.has_normals ∧
    (m.to_device d).has_tangents = m.has_tangents ∧
    (m.to_device d).has_texcoords = m.has_texcoords ∧
    (m.to_device d).has_colors = m.has_colors ∧
    (m.to_device d).materials = m.materials ∧
    (m.to_device d).submeshes = m.submeshes ∧
    (m.to_device d).texture_images = m.texture_images ∧
    (m.to_device d).generation = m.generation ∧
    ∀ k, k < 6 →
      ((m.to_device d).tensors.getD k Tensor.invalid).is_valid =
        (m.tensors.getD k Tensor.invalid).is_valid ∧
      ((m.tensors.getD k Tensor.invalid).is_valid = true →
        ((m.to_device d).tensors.getD k Tensor.invalid).device = some d ∧
        ((m.to_device d).tensors.getD k Tensor.invalid).shape =
          (m.tensors.getD k Tensor.invalid).shape ∧
        ((m.to_device d).tensors.getD k Tensor.invalid).dtype =
          (m.tensors.getD k Tensor.invalid).dtype ∧
        ((m.to_device d).tensors.getD k Tensor.invalid).elements =
          (m.tensors.getD k Tensor.invalid).elements) := by
  have key : ∀ t : Tensor,
      (if t.is_valid = true then t.to_device d else t).is_valid = t.is_valid ∧
      (if t.is_valid = true then t.to_device d else t).shape = t.shape ∧
      (if t.is_valid = true then t.to_device d else t).numel = t.numel ∧
      (t.is_valid = true →
        (if t.is_valid = true then t.to_device d else t).device = some d ∧
        (if t.is_valid = true then t.to_device d else t).dtype = t.dtype ∧
        (if t.is_valid = true then t.to_device d else t).elements = t.elements) := by
    intro t
    cases t <;> simp [Tensor.to_device, Tensor.is_valid, Tensor.shape, Tensor.dtype,
      Tensor.elements, Tensor.numel, Tensor.device]
  refine ⟨?_, ?_, ?_, ?_, ?_, ?_, rfl, rfl, rfl, rfl, ?_⟩
  · simp only [MeshData.vertex_count, MeshData.to_device, Tensor.dim, (key m.vertices).1,
      (key m.vertices).2.1]
  · simp only [MeshData.face_count, MeshData.to_device, Tensor.dim, (key m.indices).1,
      (key m.indices).2.1]
  · simp only [MeshData.has_normals, MeshData.to_device, (key m.normals).1,
      (key m.normals).2.2.1]
  · simp only [MeshData.has_tangents, MeshData.to_device, (key m.tangents).1,
      (key m.tangents).2.2.1]
  · simp only [MeshData.has_texcoords, MeshData.to_device, (key m.texcoords).1,
      (key m.texcoords).2.2.1]
  · simp only [MeshData.has_colors, MeshData.to_device, (key m.colors).1,
      (key m.colors).2.2.1]
  · intro k hk
    have hall : ∀ t : Tensor,
        (if t.is_valid = true then t.to_device d else t).is_valid = t.is_valid ∧
        (t.is_valid = true →
          (if t.is_valid = true then t.to_device d else t).device = some d ∧
          (if t.is_valid = true then t.to_device d else t).shape = t.shape ∧
          (if t.is_valid = true then t.to_device d else t).dtype = t.dtype ∧
          (if t.is_valid = true then t.to_device d else t).elements = t.elements) :=
      fun t => ⟨(key t).1, fun hv => ⟨((key t).2.2.2 hv).1, (key t).2.1,
        ((key t).2.2.2 hv).2.1, ((key t).2.2.2 hv).2.2⟩⟩
    interval_cases k
    · exact hall m.vertices
    · exact hall m.normals
    · exact hall m.tangents
    · exact hall m.texcoords
    · exact hall m.colors
    · exact hall m.indices

/-- Witness for C18: the test triangle moved to the accelerator keeps its
counts and its vertex values, and its vertices and indices reside there. -/
theorem to_device_full_copy_witness :
    (make_triangle.to_device Device.CUDA).vertex_count = 3 ∧
    (make_triangle.to_device Device.CUDA).face_count = 1 ∧
    (make_triangle.to_device Device.CUDA).vertices.device = some Device.CUDA ∧
    (make_triangle.to_device Device.CUDA).indices.device = some Device.CUDA ∧
    (make_triangle.to_device Device.CUDA).vertices.elements = make_triangle.vertices.elements ∧
    (make_triangle.to_device Device.CUDA).normals.is_valid = false := by
  obtain ⟨h1, h2, _, _, _, _, _, _, _, _, h⟩ := to_device_full_copy make_triangle Device.CUDA
  exact ⟨by rw [h1, make_triangle_counts.1], by rw [h2, make_triangle_counts.2],
    ((h 0 (by decide)).2 rfl).1, ((h 5 (by decide)).2 rfl).1, ((h 0 (by decide)).2 rfl).2.2.2,
    (h 1 (by decide)).1⟩

/-- C19. Device idempotence and device round trip: for a mesh whose valid
tensors all reside on `d`, `to(d)` returns the mesh itself; and moving it to
another device and back to `d` returns vertices and indices equal to the
original ones (indeed the whole mesh), residing on `d`. -/
theorem device_idempotence_and_roundtrip (m : MeshData) (d other : Device)
    (h : m.resides_on d) :
    m.to_device d = m ∧
    ((m.to_device other).to_device d).vertices = m.vertices ∧
    ((m.to_device other).to_device d).indices = m.indices ∧
    (m.to_device other).to_device d = m ∧
    ((m.to_device other).to_device d).resides_on d := by
  have hv := h m.vertices (by simp [MeshData.tensors])
  have hn := h m.normals (by simp [MeshData.tensors])
  have hta := h m.tangents (by simp [MeshData.tensors])
  have htc := h m.texcoords (by simp [MeshData.tensors])
  have hc := h m.colors (by simp [MeshData.tensors])
  have hi := h m.indices (by simp [MeshData.tensors])
  have hback : (m.to_device other).to_device d = m := by
    simp only [MeshData.to_device, Tensor.to_device_back _ d other hv,
      Tensor.to_device_back _ d other hn, Tensor.to_device_back _ d other hta,
      Tensor.to_device_back _ d other htc, Tensor.to_device_back _ d other hc,
      Tensor.to_device_back _ d other hi]
  refine ⟨?_, by rw [hback], by rw [hback], hback, by rw [hback]; exact h⟩
  simp only [MeshData.to_device, Tensor.to_device_self _ d hv, Tensor.to_device_self _ d hn,
    Tensor.to_device_self _ d hta, Tensor.to_device_self _ d htc, Tensor.to_device_self _ d hc,
    Tensor.to_device_self _ d hi]

/-- Witness for C19: the test triangle resides on the host; moving it to the
host returns it, and so does moving it to the accelerator and back. -/
theorem device_idempotence_and_roundtrip_witness :
    make_triangle.resides_on Device.CPU ∧
    make_triangle.to_device Device.CPU = make_triangle ∧
    ((make_triangle.to_device Device.CUDA).to_device Device.CPU).vertices =
      make_triangle.vertices ∧
    ((make_triangle.to_device Device.CUDA).to_device Device.CPU).indices =
      make_triangle.indices := by
  have hres : make_triangle.resides_on Device.CPU := by
    intro x hx hvalid
    simp [MeshData.tensors, make_triangle] at hx
    rcases hx with rfl | rfl | rfl
    · rfl
    · cases hvalid
    · rfl
  obtain ⟨h1, h2, h3, _⟩ :=
    device_idempotence_and_roundtrip make_triangle Device.CPU Device.CUDA hres
  exact ⟨hres, h1, h2, h3⟩
/-- The blocks of `compute_normals` on the test quad: the updated store and
the buffer read from it, whose every row is `(0, 0, 1)`. -/
theorem quad_blocks (pol : NormalPolicy)
    (hs : ∀ x : ℚ, 0 < x → pol.sqrt (x * x) = x) (hw : ∀ f v, 0 < pol.weight f v) :
    ∃ t1 a, quad_store.update_normals pol = some t1 ∧
      compute_normals_read t1 (List.range 4) 4 =
        some (Tensor.alloc [4, 3] Device.CPU (Storage.f32 a)) ∧
      ∀ i, i < 4 → a [i, 0] = 0 ∧ a [i, 1] = 0 ∧ a [i, 2] = 1 := by
  obtain ⟨t1, hu, hn⟩ := quad_store_update pol hs hw
  obtain ⟨a, hr, ha⟩ := compute_normals_read_spec t1 4 (fun _ => ⟨0, 0, 1⟩) hn
  refine ⟨t1, a, hu, hr, fun i hi => ?_⟩
  exact ⟨by simpa [Vec3f.get] using ha i 0 hi (by omega),
    by simpa [Vec3f.get] using ha i 1 hi (by omega),
    by simpa [Vec3f.get] using ha i 2 hi (by omega)⟩

/-- The first half of `compute_normals` builds the same store for the test
quad wherever the quad resides. -/
theorem make_quad_build_on (d : Device) :
    compute_normals_build (make_quad.to_device d) = some (quad_store, List.range 4) := by
  rw [← make_quad_build]
  rfl

/-- C20. Planar-quad scenario: on the mesh with vertices `(0,0,0)`,
`(1,0,0)`, `(1,1,0)`, `(0,1,0)` and faces `(0,1,2)`, `(0,2,3)`,
`compute_normals()` yields the normal `(0,0,1)` at all four vertices; when the
mesh was first moved to the accelerator, the normals reside on the accelerator
and, moved to the host, are the same tensor. The store's square root is
assumed exact on squares and its weights positive. -/
theorem planar_quad_normals (pol : NormalPolicy)
    (hs : ∀ x : ℚ, 0 < x → pol.sqrt (x * x) = x) (hw : ∀ f v, 0 < pol.weight f v) :
    ∃ m1 m2, make_quad.compute_normals pol = some m1 ∧
      (make_quad.to_device Device.CUDA).compute_normals pol = some m2 ∧
      m1.normals.shape = [4, 3] ∧
      (∀ i, i < 4 → m1.normals.getF i 0 = some 0 ∧ m1.normals.getF i 1 = some 0 ∧
        m1.normals.getF i 2 = some 1) ∧
      m2.vertices.device = some Device.CUDA ∧ m2.has_normals = true ∧
      m2.normals.device = some Device.CUDA ∧
      m2.normals.to_device Device.CPU = m1.normals ∧
      ∀ i, i < 4 → (m2.normals.to_device Device.CPU).getF i 0 = some 0 ∧
        (m2.normals.to_device Device.CPU).getF i 1 = some 0 ∧
        (m2.normals.to_device Device.CPU).getF i 2 = some 1 := by
  obtain ⟨t1, a, hu, hr, ha⟩ := quad_blocks pol hs hw
  have e1 := compute_normals_of_blocks pol make_quad quad_store t1 (List.range 4) _
    (by decide) (by decide) make_quad_build hu hr
  have e2 := compute_normals_of_blocks pol (make_quad.to_device Device.CUDA) quad_store t1
    (List.range 4) _ (by decide) (by decide) (make_quad_build_on Device.CUDA) hu hr
  have hrows : ∀ i, i < 4 →
      (Tensor.alloc [4, 3] Device.CPU (Storage.f32 a)).getF i 0 = some 0 ∧
      (Tensor.alloc [4, 3] Device.CPU (Storage.f32 a)).getF i 1 = some 0 ∧
      (Tensor.alloc [4, 3] Device.CPU (Storage.f32 a)).getF i 2 = some 1 := by
    intro i hi
    obtain ⟨a0, a1, a2⟩ := ha i hi
    exact ⟨by simp [Tensor.getF, hi, a0], by simp [Tensor.getF, hi, a1],
      by simp [Tensor.getF, hi, a2]⟩
  refine ⟨_, _, e1, e2, rfl, hrows, rfl, ?_, rfl, rfl, hrows⟩
  simp [MeshData.has_normals, MeshData.mark_dirty, MeshData.to_device, make_quad, quad_vertices,
    Tensor.is_valid, Tensor.to_device, Tensor.device, Tensor.numel]

/-- Witness for C20: the scenario under the exact policy. -/
theorem planar_quad_normals_witness :
    ∃ m1 m2, make_quad.compute_normals exact_policy = some m1 ∧
      (make_quad.to_device Device.CUDA).compute_normals exact_policy = some m2 ∧
      (∀ i, i < 4 → m1.normals.getF i 2 = some 1) ∧
      m2.normals.device = some Device.CUDA ∧
      m2.normals.to_device Device.CPU = m1.normals := by
  obtain ⟨m1, m2, h1, h2, _, h4, _, _, h7, h8, _⟩ :=
    planar_quad_normals exact_policy exact_policy_sqrt exact_policy_weight
  exact ⟨m1, m2, h1, h2, fun i hi => (h4 i hi).2.2, h7, h8⟩
/-- C22 (as amended). The generation counter: it is 0 on every freshly
constructed mesh; `mark_dirty`, and a `compute_normals` that succeeds, leave
`generation()` at the value before plus 1 modulo `2^32`, hence strictly
greater whenever the value before is below `2^32 - 1`; `to(device)` keeps
it. -/
theorem generation_monotone_below_wrap (pol : NormalPolicy) (m : MeshData) :
    (∀ verts idx m0, MeshData.construct verts idx = some m0 → m0.generation = 0) ∧
    ({} : MeshData).generation = 0 ∧
    m.mark_dirty.generation = (m.generation + 1) % 2 ^ 32 ∧
    (m.generation < 2 ^ 32 - 1 →
      m.mark_dirty.generation = m.generation + 1 ∧ m.generation < m.mark_dirty.generation) ∧
    (∀ m1, m.compute_normals pol = some m1 →
      m1.generation = (m.generation + 1) % 2 ^ 32 ∧
      (m.generation < 2 ^ 32 - 1 → m.generation < m1.generation)) ∧
    ∀ d, (m.to_device d).generation = m.generation := by
  have hmod : m.generation < 2 ^ 32 - 1 → (m.generation + 1) % 2 ^ 32 = m.generation + 1 :=
    fun hlt => Nat.mod_eq_of_lt (by omega)
  refine ⟨?_, rfl, rfl, ?_, ?_, fun _ => rfl⟩
  · intro verts idx m0 h
    simp only [MeshData.construct] at h
    split_ifs at h
    cases h
    rfl
  · intro hlt
    rw [mark_dirty_generation, hmod hlt]
    exact ⟨rfl, Nat.lt_succ_self _⟩
  · intro m1 h
    obtain ⟨_, _, t, vh, t1, n0, _, _, _, rfl⟩ := compute_normals_some pol m m1 h
    have h1 : (MeshData.mark_dirty { m with
        normals := (if m.vertices.device = some Device.CUDA then n0.to_device Device.CUDA
                    else n0) }).generation = (m.generation + 1) % 2 ^ 32 := rfl
    refine ⟨h1, fun hlt => ?_⟩
    rw [h1, hmod hlt]
    exact Nat.lt_succ_self _

/-- Witness for C22: the test triangle is constructed with generation 0, and
`mark_dirty` and `compute_normals` each leave it at 1. -/
theorem generation_monotone_below_wrap_witness :
    make_triangle.generation = 0 ∧ make_triangle.mark_dirty.generation = 1 ∧
    ∃ m1, make_triangle.compute_normals exact_policy = some m1 ∧
      make_triangle.generation < m1.generation := by
  obtain ⟨a, h, _⟩ := triangle_compute_normals exact_policy exact_policy_sqrt
    exact_policy_weight make_triangle rfl rfl
  obtain ⟨_, _, _, h4, h5, _⟩ := generation_monotone_below_wrap exact_policy make_triangle
  have h0 : make_triangle.generation = 0 := rfl
  have hlt : make_triangle.generation < 2 ^ 32 - 1 := by rw [h0]; norm_num
  exact ⟨h0, (h4 hlt).1, _, h, (h5 _ h).2 hlt⟩

/-- Counterexample to C22 as stated: with the counter at its largest value
`2^32 - 1`, `mark_dirty` leaves `generation()` at 0, which is smaller. -/
theorem mark_dirty_wraps_generation :
    saturated_triangle.generation = 4294967295 ∧
    saturated_triangle.mark_dirty.generation = 0 ∧
    saturated_triangle.mark_dirty.generation < saturated_triangle.generation := by
  have h0 : saturated_triangle.mark_dirty.generation = 0 := by
    rw [mark_dirty_generation, saturated_generation]
    norm_num
  refine ⟨saturated_generation, h0, ?_⟩
  rw [h0, saturated_generation]
  norm_num

/-- The five setters of the Python wrapper leave the generation counter as it
is. -/
theorem setters_keep_generation (m : MeshData) (t : Tensor) :
    (PyMeshData.set_vertices m t).generation = m.generation ∧
    (PyMeshData.set_normals m t).generation = m.generation ∧
    (PyMeshData.set_indices m t).generation = m.generation ∧
    (PyMeshData.set_texcoords m t).generation = m.generation ∧
    (PyMeshData.set_colors m t).generation = m.generation :=
  ⟨rfl, rfl, rfl, rfl, rfl⟩

/-- C23 (as amended). The wrapper's `compute_normals`, the one operation of
the claim that touches the counter, leaves `generation()` at the value before
plus 1 modulo `2^32` when it succeeds, hence greater than the value before
whenever that value is below `2^32 - 1`. -/
theorem compute_normals_bumps_generation (pol : NormalPolicy) (m m1 : MeshData)
    (h : PyMeshData.compute_normals pol m = some m1) :
    m1.generation = (m.generation + 1) % 2 ^ 32 ∧
    (m.generation < 2 ^ 32 - 1 → m.generation < m1.generation) := by
  obtain ⟨_, _, t, vh, t1, n0, _, _, _, rfl⟩ := compute_normals_some pol m m1 h
  have h1 : (MeshData.mark_dirty { m with
      normals := (if m.vertices.device = some Device.CUDA then n0.to_device Device.CUDA
                  else n0) }).generation = (m.generation + 1) % 2 ^ 32 := rfl
  refine ⟨h1, fun hlt => ?_⟩
  rw [h1, Nat.mod_eq_of_lt (by omega)]
  exact Nat.lt_succ_self _

/-- Witness for C23: `compute_normals()` through the wrapper on the test
triangle takes the generation from 0 to 1. -/
theorem compute_normals_bumps_generation_witness :
    ∃ m1, PyMeshData.compute_normals exact_policy make_triangle = some m1 ∧
      m1.generation = 1 ∧ make_triangle.generation < m1.generation := by
  obtain ⟨a, h, _⟩ := triangle_compute_normals exact_policy exact_policy_sqrt
    exact_policy_weight make_triangle rfl rfl
  obtain ⟨h1, h2⟩ := compute_normals_bumps_generation exact_policy make_triangle _ h
  have h0 : make_triangle.generation = 0 := rfl
  exact ⟨_, h, h1, h2 (by rw [h0]; norm_num)⟩

/-- Counterexample to C23 as stated: on the test triangle, generation 0, each
of the five setters leaves `generation()` at 0, not greater; and with the
counter at `2^32 - 1` a successful `compute_normals()` leaves it at 0. -/
theorem generation_not_bumped :
    (make_triangle.generation = 0 ∧
      (PyMeshData.set_vertices make_triangle quad_vertices).generation = 0 ∧
      (PyMeshData.set_normals make_triangle triangle_vertices).generation = 0 ∧
      (PyMeshData.set_indices make_triangle quad_indices).generation = 0 ∧
      (PyMeshData.set_texcoords make_triangle triangle_vertices).generation = 0 ∧
      (PyMeshData.set_colors make_triangle triangle_vertices).generation = 0) ∧
    (saturated_triangle.generation = 4294967295 ∧
      ∃ m1, PyMeshData.compute_normals exact_policy saturated_triangle = some m1 ∧
        m1.generation = 0) := by
  refine ⟨⟨rfl, rfl, rfl, rfl, rfl, rfl⟩, saturated_generation, ?_⟩
  obtain ⟨a, h, _⟩ := triangle_compute_normals exact_policy exact_policy_sqrt
    exact_policy_weight saturated_triangle rfl rfl
  exact ⟨_, h, saturated_mark_dirty a⟩
/-- The coloured store is accepted by `from_openmesh`. -/
theorem colored_store_from : ∃ m, from_openmesh colored_store = some m :=
  (from_openmesh_spec colored_store (by decide) (by decide) (by decide) (by decide)).imp
    (fun _ h => h.1)

/-- C25. Colour conversion in `from_openmesh`: for every store with
per-vertex colours that `from_openmesh` accepts, `colors` is a Float32
`[V, 4]` buffer whose row `i` is `(r/255, g/255, b/255, 1)` for the
components `(r, g, b)` stored at handle `i`; for 8-bit components every value
of the row lies in `[0, 1]`. -/
theorem from_openmesh_color_conversion (t : TriMesh) (m : MeshData)
    (h : from_openmesh t = some m) (hc : t.has_vertex_colors = true) :
    m.has_colors = true ∧ m.colors.shape = [t.n_vertices, 4] ∧
    m.colors.dtype = some DataType.Float32 ∧
    ∀ i, i < t.n_vertices → ∃ c, t.color i = some c ∧
      m.colors.getF i 0 = some ((c.r : ℚ) / 255) ∧
      m.colors.getF i 1 = some ((c.g : ℚ) / 255) ∧
      m.colors.getF i 2 = some ((c.b : ℚ) / 255) ∧
      m.colors.getF i 3 = some 1 ∧
      (c.r ≤ 255 → c.g ≤ 255 → c.b ≤ 255 →
        ∀ j, j < 4 → ∃ x, m.colors.getF i j = some x ∧ 0 ≤ x ∧ x ≤ 1) := by
  obtain ⟨hs, hv, _, _, _⟩ := from_openmesh_some_spec t m h
  have hcol := hs.colors
  simp only [TriMesh.n_vertices]
  cases hvc : t.vertex_colors with
  | none => simp [TriMesh.has_vertex_colors, hvc] at hc
  | some f =>
    rw [hvc] at hcol
    obtain ⟨a, ha, harow⟩ := hcol
    refine ⟨by rw [(hs.presence hv).2.2]; exact hc, by rw [ha]; rfl, by rw [ha]; rfl, ?_⟩
    intro i hi
    have e0 : m.colors.getF i 0 = some (((f i).r : ℚ) / 255) := by
      rw [ha, Tensor.getF_alloc _ _ _ _ _ _ hi (by omega), harow i 0 hi (by omega)]
      simp [Vec3uc.get]
    have e1 : m.colors.getF i 1 = some (((f i).g : ℚ) / 255) := by
      rw [ha, Tensor.getF_alloc _ _ _ _ _ _ hi (by omega), harow i 1 hi (by omega)]
      simp [Vec3uc.get]
    have e2 : m.colors.getF i 2 = some (((f i).b : ℚ) / 255) := by
      rw [ha, Tensor.getF_alloc _ _ _ _ _ _ hi (by omega), harow i 2 hi (by omega)]
      simp [Vec3uc.get]
    have e3 : m.colors.getF i 3 = some 1 := by
      rw [ha, Tensor.getF_alloc _ _ _ _ _ _ hi (by omega), harow i 3 hi (by omega)]
      simp
    refine ⟨f i, by simp [TriMesh.color, hvc, hi], e0, e1, e2, e3, ?_⟩
    intro hr hg hb j hj
    have unit : ∀ n : Nat, n ≤ 255 → (0 : ℚ) ≤ (n : ℚ) / 255 ∧ (n : ℚ) / 255 ≤ 1 := by
      intro n hn
      have h1 : (n : ℚ) ≤ 255 := by exact_mod_cast hn
      have h0 : (0 : ℚ) ≤ (n : ℚ) := Nat.cast_nonneg n
      constructor
      · positivity
      · rw [div_le_one (by norm_num)]; exact h1
    interval_cases j
    · exact ⟨_, e0, unit _ hr⟩
    · exact ⟨_, e1, unit _ hg⟩
    · exact ⟨_, e2, unit _ hb⟩
    · exact ⟨_, e3, by norm_num, le_refl _⟩

/-- Witness for C25: the store coloured `(255, 128, 0)` gives the row
`(1, 128/255, 0, 1)` at vertex 0. -/
theorem from_openmesh_color_conversion_witness :
    ∃ m, from_openmesh colored_store = some m ∧ m.colors.shape = [3, 4] ∧
      m.colors.getF 0 0 = some 1 ∧ m.colors.getF 0 1 = some (128 / 255) ∧
      m.colors.getF 0 2 = some 0 ∧ m.colors.getF 0 3 = some 1 := by
  obtain ⟨m, hm⟩ := colored_store_from
  obtain ⟨_, h2, _, h4⟩ := from_openmesh_color_conversion colored_store m hm rfl
  obtain ⟨c, hc, e0, e1, e2, e3, _⟩ := h4 0 (by decide)
  have hc0 : c = ⟨255, 128, 0⟩ := by
    have : colored_store.color 0 = some ⟨255, 128, 0⟩ := rfl
    rw [this] at hc
    exact (Option.some.inj hc).symm
  subst hc0
  refine ⟨m, hm, h2, ?_, ?_, ?_, e3⟩
  · rw [e0]; norm_num
  · rw [e1]; norm_num
  · rw [e2]; norm_num

/-- C27. Frame of `compute_normals`: when the call succeeds, vertices,
indices, tangents, texcoords, colors, materials, submeshes and texture images
are exactly as before (only normals and the generation change), and a second
call succeeds and produces the same normals. -/
theorem compute_normals_frame (pol : NormalPolicy) (m m1 : MeshData)
    (h : m.compute_normals pol = some m1) :
    m1.vertices = m.vertices ∧ m1.indices = m.indices ∧ m1.tangents = m.tangents ∧
    m1.texcoords = m.texcoords ∧ m1.colors = m.colors ∧ m1.materials = m.materials ∧
    m1.submeshes = m.submeshes ∧ m1.texture_images = m.texture_images ∧
    ∃ m2, m1.compute_normals pol = some m2 ∧ m2.normals = m1.normals := by
  obtain ⟨hv, hi, t, vh, t1, n0, hb, hu, hr, rfl⟩ := compute_normals_some pol m m1 h
  refine ⟨rfl, rfl, rfl, rfl, rfl, rfl, rfl, rfl, ?_⟩
  exact ⟨_, compute_normals_of_blocks pol _ t t1 vh n0 hv hi hb hu hr, rfl⟩

/-- Witness for C27: two calls on the test triangle. -/
theorem compute_normals_frame_witness :
    ∃ m1 m2, make_triangle.compute_normals exact_policy = some m1 ∧
      m1.vertices = make_triangle.vertices ∧ m1.indices = make_triangle.indices ∧
      m1.compute_normals exact_policy = some m2 ∧ m2.normals = m1.normals := by
  obtain ⟨a, h, _⟩ := triangle_compute_normals exact_policy exact_policy_sqrt
    exact_policy_weight make_triangle rfl rfl
  obtain ⟨h1, h2, _, _, _, _, _, _, m2, h9, h10⟩ :=
    compute_normals_frame exact_policy make_triangle _ h
  exact ⟨_, m2, h, h1, h2, h9, h10⟩
/-- C28 (as amended). The bridge round trip is not total on face-less
meshes: for every mesh with conforming shapes, at most `INT_MAX` vertices and
no face, `to_openmesh` returns a store with `V` vertices and no face, and
`from_openmesh` fails on that store; this includes `V = 0`. -/
theorem faceless_roundtrip_fails (m : MeshData) (hw : m.WellShaped)
    (hmax : m.vertex_count ≤ INT_MAX) (hF : m.face_count = 0) :
    ∃ t, to_openmesh m = some t ∧ t.n_vertices = m.vertex_count ∧ t.n_faces = 0 ∧
      from_openmesh t = none ∧ (to_openmesh m).bind from_openmesh = none := by
  obtain ⟨t, ht, hts⟩ := to_openmesh_spec m hw hmax
    (fun k j hk _ => absurd hk (by rw [hF]; exact Nat.not_lt_zero k))
  have hnf : t.n_faces = 0 := by rw [← hF]; exact hts.nfaces
  have hnone : from_openmesh t = none := from_openmesh_none_of t (Or.inr (Or.inl hnf))
  exact ⟨t, ht, hts.nverts, hnf, hnone, by rw [ht]; exact hnone⟩

/-- Witness for C28: the three vertices of the test triangle without a
face. -/
theorem faceless_roundtrip_fails_witness :
    faceless_triangle.vertex_count = 3 ∧ faceless_triangle.face_count = 0 ∧
    ∃ t, to_openmesh faceless_triangle = some t ∧ t.n_vertices = 3 ∧ t.n_faces = 0 ∧
      from_openmesh t = none := by
  have hc : faceless_triangle.vertex_count = 3 := make_triangle_counts.1
  have hf : faceless_triangle.face_count = 0 := by
    simp [faceless_triangle, MeshData.face_count, Tensor.is_valid, Tensor.dim, Tensor.shape]
  have hw : faceless_triangle.WellShaped := by
    simp [MeshData.WellShaped, faceless_triangle, triangle_vertices,
      MeshData.vertex_count, MeshData.face_count, Tensor.is_valid, Tensor.dim,
      Tensor.shape, Tensor.dtype, Storage.dtype, MeshData.has_normals,
      MeshData.has_texcoords, MeshData.has_colors]
  obtain ⟨t, h1, h2, h3, h4, _⟩ :=
    faceless_roundtrip_fails faceless_triangle hw (by rw [hc]; decide) hf
  exact ⟨hc, hf, t, h1, by rw [h2, hc], h3, h4⟩

/-- Counterexample to C28 as stated: two meshes with valid vertices of
`V ≥ 1` rows and valid indices of no row on which `to_openmesh` does not
succeed: one has `INT_MAX + 1` vertices, the other a normals buffer with fewer
rows than vertices. -/
theorem to_openmesh_fails_on_faceless_meshes :
    (huge_faceless_mesh.vertices.is_valid = true ∧
      huge_faceless_mesh.indices.is_valid = true ∧
      1 ≤ huge_faceless_mesh.vertex_count ∧ huge_faceless_mesh.face_count = 0 ∧
      to_openmesh huge_faceless_mesh = none) ∧
    (faceless_short_normals.vertices.is_valid = true ∧
      faceless_short_normals.indices.is_valid = true ∧
      1 ≤ faceless_short_normals.vertex_count ∧ faceless_short_normals.face_count = 0 ∧
      to_openmesh faceless_short_normals = none) := by
  have hc : huge_faceless_mesh.vertex_count = 2147483648 := huge_mesh_counts.1
  refine ⟨⟨rfl, rfl, by rw [hc]; decide, ?_, ?_⟩, rfl, rfl, by decide, by decide, ?_⟩
  · simp [huge_faceless_mesh, MeshData.face_count, Tensor.is_valid, Tensor.dim, Tensor.shape]
  · simp [to_openmesh, huge_faceless_mesh, huge_vertices, Tensor.is_valid,
      MeshData.vertex_count, Tensor.dim, Tensor.shape, INT_MAX]
  · have h : (to_openmesh faceless_short_normals).isNone = true := by decide
    exact Option.isNone_iff_eq_none.mp h

/-- C30. Safety of `to_openmesh` under the row-alignment precondition: for
every mesh with conforming shapes (every present attribute with one row per
vertex), at most `INT_MAX` vertices and every index in `[0,V)`, `to_openmesh`
returns a store: no assertion fails and no access is out of range. The
presence rule alone does not give this: some mesh with `[V,3]` vertices,
in-range indices and present normals of fewer than `V` rows gets no store. -/
theorem to_openmesh_safe_under_row_alignment (m : MeshData) (hw : m.WellShaped)
    (hmax : m.vertex_count ≤ INT_MAX) (hr : m.IndicesInRange) :
    (∃ t, to_openmesh m = some t) ∧
    ∃ m1 : MeshData, m1.vertices.shape = [m1.vertex_count, 3] ∧
      m1.indices.shape = [m1.face_count, 3] ∧ m1.vertex_count ≤ INT_MAX ∧
      m1.IndicesInRange ∧ m1.has_normals = true ∧ m1.has_texcoords = false ∧
      m1.has_colors = false ∧ m1.normals.dim 0 < m1.vertex_count ∧
      to_openmesh m1 = none := by
  obtain ⟨t, ht, _⟩ := to_openmesh_spec m hw hmax hr
  refine ⟨⟨t, ht⟩, short_normals_mesh, ?_, ?_, ?_, make_triangle_inRange, ?_, ?_, ?_, ?_, ?_⟩
  · decide
  · decide
  · show make_triangle.vertex_count ≤ INT_MAX
    rw [make_triangle_counts.1]; decide
  · decide
  · decide
  · decide
  · decide
  · have h : (to_openmesh short_normals_mesh).isNone = true := by decide
    exact Option.isNone_iff_eq_none.mp h

/-- Witness for C30: the test triangle with normals `(0, 0, 1)`. -/
theorem to_openmesh_safe_under_row_alignment_witness :
    normals_triangle.WellShaped ∧ normals_triangle.has_normals = true ∧
    ∃ t, to_openmesh normals_triangle = some t :=
  ⟨normals_triangle_wellShaped, normals_triangle_has_normals,
    (to_openmesh_safe_under_row_alignment normals_triangle normals_triangle_wellShaped
      (by show make_triangle.vertex_count ≤ INT_MAX; rw [make_triangle_counts.1]; decide)
      make_triangle_inRange).1⟩
theorem tangents_triangle_wellShaped : tangents_triangle.WellShaped := by
  simp [MeshData.WellShaped, tangents_triangle, make_triangle, triangle_vertices,
    triangle_indices, MeshData.vertex_count, MeshData.face_count, Tensor.is_valid, Tensor.dim,
    Tensor.shape, Tensor.dtype, Storage.dtype, MeshData.has_normals, MeshData.has_texcoords,
    MeshData.has_colors]

/-- C24 (as amended). What the round trip keeps: for every mesh with
conforming shapes, `1 ≤ V ≤ INT_MAX`, `F ≥ 1` and indices in range, both
conversions succeed and each of normals, texcoords and colors that is present
in the mesh is present in the result with the same shape; tangents are never
present in the result. -/
theorem roundtrip_keeps_bridge_attributes (m : MeshData) (hw : m.WellShaped)
    (hV : 1 ≤ m.vertex_count) (hmax : m.vertex_count ≤ INT_MAX) (hF : 1 ≤ m.face_count)
    (hr : m.IndicesInRange) :
    ∃ t m1, to_openmesh m = some t ∧ from_openmesh t = some m1 ∧
      (m.has_normals = true → m1.has_normals = true ∧ m1.normals.shape = m.normals.shape) ∧
      (m.has_texcoords = true →
        m1.has_texcoords = true ∧ m1.texcoords.shape = m.texcoords.shape) ∧
      (m.has_colors = true → m1.has_colors = true ∧ m1.colors.shape = m.colors.shape) ∧
      m1.has_tangents = false ∧ m1.tangents.is_valid = false := by
  obtain ⟨t, ht, hts⟩ := to_openmesh_spec m hw hmax hr
  have hnv : 0 < t.nverts := by rw [hts.nverts]; omega
  obtain ⟨m1, hm1, hfs⟩ := from_openmesh_spec t hnv
    (by rw [hts.nverts]; exact hmax) (by rw [hts.nfaces]; omega) hts.triangles
  obtain ⟨p1, p2, p3⟩ := hfs.presence hnv
  refine ⟨t, m1, ht, hm1, ?_, ?_, ?_, ?_, ?_⟩
  · intro hp
    have h1 := hts.normals
    rw [if_pos hp] at h1
    obtain ⟨f, hf, _⟩ := h1
    have h2 := hfs.normals
    rw [hf] at h2
    obtain ⟨a, ha, _⟩ := h2
    exact ⟨by rw [p1]; simp [TriMesh.has_vertex_normals, hf],
      by rw [ha, (hw.2.2.1 hp).1, hts.nverts]; rfl⟩
  · intro hp
    have h1 := hts.texcoords
    rw [if_pos hp] at h1
    obtain ⟨f, hf, _⟩ := h1
    have h2 := hfs.texcoords
    rw [hf] at h2
    obtain ⟨a, ha, _⟩ := h2
    exact ⟨by rw [p2]; simp [TriMesh.has_vertex_texcoords2D, hf],
      by rw [ha, (hw.2.2.2.1 hp).1, hts.nverts]; rfl⟩
  · intro hp
    have h1 := hts.colors
    rw [if_pos hp] at h1
    obtain ⟨f, hf, _⟩ := h1
    have h2 := hfs.colors
    rw [hf] at h2
    obtain ⟨a, ha, _⟩ := h2
    exact ⟨by rw [p3]; simp [TriMesh.has_vertex_colors, hf],
      by rw [ha, (hw.2.2.2.2 hp).1, hts.nverts]; rfl⟩
  · simp [MeshData.has_tangents, hfs.tangents, Tensor.is_valid]
  · simp [hfs.tangents, Tensor.is_valid]

/-- Witness for C24: the triangle with normals keeps its `[3, 3]` normals. -/
theorem roundtrip_keeps_bridge_attributes_witness :
    ∃ t m1, to_openmesh normals_triangle = some t ∧ from_openmesh t = some m1 ∧
      m1.has_normals = true ∧ m1.normals.shape = [3, 3] := by
  have hc : normals_triangle.vertex_count = 3 := make_triangle_counts.1
  obtain ⟨t, m1, ht, hm1, hn, _⟩ := roundtrip_keeps_bridge_attributes normals_triangle
    normals_triangle_wellShaped (by rw [hc]; decide) (by rw [hc]; decide)
    (by show 1 ≤ make_triangle.face_count; rw [make_triangle_counts.2]) make_triangle_inRange
  exact ⟨t, m1, ht, hm1, (hn normals_triangle_has_normals).1,
    (hn normals_triangle_has_normals).2⟩

/-- Counterexample to C24 as stated: the test triangle with a present
`[3, 4]` tangents buffer goes through both conversions and comes back without
tangents; and the mesh of `INT_MAX + 1` vertices with present normals has no
round trip at all. -/
theorem roundtrip_drops_tangents :
    (1 ≤ tangents_triangle.vertex_count ∧ 1 ≤ tangents_triangle.face_count ∧
      tangents_triangle.IndicesInRange ∧ tangents_triangle.has_tangents = true ∧
      ∃ t m1, to_openmesh tangents_triangle = some t ∧ from_openmesh t = some m1 ∧
        m1.has_tangents = false) ∧
    (1 ≤ huge_normals_mesh.vertex_count ∧ 1 ≤ huge_normals_mesh.face_count ∧
      huge_normals_mesh.IndicesInRange ∧ huge_normals_mesh.has_normals = true ∧
      (to_openmesh huge_normals_mesh).bind from_openmesh = none) := by
  have hc : tangents_triangle.vertex_count = 3 := make_triangle_counts.1
  have hf : tangents_triangle.face_count = 1 := make_triangle_counts.2
  have hh : huge_normals_mesh.vertex_count = 2147483648 := huge_mesh_counts.1
  refine ⟨⟨by rw [hc]; decide, by rw [hf], make_triangle_inRange, ?_, ?_⟩,
    by rw [hh]; decide, ?_, huge_mesh_inRange, ?_, ?_⟩
  · simp [tangents_triangle, MeshData.has_tangents, Tensor.is_valid, Tensor.numel]
  · obtain ⟨t, ht, hts⟩ := to_openmesh_spec tangents_triangle tangents_triangle_wellShaped
      (by rw [hc]; decide) make_triangle_inRange
    obtain ⟨m1, hm1, hfs⟩ := from_openmesh_spec t (by rw [hts.nverts, hc]; decide)
      (by rw [hts.nverts, hc]; decide) (by rw [hts.nfaces, hf]; decide) hts.triangles
    exact ⟨t, m1, ht, hm1, by simp [MeshData.has_tangents, hfs.tangents, Tensor.is_valid]⟩
  · show 1 ≤ huge_mesh.face_count
    rw [huge_mesh_counts.2]
  · simp [huge_normals_mesh, MeshData.has_normals, Tensor.is_valid, Tensor.numel]
  · have : to_openmesh huge_normals_mesh = none := by
      simp [to_openmesh, huge_normals_mesh, huge_mesh, huge_vertices, triangle_indices,
        Tensor.is_valid, MeshData.vertex_count, Tensor.dim, Tensor.shape, INT_MAX]
    rw [this]
    rfl
/-- Quantising the dequantised value of a byte returns the byte. -/
theorem quantize_dequantize (b : Nat) (hb : b ≤ 255) : quantize ((b : ℚ) / 255) = b := by
  have h1 : (b : ℚ) / 255 * 255 = (b : ℚ) := by field_simp
  have h0 : (0 : ℚ) ≤ (b : ℚ) := Nat.cast_nonneg b
  have h2 : (b : ℚ) ≤ 255 := by exact_mod_cast hb
  have hc : clamp ((b : ℚ) / 255 * 255) 0 255 = (b : ℚ) := by
    rw [h1]
    simp only [clamp]
    rw [if_neg (not_lt.mpr h0), if_neg (not_lt.mpr h2)]
  simp only [quantize, hc, to_uchar, h0, if_true]
  have : ⌊(b : ℚ)⌋ = (b : Int) := by
    have := Int.floor_natCast (α := ℚ) b
    exact_mod_cast this
  rw [this, Int.toNat_natCast]
  exact Nat.mod_eq_of_lt (by omega)

/-- In binary32 arithmetic too, quantising the dequantised value of a byte
returns the byte. -/
theorem quantize32_dequantize32 : ∀ b : Nat, b ≤ 255 → quantize32 (dequantize32 b) = b := by
  decide!

/-- The colours of the coloured store are bytes, and its faces refer to its
vertices. -/
theorem colored_store_valid : colored_store.ColorsAreBytes ∧ colored_store.Valid := by
  constructor
  · intro i c hc
    simp only [TriMesh.color, colored_store] at hc
    split at hc
    · cases hc
      exact ⟨by decide, by decide, by decide⟩
    · cases hc
  · intro f hf v hv
    simp [colored_store, triangle_store] at hf
    subst hf
    simp at hv
    show v < 3
    omega

/-- C29. Colour bytes survive topology, mesh, topology: for every byte `b`
the truncation of `clamp((b/255) * 255, 0, 255)` is `b`, in exact arithmetic
and also when the quotient and the product are rounded to binary32; so for
every store with per-vertex 8-bit colours that `from_openmesh` accepts, every
store `to_openmesh` returns for the result has colour storage and the same
colour at every vertex, and `to_openmesh` does return one when the faces of
the store refer to its vertices. -/
theorem color_bytes_survive (t : TriMesh) (m : MeshData) (h : from_openmesh t = some m)
    (hc : t.has_vertex_colors = true) (hbytes : t.ColorsAreBytes) :
    (∀ b : Nat, b ≤ 255 → to_uchar (clamp ((b : ℚ) / 255 * 255) 0 255) = b) ∧
    (∀ b : Nat, b ≤ 255 → quantize32 (dequantize32 b) = b) ∧
    (t.Valid → ∃ t1, to_openmesh m = some t1) ∧
    ∀ t1, to_openmesh m = some t1 → t1.n_vertices = t.n_vertices ∧
      t1.has_vertex_colors = true ∧ ∀ i, i < t.n_vertices → t1.color i = t.color i := by
  obtain ⟨hfs, hnv, hmax, hnf, htri⟩ := from_openmesh_some_spec t m h
  obtain ⟨c1, c2⟩ := hfs.counts
  refine ⟨fun b hb => quantize_dequantize b hb, quantize32_dequantize32, fun hval => ?_, ?_⟩
  · obtain ⟨t1, ht1, _⟩ := to_openmesh_spec m hfs.wellShaped (by rw [c1]; exact hmax)
      (hfs.inRange htri hval)
    exact ⟨t1, ht1⟩
  · intro t1 ht1
    have hmc : m.has_colors = true := by rw [(hfs.presence hnv).2.2]; exact hc
    obtain ⟨hn1, g, hg, hrow⟩ := to_openmesh_some_colors m t1 ht1 hmc
    have hcol := hfs.colors
    cases hvc : t.vertex_colors with
    | none => simp [TriMesh.has_vertex_colors, hvc] at hc
    | some f =>
      rw [hvc] at hcol
      obtain ⟨a, ha, harow⟩ := hcol
      have hn2 : t1.nverts = t.nverts := by rw [hn1, c1]
      refine ⟨hn2, by simp [TriMesh.has_vertex_colors, hg], ?_⟩
      intro i hi
      have hi1 : i < t.nverts := hi
      have hcolor : t.color i = some (f i) := by simp [TriMesh.color, hvc, hi1]
      obtain ⟨br, bg, bb⟩ := hbytes i (f i) hcolor
      obtain ⟨r, gg, b, e0, e1, e2, e3⟩ := hrow i (by rw [c1]; exact hi1)
      rw [ha, Tensor.getF_alloc _ _ _ _ _ _ hi1 (by omega), harow i 0 hi1 (by omega)] at e0
      rw [ha, Tensor.getF_alloc _ _ _ _ _ _ hi1 (by omega), harow i 1 hi1 (by omega)] at e1
      rw [ha, Tensor.getF_alloc _ _ _ _ _ _ hi1 (by omega), harow i 2 hi1 (by omega)] at e2
      simp only [Nat.ofNat_pos, Nat.one_lt_ofNat, Nat.lt_add_one, if_true, Vec3uc.get,
        Option.some.injEq] at e0 e1 e2
      have q0 : quantize r = (f i).r := by
        rw [← e0]; simpa using quantize_dequantize _ br
      have q1 : quantize gg = (f i).g := by
        rw [← e1]; simpa using quantize_dequantize _ bg
      have q2 : quantize b = (f i).b := by
        rw [← e2]; simpa using quantize_dequantize _ bb
      have hfg : g i = f i := by rw [e3, q0, q1, q2]
      simp [TriMesh.color, hg, hvc, hn2, hi1, hfg]

/-- Witness for C29: the store coloured `(255, 128, 0)` keeps that colour at
vertex 0 across the two conversions. -/
theorem color_bytes_survive_witness :
    ∃ m t1, from_openmesh colored_store = some m ∧ to_openmesh m = some t1 ∧
      t1.has_vertex_colors = true ∧ t1.color 0 = some ⟨255, 128, 0⟩ := by
  obtain ⟨m, hm⟩ := colored_store_from
  obtain ⟨_, _, hex, hall⟩ := color_bytes_survive colored_store m hm rfl colored_store_valid.1
  obtain ⟨t1, ht1⟩ := hex colored_store_valid.2
  obtain ⟨_, h2, h3⟩ := hall t1 ht1
  exact ⟨m, t1, hm, ht1, h2, by rw [h3 0 (by decide)]; rfl⟩
/-- The loop that keeps its state agrees with `forLoop`. -/
theorem forLoopRun_spec {σ : Type} (body : Nat → σ → Option σ) (n : Nat) (s : σ) :
    (∀ s1, forLoop body n s = some s1 → forLoopRun body n s = (s1, true)) ∧
    (forLoop body n s = none → (forLoopRun body n s).2 = false) := by
  induction n with
  | zero =>
    refine ⟨fun s1 h => ?_, fun h => ?_⟩
    · simp only [forLoop, Option.some.injEq] at h
      subst h; rfl
    · simp [forLoop] at h
  | succ k ih =>
    obtain ⟨ih1, ih2⟩ := ih
    cases hk : forLoop body k s with
    | none =>
      have hr := ih2 hk
      refine ⟨fun s1 h => ?_, fun _ => ?_⟩
      · simp [forLoop, hk] at h
      · simp [forLoopRun, hr]
    | some a =>
      have hr := ih1 a hk
      refine ⟨fun s1 h => ?_, fun h => ?_⟩
      · simp only [forLoop, hk, Option.some_bind] at h
        simp [forLoopRun, hr, h]
      · simp only [forLoop, hk, Option.some_bind] at h
        simp [forLoopRun, hr, h]

/-- The two embeddings of `compute_normals` agree: the call returns exactly
when the transformer reports it, with the same mesh. -/
theorem compute_normals_run_eq (pol : NormalPolicy) (m : MeshData) :
    m.compute_normals pol =
      if (m.compute_normals_run pol).2 = true then some (m.compute_normals_run pol).1
      else none := by
  by_cases h1 : m.vertices.is_valid = true ∧ m.vertices.ndim = 2 ∧ m.vertices.dim 1 = 3
  swap
  · simp [MeshData.compute_normals, MeshData.compute_normals_run, h1]
  by_cases h2 : m.indices.is_valid = true ∧ m.indices.ndim = 2 ∧ m.indices.dim 1 = 3
  swap
  · simp [MeshData.compute_normals, MeshData.compute_normals_run, h1, h2]
  cases hb : compute_normals_build m with
  | none => simp [MeshData.compute_normals, MeshData.compute_normals_run, h1, h2, hb]
  | some s =>
    cases hu : s.1.update_normals pol with
    | none => simp [MeshData.compute_normals, MeshData.compute_normals_run, h1, h2, hb, hu]
    | some mesh =>
      cases hr : compute_normals_read mesh s.2 m.vertex_count with
      | none =>
        have hrun : (compute_normals_read_run mesh s.2 m.vertex_count).2 = false :=
          (forLoopRun_spec _ _ _).2 hr
        simp [MeshData.compute_normals, MeshData.compute_normals_run, h1, h2, hb, hu, hr, hrun]
      | some n0 =>
        have hrun : compute_normals_read_run mesh s.2 m.vertex_count = (n0, true) :=
          (forLoopRun_spec _ _ _).1 n0 hr
        simp [MeshData.compute_normals, MeshData.compute_normals_run, h1, h2, hb, hu, hr, hrun]
/-- Once the store is built and updated, the read-out of `compute_normals`
runs to its end. -/
theorem compute_normals_read_total (pol : NormalPolicy) (m : MeshData) (t t1 : TriMesh)
    (vh : List Nat) (hb : compute_normals_build m = some (t, vh))
    (hu : t.update_normals pol = some t1) :
    ∃ n0, compute_normals_read t1 vh m.vertex_count = some n0 := by
  obtain ⟨hvh, hnv, _, hvn, _, _, _⟩ := compute_normals_build_some m t vh hb
  obtain ⟨_, _, _, hnorm⟩ := update_normals_some pol t t1 hu
  obtain ⟨fns, _, hn⟩ := hnorm hvn
  obtain ⟨a, ha, _⟩ := compute_normals_read_spec t1 m.vertex_count
    (fun v => TriMesh.calc_vertex_normal pol t fns v)
    (fun i hi => hn i (by rw [hnv]; exact hi))
  exact ⟨_, by rw [hvh]; exact ha⟩

/-- An aborted `compute_normals` leaves the mesh as it was. -/
theorem compute_normals_run_abort (pol : NormalPolicy) (m : MeshData)
    (h : (m.compute_normals_run pol).2 = false) : (m.compute_normals_run pol).1 = m := by
  by_cases h1 : m.vertices.is_valid = true ∧ m.vertices.ndim = 2 ∧ m.vertices.dim 1 = 3
  swap
  · simp [MeshData.compute_normals_run, h1]
  by_cases h2 : m.indices.is_valid = true ∧ m.indices.ndim = 2 ∧ m.indices.dim 1 = 3
  swap
  · simp [MeshData.compute_normals_run, h1, h2]
  cases hb : compute_normals_build m with
  | none => simp [MeshData.compute_normals_run, h1, h2, hb]
  | some s =>
    cases hu : s.1.update_normals pol with
    | none => simp [MeshData.compute_normals_run, h1, h2, hb, hu]
    | some mesh =>
      obtain ⟨n0, hr⟩ := compute_normals_read_total pol m s.1 mesh s.2 hb hu
      have hrun : compute_normals_read_run mesh s.2 m.vertex_count = (n0, true) :=
        (forLoopRun_spec _ _ _).1 n0 hr
      simp [MeshData.compute_normals_run, h1, h2, hb, hu, hrun] at h

/-- The triangle with a face on a missing vertex has an index out of range
and present normals. -/
theorem bad_index_mesh_facts :
    bad_index_mesh.SomeIndexOutOfRange ∧ bad_index_mesh.has_normals = true := by
  refine ⟨⟨0, 2, by decide, by decide, 3, by decide, Or.inr ?_⟩, by decide⟩
  show ((make_triangle.vertex_count : Nat) : Int) ≤ 3
  rw [make_triangle_counts.1]
  decide

/-- C21. No partial success in `compute_normals`: whenever the call aborts,
the mesh it leaves is the mesh it was called on, so `normals` (tensor and
presence) and `generation()` are as before; the call aborts exactly when the
functional embedding returns nothing, and it does abort when `vertices` or
`indices` is invalid or not `N x 3` or some index is outside `[0,V)`. -/
theorem compute_normals_no_partial_success (pol : NormalPolicy) (m : MeshData) :
    ((m.compute_normals_run pol).2 = false ↔ m.compute_normals pol = none) ∧
    ((m.compute_normals_run pol).2 = false →
      (m.compute_normals_run pol).1 = m ∧
      (m.compute_normals_run pol).1.normals = m.normals ∧
      (m.compute_normals_run pol).1.has_normals = m.has_normals ∧
      (m.compute_normals_run pol).1.generation = m.generation) ∧
    (¬ (m.vertices.is_valid = true ∧ m.vertices.ndim = 2 ∧ m.vertices.dim 1 = 3) →
      (m.compute_normals_run pol).2 = false) ∧
    (¬ (m.indices.is_valid = true ∧ m.indices.ndim = 2 ∧ m.indices.dim 1 = 3) →
      (m.compute_normals_run pol).2 = false) ∧
    (m.SomeIndexOutOfRange → (m.compute_normals_run pol).2 = false) := by
  have heq := compute_normals_run_eq pol m
  have hiff : (m.compute_normals_run pol).2 = false ↔ m.compute_normals pol = none := by
    rw [heq]
    cases hrun : (m.compute_normals_run pol).2 <;> simp
  refine ⟨hiff, ?_, ?_, ?_, ?_⟩
  · intro h
    have := compute_normals_run_abort pol m h
    exact ⟨this, by rw [this], by rw [this], by rw [this]⟩
  · intro h1
    simp [MeshData.compute_normals_run, h1]
  · intro h2
    by_cases h1 : m.vertices.is_valid = true ∧ m.vertices.ndim = 2 ∧ m.vertices.dim 1 = 3
    · simp [MeshData.compute_normals_run, h1, h2]
    · simp [MeshData.compute_normals_run, h1]
  · rintro ⟨k, j, hk, hj, x, hx, hbad⟩
    rw [hiff]
    cases hc : m.compute_normals pol with
    | none => rfl
    | some m1 =>
      exfalso
      obtain ⟨_, _, t, vh, t1, n0, hb, _, _, _⟩ := compute_normals_some pol m m1 hc
      obtain ⟨_, _, _, _, _, _, hfaces⟩ := compute_normals_build_some m t vh hb
      obtain ⟨i0, i1, i2, e0, e1, e2, b0, b1, b2, _⟩ := hfaces k hk
      interval_cases j
      · rw [e0] at hx; cases hx; omega
      · rw [e1] at hx; cases hx; omega
      · rw [e2] at hx; cases hx; omega

/-- Witness for C21: on the triangle with normals whose face names a missing
vertex the call aborts and leaves the mesh, its normals and its generation as
they were. -/
theorem compute_normals_no_partial_success_witness :
    bad_index_mesh.SomeIndexOutOfRange ∧ bad_index_mesh.has_normals = true ∧
    (bad_index_mesh.compute_normals_run exact_policy).2 = false ∧
    (bad_index_mesh.compute_normals_run exact_policy).1 = bad_index_mesh ∧
    (bad_index_mesh.compute_normals_run exact_policy).1.generation = 0 := by
  obtain ⟨_, h2, _, _, h5⟩ := compute_normals_no_partial_success exact_policy bad_index_mesh
  have hab := h5 bad_index_mesh_facts.1
  obtain ⟨e1, _, _, e4⟩ := h2 hab
  exact ⟨bad_index_mesh_facts.1, bad_index_mesh_facts.2, hab, e1, by rw [e4]; rfl⟩
/-- C26 (as amended). `compute_normals` builds the topology of the bridge:
for every mesh with valid `N x 3` vertices and indices and at most `INT_MAX`
vertices, the store built inside `compute_normals` is the store `to_openmesh`
returns for the mesh without normals, texcoords and colors, with vertex and
face normal storage requested on it; one is rejected exactly when the other
is; the two stores have the same vertices, positions and faces; and the
normals `compute_normals` writes are the vertex normals `update_normals`
computes on that store, read out in handle order. -/
theorem compute_normals_builds_bridge_topology (pol : NormalPolicy) (m : MeshData)
    (hv : m.vertices.is_valid = true ∧ m.vertices.ndim = 2 ∧ m.vertices.dim 1 = 3)
    (hi : m.indices.is_valid = true ∧ m.indices.ndim = 2 ∧ m.indices.dim 1 = 3)
    (hmax : m.vertex_count ≤ INT_MAX) :
    compute_normals_build m =
      (to_openmesh m.without_attributes).map (fun t =>
        (t.request_vertex_normals.request_face_normals, List.range m.vertex_count)) ∧
    (compute_normals_build m = none ↔ to_openmesh m.without_attributes = none) ∧
    (∀ s vh, compute_normals_build m = some (s, vh) →
      ∃ t, to_openmesh m.without_attributes = some t ∧ s.n_vertices = t.n_vertices ∧
        s.n_faces = t.n_faces ∧ (∀ i, s.point i = t.point i) ∧ s.faces = t.faces) ∧
    ∀ m1, m.compute_normals pol = some m1 →
      ∃ t t1, to_openmesh m.without_attributes = some t ∧
        t.request_vertex_normals.request_face_normals.update_normals pol = some t1 ∧
        ∀ i, i < m.vertex_count → ∃ n, t1.normal i = some n ∧
          ∀ j, j < 3 → m1.normals.getF i j = some (n.get j) := by
  have heq := compute_normals_build_eq m hv.1 hi.1 hmax
  have heq2 : compute_normals_build m =
      (to_openmesh m.without_attributes).map (fun t =>
        (t.request_vertex_normals.request_face_normals, List.range m.vertex_count)) := by
    rw [heq]
    cases ht : to_openmesh m.without_attributes with
    | none => rfl
    | some t => simp only [Option.map_some', without_attributes_store m t ht]
  refine ⟨heq2, ?_, ?_, ?_⟩
  · rw [heq]
    cases to_openmesh m.without_attributes <;> simp
  · intro s vh hb
    rw [heq] at hb
    cases ht : to_openmesh m.without_attributes with
    | none => rw [ht] at hb; cases hb
    | some t =>
      rw [ht] at hb
      simp only [Option.map_some', Option.some.injEq, Prod.mk.injEq] at hb
      obtain ⟨rfl, _⟩ := hb
      exact ⟨t, rfl, rfl, rfl, fun _ => rfl, rfl⟩
  · intro m1 h
    obtain ⟨s, t1, hb, hu, hrows⟩ := compute_normals_rows pol m m1 h
    rw [heq2] at hb
    cases ht : to_openmesh m.without_attributes with
    | none => rw [ht] at hb; cases hb
    | some t =>
      rw [ht] at hb
      simp only [Option.map_some', Option.some.injEq, Prod.mk.injEq, and_true] at hb
      subst hb
      exact ⟨t, t1, rfl, hu, hrows⟩

/-- Witness for C26: the test triangle. -/
theorem compute_normals_builds_bridge_topology_witness :
    ∃ t, to_openmesh make_triangle.without_attributes = some t ∧
      compute_normals_build make_triangle =
        some (t.request_vertex_normals.request_face_normals, List.range 3) := by
  obtain ⟨h1, _, h3, _⟩ := compute_normals_builds_bridge_topology exact_policy make_triangle
    (by decide) (by decide) (by rw [make_triangle_counts.1]; decide)
  obtain ⟨t, ht, _⟩ := h3 _ _ make_triangle_build
  rw [ht, make_triangle_counts.1] at h1
  exact ⟨t, ht, h1⟩

/-- Counterexample to C26 as stated: the mesh of `INT_MAX + 1` vertices and
the face `(0,1,2)` has valid `N x 3` vertices and indices, every index in
range, and `compute_normals` builds its store, while `to_openmesh` on the mesh
without attributes returns no store. -/
theorem compute_normals_builds_where_bridge_rejects :
    (huge_mesh.vertices.is_valid = true ∧ huge_mesh.vertices.ndim = 2 ∧
      huge_mesh.vertices.dim 1 = 3) ∧
    (huge_mesh.indices.is_valid = true ∧ huge_mesh.indices.ndim = 2 ∧
      huge_mesh.indices.dim 1 = 3) ∧
    huge_mesh.IndicesInRange ∧
    (∃ s, compute_normals_build huge_mesh = some s) ∧
    to_openmesh huge_mesh.without_attributes = none := by
  refine ⟨by decide, by decide, huge_mesh_inRange, ?_, ?_⟩
  · apply compute_normals_build_total huge_mesh _ huge_mesh_inRange
    intro i j hi hj
    rw [huge_mesh_counts.1] at hi
    exact ⟨0, by simp [huge_mesh, huge_vertices, Tensor.getF, hi, hj]⟩
  · simp [to_openmesh, MeshData.without_attributes, huge_mesh, huge_vertices, triangle_indices,
      Tensor.is_valid, MeshData.vertex_count, Tensor.dim, Tensor.shape, INT_MAX]

end Lfs
